import Mathlib

/-!
Verification of the `anim_to_vtk` converter
(`src/output_converters/anim_to_vtk/src/main.rs`).

The development shallowly embeds the converter: the byte-stream reader and
the frame decoder become a state-passing reader over a `List Nat` of bytes
returning `Except`, the geometry classifier and part-id resolver become
pure functions, and the serializer becomes a function producing a stream of
output tokens (header lines, int32 values, float32 values identified by
their big-endian bit pattern, and newlines).  Machine integers are modelled
as `Int`/`Nat` with explicit `% 2^w` where wrap-around matters; `f32`
values are never computed with, only moved, so they are carried as their
32-bit big-endian bit patterns (`Nat`).
-/

/-! ## Generic list helpers -/

/-- Concatenation of the images of a function over a list (the loop
`for x in l { emit (f x) }` of the Rust source). -/
def cat_map {α β : Type} (f : α → List β) : List α → List β
  | [] => []
  | a :: l => f a ++ cat_map f l

/-! ## Rust primitive models -/

/-- The `usize` reinterpretation of an `i32` (Rust `as usize` on a 64-bit
target: two's-complement sign extension reinterpreted as unsigned). -/
def to_usize (x : Int) : Nat := (x % (2 ^ 64 : Int)).toNat

/-- Rust `char::is_whitespace` (the Unicode `White_Space` property),
used by `str::trim`. -/
def rust_is_whitespace (c : Char) : Bool :=
  let n := c.toNat
  (0x9 ≤ n ∧ n ≤ 0xd) ∨ n = 0x20 ∨ n = 0x85 ∨ n = 0xa0 ∨ n = 0x1680 ∨
  (0x2000 ≤ n ∧ n ≤ 0x200a) ∨ n = 0x2028 ∨ n = 0x2029 ∨ n = 0x202f ∨
  n = 0x205f ∨ n = 0x3000

/-- Rust `str::trim`: drop leading and trailing whitespace. -/
def rust_trim (s : String) : String :=
  String.mk (((s.data.dropWhile rust_is_whitespace).reverse.dropWhile
    rust_is_whitespace).reverse)

/-- Rust `<i32 as FromStr>::from_str`: an optional sign followed by one or
more ASCII digits, rejecting anything else and values outside
`[-2^31, 2^31 - 1]`. -/
def parse_i32 (s : String) : Option Int :=
  match s.data with
  | [] => none
  | c :: rest =>
    let p : Bool × List Char :=
      if c = '-' then (true, rest)
      else if c = '+' then (false, rest) else (false, c :: rest)
    if p.2 = [] then none
    else if p.2.all Char.isDigit then
      let v : Nat := p.2.foldl (fun a c => a * 10 + (c.toNat - 48)) 0
      if p.1 then (if v ≤ 2 ^ 31 then some (-(v : Int)) else none)
      else (if v < 2 ^ 31 then some (v : Int) else none)
    else none

/-- Model of `replace_underscore` (main.rs:92): replace each space with an
underscore. -/
def replace_underscore (s : String) : String :=
  String.mk (s.data.map (fun c => if c = ' ' then '_' else c))

/-! ## Part-ID resolver (main.rs:791-910)

For each element family the serializer keeps a cursor over the part
boundary table `def_part`; per element it advances the cursor at most once
(an `if`, main.rs:855) when the boundary entry equals the element index,
then emits the integer parsed from the trimmed label at the cursor
(`unwrap_or(0)`), or `0` once the cursor is exhausted. -/

/-- One cursor-advance test of the PART_ID loop
(`if part_index < nb_parts && iel == def_part[part_index] as usize`). -/
def part_advance (def_part : List Int) (nb_parts cursor iel : Nat) : Nat :=
  if cursor < nb_parts ∧ to_usize (def_part.getD cursor 0) = iel then
    cursor + 1
  else cursor

/-- The part id emitted for one element given the cursor position
(`p_text[part_index].trim().parse().unwrap_or(0)`, else `0`). -/
def part_assign (p_text : List String) (nb_parts cursor : Nat) : Int :=
  if cursor < nb_parts then
    (parse_i32 (rust_trim (p_text.getD cursor ""))).getD 0
  else 0

/-- The PART_ID loop of the serializer: `k` remaining elements, current
element index `iel`, current cursor. -/
def resolve_go (def_part : List Int) (p_text : List String)
    (nb_parts : Nat) : Nat → Nat → Nat → List Int
  | 0, _, _ => []
  | k + 1, iel, cursor =>
      let c := part_advance def_part nb_parts cursor iel
      part_assign p_text nb_parts c ::
        resolve_go def_part p_text nb_parts k (iel + 1) c

/-- Per-family part-id resolution (main.rs:854-909): the part ids emitted
for elements `0, …, n-1`. -/
def resolve_part_ids (def_part : List Int) (p_text : List String)
    (nb_parts n : Nat) : List Int :=
  resolve_go def_part p_text nb_parts n 0 0

/-- The cursor in effect before element `i` is processed, recomputed
directly (element `i` first applies `part_advance`, then assigns). -/
def cursor_after (def_part : List Int) (nb_parts : Nat) : Nat → Nat
  | 0 => 0
  | i + 1 => part_advance def_part nb_parts (cursor_after def_part nb_parts i) i

/-- Modelled from the spec (§4.4): a *while* loop advancing the cursor as
long as it is valid and the boundary equals the element index.  Written
with explicit fuel `nb_parts + 1 - cursor`, which suffices because every
advance requires `cursor < nb_parts`. -/
def spec_advance_fuel (def_part : List Int) (nb_parts iel : Nat) :
    Nat → Nat → Nat
  | 0, cursor => cursor
  | fuel + 1, cursor =>
      if cursor < nb_parts ∧ to_usize (def_part.getD cursor 0) = iel then
        spec_advance_fuel def_part nb_parts iel fuel (cursor + 1)
      else cursor

/-- Modelled from the spec (§4.4): resolver whose per-element advance is a
while loop rather than a single conditional step. -/
def spec_resolve_go (def_part : List Int) (p_text : List String)
    (nb_parts : Nat) : Nat → Nat → Nat → List Int
  | 0, _, _ => []
  | k + 1, iel, cursor =>
      let c := spec_advance_fuel def_part nb_parts iel
        (nb_parts + 1 - cursor) cursor
      part_assign p_text nb_parts c ::
        spec_resolve_go def_part p_text nb_parts k (iel + 1) c

/-- Modelled from the spec (§4.4): part-id resolution with while-advance. -/
def spec_resolve_part_ids (def_part : List Int) (p_text : List String)
    (nb_parts n : Nat) : List Int :=
  spec_resolve_go def_part p_text nb_parts n 0 0

/-! ## Geometry classifier (main.rs:509-539)

The source inserts the connectivity entries of a cell into a
`BTreeSet<i32>` and counts its size; iterating the set yields the distinct
values in ascending order.  The set is modelled as a sorted
duplicate-free list built by ordered insertion. -/

/-- Ordered duplicate-free insertion (`BTreeSet::insert`). -/
def btree_insert : List Int → Int → List Int
  | [], x => [x]
  | a :: l, x =>
      if x < a then x :: a :: l
      else if x = a then a :: l
      else a :: btree_insert l x

/-- The `BTreeSet` of the values of a list, as its ascending iteration
order. -/
def distinct_nodes (c : List Int) : List Int := c.foldl btree_insert []

/-- The four connectivity entries of 2-D cell `i`
(`connect_a[icon * 4 + k]`). -/
def cell4 (connect : List Int) (i : Nat) : List Int :=
  [connect.getD (i * 4) 0, connect.getD (i * 4 + 1) 0,
   connect.getD (i * 4 + 2) 0, connect.getD (i * 4 + 3) 0]

/-- The eight connectivity entries of 3-D cell `i`
(`connect_3d[icon * 8 + k]`). -/
def cell8 (connect : List Int) (i : Nat) : List Int :=
  [connect.getD (i * 8) 0, connect.getD (i * 8 + 1) 0,
   connect.getD (i * 8 + 2) 0, connect.getD (i * 8 + 3) 0,
   connect.getD (i * 8 + 4) 0, connect.getD (i * 8 + 5) 0,
   connect.getD (i * 8 + 6) 0, connect.getD (i * 8 + 7) 0]

/-- Number of 3-D cells recognised as degenerate tetrahedra
(main.rs:510-523). -/
def tetra_count (connect_3d : List Int) (nb : Nat) : Nat :=
  ((List.range nb).filter
    (fun i => (distinct_nodes (cell8 connect_3d i)).length == 4)).length

/-! ## Output token model

One constructor per primitive the serializer can emit: a full text line
(headers and keywords, written with `writeln!`), a 32-bit integer, a
32-bit float carried as its bit pattern, the one `f64` value (the TIME
field, whose written bytes are the exact widening of the frame's `f32`
time, recorded here by the original 32-bit pattern), and a newline.
In ASCII mode numeric values are printed in decimal and newlines separate
rows; in binary mode values are written as big-endian bytes.  The logical
view erases formatting (newlines) and identifies the widened time with
its `f32` origin (`f32`-to-`f64` widening is exact and injective), which
is the collaborator's reading of both encodings. -/

inductive Tok : Type where
  | line (s : String)
  | tInt (n : Int)
  | tF32 (b : Nat)
  | tTimeF64 (b : Nat)
  | nl
deriving DecidableEq

inductive LTok : Type where
  | hline (s : String)
  | lInt (n : Int)
  | lF32 (b : Nat)
deriving DecidableEq

def logical_tok : Tok → List LTok
  | Tok.line s => [LTok.hline s]
  | Tok.tInt n => [LTok.lInt n]
  | Tok.tF32 b => [LTok.lF32 b]
  | Tok.tTimeF64 b => [LTok.lF32 b]
  | Tok.nl => []

/-- The logical content of a token stream: formatting erased. -/
def logical (ts : List Tok) : List LTok := cat_map logical_tok ts

def value_tok : Tok → List LTok
  | Tok.line _ => []
  | Tok.tInt n => [LTok.lInt n]
  | Tok.tF32 b => [LTok.lF32 b]
  | Tok.tTimeF64 b => [LTok.lF32 b]
  | Tok.nl => []

/-- The data values of a token stream: headers and formatting erased. -/
def data_values (ts : List Tok) : List LTok := cat_map value_tok ts

/-- Bit pattern of `0.0f32`, the zero used for cross-family padding. -/
def z32 : Nat := 0

/-! ## Mesh serializer (main.rs:459-1361)

Each section mirrors the corresponding write block of
`read_radioss_anim`; the first argument selects binary (`true`) or ASCII
(`false`) mode, exactly as `binary_format` does.  In the ASCII branches a
literal `0` written into a float-typed SCALARS/TENSORS section denotes the
float zero and is embedded as `Tok.tF32 z32`. -/

/-- Header block (main.rs:462-469). -/
def header_tokens (b : Bool) : List Tok :=
  [Tok.line "# vtk DataFile Version 3.0", Tok.line "vtk output",
   Tok.line (if b then "BINARY" else "ASCII"),
   Tok.line "DATASET UNSTRUCTURED_GRID"]

/-- FIELD data: TIME and CYCLE (main.rs:471-485). -/
def field_data_tokens (b : Bool) (a_time : Nat) : List Tok :=
  [Tok.line "FIELD FieldData 2", Tok.line "TIME 1 1 double"] ++
  (if b then [Tok.tTimeF64 a_time, Tok.nl] else [Tok.tF32 a_time, Tok.nl]) ++
  [Tok.line "CYCLE 1 1 int"] ++
  (if b then [Tok.tInt 0, Tok.nl] else [Tok.tInt 0, Tok.nl])

/-- POINTS section (main.rs:487-507). -/
def points_tokens (b : Bool) (coor_a : List Nat) (nb_nodes : Nat) :
    List Tok :=
  [Tok.line ("POINTS " ++ toString nb_nodes ++ " float")] ++
  (if b then
    cat_map (fun i =>
      [Tok.tF32 (coor_a.getD (3 * i) 0), Tok.tF32 (coor_a.getD (3 * i + 1) 0),
       Tok.tF32 (coor_a.getD (3 * i + 2) 0)]) (List.range nb_nodes)
  else
    cat_map (fun i =>
      [Tok.tF32 (coor_a.getD (3 * i) 0), Tok.tF32 (coor_a.getD (3 * i + 1) 0),
       Tok.tF32 (coor_a.getD (3 * i + 2) 0), Tok.nl]) (List.range nb_nodes)) ++
  [Tok.nl]

/-- CELLS entries for 1-D elements (main.rs:551-555, 589-598). -/
def cells_1d_tokens (b : Bool) (connect_1d : List Int) (nb_elts_1d : Nat) :
    List Tok :=
  if b then
    cat_map (fun i =>
      [Tok.tInt 2, Tok.tInt (connect_1d.getD (i * 2) 0),
       Tok.tInt (connect_1d.getD (i * 2 + 1) 0)]) (List.range nb_elts_1d)
  else
    cat_map (fun i =>
      [Tok.tInt 2, Tok.tInt (connect_1d.getD (i * 2) 0),
       Tok.tInt (connect_1d.getD (i * 2 + 1) 0), Tok.nl])
      (List.range nb_elts_1d)

/-- CELLS entries for 2-D elements (main.rs:557-564, 599-610): every facet
is written as a 4-index entry. -/
def cells_2d_tokens (b : Bool) (connect_a : List Int) (nb_facets : Nat) :
    List Tok :=
  if b then
    cat_map (fun i =>
      [Tok.tInt 4, Tok.tInt (connect_a.getD (i * 4) 0),
       Tok.tInt (connect_a.getD (i * 4 + 1) 0),
       Tok.tInt (connect_a.getD (i * 4 + 2) 0),
       Tok.tInt (connect_a.getD (i * 4 + 3) 0)]) (List.range nb_facets)
  else
    cat_map (fun i =>
      [Tok.tInt 4, Tok.tInt (connect_a.getD (i * 4) 0),
       Tok.tInt (connect_a.getD (i * 4 + 1) 0),
       Tok.tInt (connect_a.getD (i * 4 + 2) 0),
       Tok.tInt (connect_a.getD (i * 4 + 3) 0), Tok.nl])
      (List.range nb_facets)

/-- CELLS entries for 3-D elements (main.rs:566-582, 612-638): a cell with
exactly 4 distinct indices is written as `4` followed by the ascending
`BTreeSet` iteration, any other cell as `8` followed by the raw indices. -/
def cells_3d_tokens (b : Bool) (connect_3d : List Int) (nb_elts_3d : Nat) :
    List Tok :=
  if b then
    cat_map (fun i =>
      if (distinct_nodes (cell8 connect_3d i)).length = 4 then
        Tok.tInt 4 :: (distinct_nodes (cell8 connect_3d i)).map Tok.tInt
      else
        Tok.tInt 8 :: (cell8 connect_3d i).map Tok.tInt)
      (List.range nb_elts_3d)
  else
    cat_map (fun i =>
      (if (distinct_nodes (cell8 connect_3d i)).length = 4 then
        Tok.tInt 4 :: (distinct_nodes (cell8 connect_3d i)).map Tok.tInt
      else
        Tok.tInt 8 :: (cell8 connect_3d i).map Tok.tInt) ++ [Tok.nl])
      (List.range nb_elts_3d)

/-- CELLS entries for SPH particles (main.rs:584-587, 640-642). -/
def cells_sph_tokens (b : Bool) (connec_sph : List Int) (nb_elts_sph : Nat) :
    List Tok :=
  if b then
    cat_map (fun i => [Tok.tInt 1, Tok.tInt (connec_sph.getD i 0)])
      (List.range nb_elts_sph)
  else
    cat_map (fun i => [Tok.tInt 1, Tok.tInt (connec_sph.getD i 0), Tok.nl])
      (List.range nb_elts_sph)

/-- Combined cell count (main.rs:541). -/
def total_cells (nb_elts_1d nb_facets nb_elts_3d nb_elts_sph : Nat) : Nat :=
  nb_elts_1d + nb_facets + nb_elts_3d + nb_elts_sph

/-- CELLS index-list size (main.rs:543-547). -/
def cells_size (connect_3d : List Int)
    (nb_elts_1d nb_facets nb_elts_3d nb_elts_sph : Nat) : Nat :=
  nb_elts_1d * 3 + nb_facets * 5 + tetra_count connect_3d nb_elts_3d * 5 +
    (nb_elts_3d - tetra_count connect_3d nb_elts_3d) * 9 + nb_elts_sph * 2

/-- CELLS section (main.rs:541-645), including the unconditional trailing
blank line. -/
def cells_tokens (b : Bool) (connect_1d : List Int) (nb_elts_1d : Nat)
    (connect_a : List Int) (nb_facets : Nat)
    (connect_3d : List Int) (nb_elts_3d : Nat)
    (connec_sph : List Int) (nb_elts_sph : Nat) : List Tok :=
  (if total_cells nb_elts_1d nb_facets nb_elts_3d nb_elts_sph > 0 then
    [Tok.line ("CELLS " ++
      toString (total_cells nb_elts_1d nb_facets nb_elts_3d nb_elts_sph) ++
      " " ++
      toString (cells_size connect_3d nb_elts_1d nb_facets nb_elts_3d
        nb_elts_sph))] ++
    cells_1d_tokens b connect_1d nb_elts_1d ++
    cells_2d_tokens b connect_a nb_facets ++
    cells_3d_tokens b connect_3d nb_elts_3d ++
    cells_sph_tokens b connec_sph nb_elts_sph
  else []) ++ [Tok.nl]

/-- CELL_TYPES section (main.rs:647-694), including the unconditional
trailing blank line. -/
def cell_types_tokens (b : Bool) (nb_elts_1d : Nat)
    (connect_a : List Int) (nb_facets : Nat)
    (connect_3d : List Int) (nb_elts_3d : Nat) (nb_elts_sph : Nat) :
    List Tok :=
  (if total_cells nb_elts_1d nb_facets nb_elts_3d nb_elts_sph > 0 then
    [Tok.line ("CELL_TYPES " ++
      toString (total_cells nb_elts_1d nb_facets nb_elts_3d nb_elts_sph))] ++
    (if b then
      cat_map (fun _ => [Tok.tInt 3]) (List.range nb_elts_1d) ++
      cat_map (fun i =>
        [Tok.tInt (if (distinct_nodes (cell4 connect_a i)).length = 3
          then 5 else 9)]) (List.range nb_facets) ++
      cat_map (fun i =>
        [Tok.tInt (if (distinct_nodes (cell8 connect_3d i)).length = 4
          then 10 else 12)]) (List.range nb_elts_3d) ++
      cat_map (fun _ => [Tok.tInt 1]) (List.range nb_elts_sph)
    else
      cat_map (fun _ => [Tok.tInt 3, Tok.nl]) (List.range nb_elts_1d) ++
      cat_map (fun i =>
        [Tok.tInt (if (distinct_nodes (cell4 connect_a i)).length = 3
          then 5 else 9), Tok.nl]) (List.range nb_facets) ++
      cat_map (fun i =>
        [Tok.tInt (if (distinct_nodes (cell8 connect_3d i)).length = 4
          then 10 else 12), Tok.nl]) (List.range nb_elts_3d) ++
      cat_map (fun _ => [Tok.tInt 1, Tok.nl]) (List.range nb_elts_sph))
  else []) ++ [Tok.nl]

/-- NODE_ID point-data section (main.rs:699-711). -/
def node_id_tokens (b : Bool) (nod_num_a : List Int) (nb_nodes : Nat) :
    List Tok :=
  [Tok.line "SCALARS NODE_ID int 1", Tok.line "LOOKUP_TABLE default"] ++
  (if b then
    cat_map (fun i => [Tok.tInt (nod_num_a.getD i 0)]) (List.range nb_nodes)
  else
    cat_map (fun i => [Tok.tInt (nod_num_a.getD i 0), Tok.nl])
      (List.range nb_nodes)) ++
  [Tok.nl]

/-- Named nodal scalar fields (main.rs:713-727). -/
def node_scalars_tokens (b : Bool) (f_text_a : List String)
    (func_a : List Nat) (nb_func nb_nodes : Nat) : List Tok :=
  cat_map (fun ifun =>
    [Tok.line ("SCALARS " ++ replace_underscore (f_text_a.getD ifun "") ++
      " float 1"), Tok.line "LOOKUP_TABLE default"] ++
    (if b then
      cat_map (fun i => [Tok.tF32 (func_a.getD (ifun * nb_nodes + i) 0)])
        (List.range nb_nodes)
    else
      cat_map (fun i =>
        [Tok.tF32 (func_a.getD (ifun * nb_nodes + i) 0), Tok.nl])
        (List.range nb_nodes)) ++
    [Tok.nl]) (List.range nb_func)

/-- Named nodal vector fields (main.rs:729-751). -/
def node_vectors_tokens (b : Bool) (v_text_a : List String)
    (vect_val_a : List Nat) (nb_vect nb_nodes : Nat) : List Tok :=
  cat_map (fun iv =>
    [Tok.line ("VECTORS " ++ replace_underscore (v_text_a.getD iv "") ++
      " float")] ++
    (if b then
      cat_map (fun i =>
        [Tok.tF32 (vect_val_a.getD (3 * i + iv * 3 * nb_nodes) 0),
         Tok.tF32 (vect_val_a.getD (3 * i + 1 + iv * 3 * nb_nodes) 0),
         Tok.tF32 (vect_val_a.getD (3 * i + 2 + iv * 3 * nb_nodes) 0)])
        (List.range nb_nodes)
    else
      cat_map (fun i =>
        [Tok.tF32 (vect_val_a.getD (3 * i + iv * 3 * nb_nodes) 0),
         Tok.tF32 (vect_val_a.getD (3 * i + 1 + iv * 3 * nb_nodes) 0),
         Tok.tF32 (vect_val_a.getD (3 * i + 2 + iv * 3 * nb_nodes) 0),
         Tok.nl]) (List.range nb_nodes)) ++
    [Tok.nl]) (List.range nb_vect)

/-- ELEMENT_ID cell-data section (main.rs:755-785): external element
numbers concatenated in family order 1-D, 2-D, 3-D, SPH. -/
def element_id_tokens (b : Bool)
    (el_num_1d el_num_a el_num_3d nod_num_sph : List Int)
    (nb_elts_1d nb_facets nb_elts_3d nb_elts_sph : Nat) : List Tok :=
  [Tok.line "SCALARS ELEMENT_ID int 1", Tok.line "LOOKUP_TABLE default"] ++
  (if b then
    cat_map (fun i => [Tok.tInt (el_num_1d.getD i 0)])
      (List.range nb_elts_1d) ++
    cat_map (fun i => [Tok.tInt (el_num_a.getD i 0)])
      (List.range nb_facets) ++
    cat_map (fun i => [Tok.tInt (el_num_3d.getD i 0)])
      (List.range nb_elts_3d) ++
    cat_map (fun i => [Tok.tInt (nod_num_sph.getD i 0)])
      (List.range nb_elts_sph)
  else
    cat_map (fun i => [Tok.tInt (el_num_1d.getD i 0), Tok.nl])
      (List.range nb_elts_1d) ++
    cat_map (fun i => [Tok.tInt (el_num_a.getD i 0), Tok.nl])
      (List.range nb_facets) ++
    cat_map (fun i => [Tok.tInt (el_num_3d.getD i 0), Tok.nl])
      (List.range nb_elts_3d) ++
    cat_map (fun i => [Tok.tInt (nod_num_sph.getD i 0), Tok.nl])
      (List.range nb_elts_sph)) ++
  [Tok.nl]

/-- PART_ID cell-data section (main.rs:787-911): the resolver of
`resolve_part_ids` run per family with an independent cursor; the 1-D and
2-D families are bounded by their part counts, the 3-D and SPH families by
the length of their label tables. -/
def part_id_tokens (b : Bool)
    (def_part_1d : List Int) (p_text_1d : List String)
    (nb_parts_1d nb_elts_1d : Nat)
    (def_part_a : List Int) (p_text_a : List String)
    (nb_parts nb_facets : Nat)
    (def_part_3d : List Int) (p_text_3d : List String) (nb_elts_3d : Nat)
    (def_part_sph : List Int) (p_text_sph : List String)
    (nb_elts_sph : Nat) : List Tok :=
  [Tok.line "SCALARS PART_ID int 1", Tok.line "LOOKUP_TABLE default"] ++
  (if b then
    (resolve_part_ids def_part_1d p_text_1d nb_parts_1d nb_elts_1d).map
      Tok.tInt ++
    (resolve_part_ids def_part_a p_text_a nb_parts nb_facets).map
      Tok.tInt ++
    (resolve_part_ids def_part_3d p_text_3d p_text_3d.length nb_elts_3d).map
      Tok.tInt ++
    (resolve_part_ids def_part_sph p_text_sph p_text_sph.length
      nb_elts_sph).map Tok.tInt
  else
    cat_map (fun v => [Tok.tInt v, Tok.nl])
      (resolve_part_ids def_part_1d p_text_1d nb_parts_1d nb_elts_1d) ++
    cat_map (fun v => [Tok.tInt v, Tok.nl])
      (resolve_part_ids def_part_a p_text_a nb_parts nb_facets) ++
    cat_map (fun v => [Tok.tInt v, Tok.nl])
      (resolve_part_ids def_part_3d p_text_3d p_text_3d.length
        nb_elts_3d) ++
    cat_map (fun v => [Tok.tInt v, Tok.nl])
      (resolve_part_ids def_part_sph p_text_sph p_text_sph.length
        nb_elts_sph)) ++
  [Tok.nl]

/-- EROSION_STATUS cell-data section (main.rs:913-943). -/
def erosion_tokens (b : Bool)
    (del_elt_1d del_elt_a del_elt_3d del_elt_sph : List Nat)
    (nb_elts_1d nb_facets nb_elts_3d nb_elts_sph : Nat) : List Tok :=
  [Tok.line "SCALARS EROSION_STATUS int 1",
   Tok.line "LOOKUP_TABLE default"] ++
  (if b then
    cat_map (fun i =>
      [Tok.tInt (if del_elt_1d.getD i 0 ≠ 0 then 1 else 0)])
      (List.range nb_elts_1d) ++
    cat_map (fun i =>
      [Tok.tInt (if del_elt_a.getD i 0 ≠ 0 then 1 else 0)])
      (List.range nb_facets) ++
    cat_map (fun i =>
      [Tok.tInt (if del_elt_3d.getD i 0 ≠ 0 then 1 else 0)])
      (List.range nb_elts_3d) ++
    cat_map (fun i =>
      [Tok.tInt (if del_elt_sph.getD i 0 ≠ 0 then 1 else 0)])
      (List.range nb_elts_sph)
  else
    cat_map (fun i =>
      [Tok.tInt (if del_elt_1d.getD i 0 ≠ 0 then 1 else 0), Tok.nl])
      (List.range nb_elts_1d) ++
    cat_map (fun i =>
      [Tok.tInt (if del_elt_a.getD i 0 ≠ 0 then 1 else 0), Tok.nl])
      (List.range nb_facets) ++
    cat_map (fun i =>
      [Tok.tInt (if del_elt_3d.getD i 0 ≠ 0 then 1 else 0), Tok.nl])
      (List.range nb_elts_3d) ++
    cat_map (fun i =>
      [Tok.tInt (if del_elt_sph.getD i 0 ≠ 0 then 1 else 0), Tok.nl])
      (List.range nb_elts_sph)) ++
  [Tok.nl]

/-- One 1-D elemental scalar field (main.rs:946-978): 1-D values then
zero padding for the 2-D, 3-D and SPH families. -/
def scalars_1d_field_tokens (b : Bool) (name : String) (efunc_1d : List Nat)
    (iefun nb_elts_1d nb_facets nb_elts_3d nb_elts_sph : Nat) : List Tok :=
  [Tok.line ("SCALARS 1DELEM_" ++ name ++ " float 1"),
   Tok.line "LOOKUP_TABLE default"] ++
  (if b then
    cat_map (fun iel =>
      [Tok.tF32 (efunc_1d.getD (iefun * nb_elts_1d + iel) 0)])
      (List.range nb_elts_1d) ++
    cat_map (fun _ => [Tok.tF32 z32]) (List.range nb_facets) ++
    cat_map (fun _ => [Tok.tF32 z32]) (List.range nb_elts_3d) ++
    cat_map (fun _ => [Tok.tF32 z32]) (List.range nb_elts_sph)
  else
    cat_map (fun iel =>
      [Tok.tF32 (efunc_1d.getD (iefun * nb_elts_1d + iel) 0), Tok.nl])
      (List.range nb_elts_1d) ++
    cat_map (fun _ => [Tok.tF32 z32, Tok.nl]) (List.range nb_facets) ++
    cat_map (fun _ => [Tok.tF32 z32, Tok.nl]) (List.range nb_elts_3d) ++
    cat_map (fun _ => [Tok.tF32 z32, Tok.nl]) (List.range nb_elts_sph)) ++
  [Tok.nl]

/-- All 1-D elemental scalar fields (main.rs:946-978). -/
def scalars_1d_tokens (b : Bool) (f_text_1d : List String)
    (efunc_1d : List Nat)
    (nb_efunc_1d nb_elts_1d nb_facets nb_elts_3d nb_elts_sph : Nat) :
    List Tok :=
  cat_map (fun iefun =>
    scalars_1d_field_tokens b (replace_underscore (f_text_1d.getD iefun ""))
      efunc_1d iefun nb_elts_1d nb_facets nb_elts_3d nb_elts_sph)
    (List.range nb_efunc_1d)

/-- The nine torsor component name endings (main.rs:981). -/
def tors_names : List String :=
  ["F1", "F2", "F3", "M1", "M2", "M3", "M4", "M5", "M6"]

/-- One torsor component field of one named 1-D torsor
(main.rs:982-1028): component `j` of torsor `iefun`. -/
def torsor_field_tokens (b : Bool) (name : String) (tors_val_1d : List Nat)
    (iefun j nb_elts_1d nb_facets nb_elts_3d nb_elts_sph : Nat) : List Tok :=
  [Tok.line ("SCALARS 1DELEM_" ++ name ++ tors_names.getD j "" ++
    " float 1"), Tok.line "LOOKUP_TABLE default"] ++
  (if b then
    cat_map (fun iel =>
      [Tok.tF32 (tors_val_1d.getD (9 * iefun * nb_elts_1d + iel * 9 + j) 0)])
      (List.range nb_elts_1d) ++
    cat_map (fun _ => [Tok.tF32 z32]) (List.range nb_facets) ++
    cat_map (fun _ => [Tok.tF32 z32]) (List.range nb_elts_3d) ++
    cat_map (fun _ => [Tok.tF32 z32]) (List.range nb_elts_sph)
  else
    cat_map (fun iel =>
      [Tok.tF32 (tors_val_1d.getD (9 * iefun * nb_elts_1d + iel * 9 + j) 0),
       Tok.nl]) (List.range nb_elts_1d) ++
    cat_map (fun _ => [Tok.tF32 z32, Tok.nl]) (List.range nb_facets) ++
    cat_map (fun _ => [Tok.tF32 z32, Tok.nl]) (List.range nb_elts_3d) ++
    cat_map (fun _ => [Tok.tF32 z32, Tok.nl]) (List.range nb_elts_sph)) ++
  [Tok.nl]

/-- All 1-D torsor fields (main.rs:980-1029): nine scalar sections per
named torsor. -/
def torsors_1d_tokens (b : Bool) (t_text_1d : List String)
    (tors_val_1d : List Nat)
    (nb_tors_1d nb_elts_1d nb_facets nb_elts_3d nb_elts_sph : Nat) :
    List Tok :=
  cat_map (fun iefun =>
    cat_map (fun j =>
      torsor_field_tokens b (replace_underscore (t_text_1d.getD iefun ""))
        tors_val_1d iefun j nb_elts_1d nb_facets nb_elts_3d nb_elts_sph)
      (List.range 9)) (List.range nb_tors_1d)

/-- One 2-D elemental scalar field (main.rs:1032-1064). -/
def scalars_2d_field_tokens (b : Bool) (name : String) (efunc_a : List Nat)
    (iefun nb_elts_1d nb_facets nb_elts_3d nb_elts_sph : Nat) : List Tok :=
  [Tok.line ("SCALARS 2DELEM_" ++ name ++ " float 1"),
   Tok.line "LOOKUP_TABLE default"] ++
  (if b then
    cat_map (fun _ => [Tok.tF32 z32]) (List.range nb_elts_1d) ++
    cat_map (fun iel =>
      [Tok.tF32 (efunc_a.getD (iefun * nb_facets + iel) 0)])
      (List.range nb_facets) ++
    cat_map (fun _ => [Tok.tF32 z32]) (List.range nb_elts_3d) ++
    cat_map (fun _ => [Tok.tF32 z32]) (List.range nb_elts_sph)
  else
    cat_map (fun _ => [Tok.tF32 z32, Tok.nl]) (List.range nb_elts_1d) ++
    cat_map (fun iel =>
      [Tok.tF32 (efunc_a.getD (iefun * nb_facets + iel) 0), Tok.nl])
      (List.range nb_facets) ++
    cat_map (fun _ => [Tok.tF32 z32, Tok.nl]) (List.range nb_elts_3d) ++
    cat_map (fun _ => [Tok.tF32 z32, Tok.nl]) (List.range nb_elts_sph)) ++
  [Tok.nl]

/-- All 2-D elemental scalar fields (main.rs:1032-1064); names start after
the `nb_func` nodal names in `f_text_a`. -/
def scalars_2d_tokens (b : Bool) (f_text_a : List String)
    (efunc_a : List Nat)
    (nb_efunc nb_func nb_elts_1d nb_facets nb_elts_3d nb_elts_sph : Nat) :
    List Tok :=
  cat_map (fun iefun =>
    scalars_2d_field_tokens b
      (replace_underscore (f_text_a.getD (iefun + nb_func) "")) efunc_a
      iefun nb_elts_1d nb_facets nb_elts_3d nb_elts_sph)
    (List.range nb_efunc)

/-- A zero 3×3 tensor row block: binary writes nine zero floats, ASCII
three `0 0 0` rows. -/
def zero_tensor_tokens (b : Bool) : List Tok :=
  if b then
    [Tok.tF32 z32, Tok.tF32 z32, Tok.tF32 z32, Tok.tF32 z32, Tok.tF32 z32,
     Tok.tF32 z32, Tok.tF32 z32, Tok.tF32 z32, Tok.tF32 z32]
  else
    [Tok.tF32 z32, Tok.tF32 z32, Tok.tF32 z32, Tok.nl,
     Tok.tF32 z32, Tok.tF32 z32, Tok.tF32 z32, Tok.nl,
     Tok.tF32 z32, Tok.tF32 z32, Tok.tF32 z32, Tok.nl]

/-- One named 2-D tensor field (main.rs:1067-1132): the 3-component
compressed tensor `[xx, yy, xy]` at `base = iel*3 + ietens*3*nb_facets`
expands to rows `xx xy 0 / xy yy 0 / 0 0 0`. -/
def tensors_2d_field_tokens (b : Bool) (name : String)
    (tens_val_a : List Nat)
    (ietens nb_elts_1d nb_facets nb_elts_3d nb_elts_sph : Nat) : List Tok :=
  [Tok.line ("TENSORS 2DELEM_" ++ name ++ " float")] ++
  (if b then
    cat_map (fun _ => zero_tensor_tokens true) (List.range nb_elts_1d) ++
    cat_map (fun iel =>
      [Tok.tF32 (tens_val_a.getD (iel * 3 + ietens * 3 * nb_facets) 0),
       Tok.tF32 (tens_val_a.getD (iel * 3 + ietens * 3 * nb_facets + 2) 0),
       Tok.tF32 z32,
       Tok.tF32 (tens_val_a.getD (iel * 3 + ietens * 3 * nb_facets + 2) 0),
       Tok.tF32 (tens_val_a.getD (iel * 3 + ietens * 3 * nb_facets + 1) 0),
       Tok.tF32 z32, Tok.tF32 z32, Tok.tF32 z32, Tok.tF32 z32])
      (List.range nb_facets) ++
    cat_map (fun _ => zero_tensor_tokens true) (List.range nb_elts_3d) ++
    cat_map (fun _ => zero_tensor_tokens true) (List.range nb_elts_sph)
  else
    cat_map (fun _ => zero_tensor_tokens false) (List.range nb_elts_1d) ++
    cat_map (fun iel =>
      [Tok.tF32 (tens_val_a.getD (iel * 3 + ietens * 3 * nb_facets) 0),
       Tok.tF32 (tens_val_a.getD (iel * 3 + ietens * 3 * nb_facets + 2) 0),
       Tok.tF32 z32, Tok.nl,
       Tok.tF32 (tens_val_a.getD (iel * 3 + ietens * 3 * nb_facets + 2) 0),
       Tok.tF32 (tens_val_a.getD (iel * 3 + ietens * 3 * nb_facets + 1) 0),
       Tok.tF32 z32, Tok.nl,
       Tok.tF32 z32, Tok.tF32 z32, Tok.tF32 z32, Tok.nl])
      (List.range nb_facets) ++
    cat_map (fun _ => zero_tensor_tokens false) (List.range nb_elts_3d) ++
    cat_map (fun _ => zero_tensor_tokens false) (List.range nb_elts_sph)) ++
  [Tok.nl]

/-- All 2-D tensor fields (main.rs:1067-1132). -/
def tensors_2d_tokens (b : Bool) (t_text_a : List String)
    (tens_val_a : List Nat)
    (nb_tens nb_elts_1d nb_facets nb_elts_3d nb_elts_sph : Nat) : List Tok :=
  cat_map (fun ietens =>
    tensors_2d_field_tokens b (replace_underscore (t_text_a.getD ietens ""))
      tens_val_a ietens nb_elts_1d nb_facets nb_elts_3d nb_elts_sph)
    (List.range nb_tens)

/-- One 3-D elemental scalar field (main.rs:1135-1167). -/
def scalars_3d_field_tokens (b : Bool) (name : String) (efunc_3d : List Nat)
    (iefun nb_elts_1d nb_facets nb_elts_3d nb_elts_sph : Nat) : List Tok :=
  [Tok.line ("SCALARS 3DELEM_" ++ name ++ " float 1"),
   Tok.line "LOOKUP_TABLE default"] ++
  (if b then
    cat_map (fun _ => [Tok.tF32 z32]) (List.range nb_elts_1d) ++
    cat_map (fun _ => [Tok.tF32 z32]) (List.range nb_facets) ++
    cat_map (fun iel =>
      [Tok.tF32 (efunc_3d.getD (iefun * nb_elts_3d + iel) 0)])
      (List.range nb_elts_3d) ++
    cat_map (fun _ => [Tok.tF32 z32]) (List.range nb_elts_sph)
  else
    cat_map (fun _ => [Tok.tF32 z32, Tok.nl]) (List.range nb_elts_1d) ++
    cat_map (fun _ => [Tok.tF32 z32, Tok.nl]) (List.range nb_facets) ++
    cat_map (fun iel =>
      [Tok.tF32 (efunc_3d.getD (iefun * nb_elts_3d + iel) 0), Tok.nl])
      (List.range nb_elts_3d) ++
    cat_map (fun _ => [Tok.tF32 z32, Tok.nl]) (List.range nb_elts_sph)) ++
  [Tok.nl]

/-- All 3-D elemental scalar fields (main.rs:1135-1167). -/
def scalars_3d_tokens (b : Bool) (f_text_3d : List String)
    (efunc_3d : List Nat)
    (nb_efunc_3d nb_elts_1d nb_facets nb_elts_3d nb_elts_sph : Nat) :
    List Tok :=
  cat_map (fun iefun =>
    scalars_3d_field_tokens b (replace_underscore (f_text_3d.getD iefun ""))
      efunc_3d iefun nb_elts_1d nb_facets nb_elts_3d nb_elts_sph)
    (List.range nb_efunc_3d)

/-- The nine emitted values of a 6-component compressed tensor at offset
`base`: positions `base+0,+3,+4 / +3,+1,+5 / +4,+5,+2`
(main.rs:1186-1194, 1214-1237 and the SPH copies). -/
def six_tensor_tokens (tv : List Nat) (base : Nat) (with_nl : Bool) :
    List Tok :=
  if with_nl then
    [Tok.tF32 (tv.getD base 0), Tok.tF32 (tv.getD (base + 3) 0),
     Tok.tF32 (tv.getD (base + 4) 0), Tok.nl,
     Tok.tF32 (tv.getD (base + 3) 0), Tok.tF32 (tv.getD (base + 1) 0),
     Tok.tF32 (tv.getD (base + 5) 0), Tok.nl,
     Tok.tF32 (tv.getD (base + 4) 0), Tok.tF32 (tv.getD (base + 5) 0),
     Tok.tF32 (tv.getD (base + 2) 0), Tok.nl]
  else
    [Tok.tF32 (tv.getD base 0), Tok.tF32 (tv.getD (base + 3) 0),
     Tok.tF32 (tv.getD (base + 4) 0),
     Tok.tF32 (tv.getD (base + 3) 0), Tok.tF32 (tv.getD (base + 1) 0),
     Tok.tF32 (tv.getD (base + 5) 0),
     Tok.tF32 (tv.getD (base + 4) 0), Tok.tF32 (tv.getD (base + 5) 0),
     Tok.tF32 (tv.getD (base + 2) 0)]

/-- One named 3-D tensor field (main.rs:1170-1246): 6-component compressed
tensor at `base = iel*6 + ietens*6*nb_elts_3d`. -/
def tensors_3d_field_tokens (b : Bool) (name : String)
    (tens_val_3d : List Nat)
    (ietens nb_elts_1d nb_facets nb_elts_3d nb_elts_sph : Nat) : List Tok :=
  [Tok.line ("TENSORS 3DELEM_" ++ name ++ " float")] ++
  (if b then
    cat_map (fun _ => zero_tensor_tokens true) (List.range nb_elts_1d) ++
    cat_map (fun _ => zero_tensor_tokens true) (List.range nb_facets) ++
    cat_map (fun iel =>
      six_tensor_tokens tens_val_3d (iel * 6 + ietens * 6 * nb_elts_3d)
        false) (List.range nb_elts_3d) ++
    cat_map (fun _ => zero_tensor_tokens true) (List.range nb_elts_sph)
  else
    cat_map (fun _ => zero_tensor_tokens false) (List.range nb_elts_1d) ++
    cat_map (fun _ => zero_tensor_tokens false) (List.range nb_facets) ++
    cat_map (fun iel =>
      six_tensor_tokens tens_val_3d (iel * 6 + ietens * 6 * nb_elts_3d)
        true) (List.range nb_elts_3d) ++
    cat_map (fun _ => zero_tensor_tokens false) (List.range nb_elts_sph)) ++
  [Tok.nl]

/-- All 3-D tensor fields (main.rs:1170-1246). -/
def tensors_3d_tokens (b : Bool) (t_text_3d : List String)
    (tens_val_3d : List Nat)
    (nb_tens_3d nb_elts_1d nb_facets nb_elts_3d nb_elts_sph : Nat) :
    List Tok :=
  cat_map (fun ietens =>
    tensors_3d_field_tokens b (replace_underscore (t_text_3d.getD ietens ""))
      tens_val_3d ietens nb_elts_1d nb_facets nb_elts_3d nb_elts_sph)
    (List.range nb_tens_3d)

/-- One SPH elemental scalar field (main.rs:1250-1282). -/
def scalars_sph_field_tokens (b : Bool) (name : String)
    (efunc_sph : List Nat)
    (iefun nb_elts_1d nb_facets nb_elts_3d nb_elts_sph : Nat) : List Tok :=
  [Tok.line ("SCALARS SPHELEM_" ++ name ++ " float 1"),
   Tok.line "LOOKUP_TABLE default"] ++
  (if b then
    cat_map (fun _ => [Tok.tF32 z32]) (List.range nb_elts_1d) ++
    cat_map (fun _ => [Tok.tF32 z32]) (List.range nb_facets) ++
    cat_map (fun _ => [Tok.tF32 z32]) (List.range nb_elts_3d) ++
    cat_map (fun iel =>
      [Tok.tF32 (efunc_sph.getD (iefun * nb_elts_sph + iel) 0)])
      (List.range nb_elts_sph)
  else
    cat_map (fun _ => [Tok.tF32 z32, Tok.nl]) (List.range nb_elts_1d) ++
    cat_map (fun _ => [Tok.tF32 z32, Tok.nl]) (List.range nb_facets) ++
    cat_map (fun _ => [Tok.tF32 z32, Tok.nl]) (List.range nb_elts_3d) ++
    cat_map (fun iel =>
      [Tok.tF32 (efunc_sph.getD (iefun * nb_elts_sph + iel) 0), Tok.nl])
      (List.range nb_elts_sph)) ++
  [Tok.nl]

/-- One named SPH tensor field (main.rs:1284-1360): 6-component compressed
tensor at `base = iel*6 + ietens*6*nb_elts_sph`. -/
def tensors_sph_field_tokens (b : Bool) (name : String)
    (tens_val_sph : List Nat)
    (ietens nb_elts_1d nb_facets nb_elts_3d nb_elts_sph : Nat) : List Tok :=
  [Tok.line ("TENSORS SPHELEM_" ++ name ++ " float")] ++
  (if b then
    cat_map (fun _ => zero_tensor_tokens true) (List.range nb_elts_1d) ++
    cat_map (fun _ => zero_tensor_tokens true) (List.range nb_facets) ++
    cat_map (fun _ => zero_tensor_tokens true) (List.range nb_elts_3d) ++
    cat_map (fun iel =>
      six_tensor_tokens tens_val_sph (iel * 6 + ietens * 6 * nb_elts_sph)
        false) (List.range nb_elts_sph)
  else
    cat_map (fun _ => zero_tensor_tokens false) (List.range nb_elts_1d) ++
    cat_map (fun _ => zero_tensor_tokens false) (List.range nb_facets) ++
    cat_map (fun _ => zero_tensor_tokens false) (List.range nb_elts_3d) ++
    cat_map (fun iel =>
      six_tensor_tokens tens_val_sph (iel * 6 + ietens * 6 * nb_elts_sph)
        true) (List.range nb_elts_sph)) ++
  [Tok.nl]

/-- SPH scalar and tensor fields, emitted only when `flag_a[7] != 0`
(main.rs:1249-1361). -/
def sph_fields_tokens (b : Bool) (flag7 : Int)
    (scal_text_sph : List String) (efunc_sph : List Nat)
    (tens_text_sph : List String) (tens_val_sph : List Nat)
    (nb_efunc_sph nb_tens_sph nb_elts_1d nb_facets nb_elts_3d
      nb_elts_sph : Nat) : List Tok :=
  if flag7 ≠ 0 then
    cat_map (fun iefun =>
      scalars_sph_field_tokens b
        (replace_underscore (scal_text_sph.getD iefun "")) efunc_sph iefun
        nb_elts_1d nb_facets nb_elts_3d nb_elts_sph)
      (List.range nb_efunc_sph) ++
    cat_map (fun ietens =>
      tensors_sph_field_tokens b
        (replace_underscore (tens_text_sph.getD ietens "")) tens_val_sph
        ietens nb_elts_1d nb_facets nb_elts_3d nb_elts_sph)
      (List.range nb_tens_sph)
  else []

/-! ## Frame model (the decoded `read_radioss_anim` locals) -/

/-- The 3-D block of the frame (main.rs:220-275); all fields default to
empty/zero when `flag_a[2] == 0`. -/
structure Sec3d : Type where
  nb_elts_3d : Nat
  nb_efunc_3d : Nat
  nb_tens_3d : Nat
  connect_3d : List Int
  del_elt_3d : List Nat
  def_part_3d : List Int
  p_text_3d : List String
  f_text_3d : List String
  efunc_3d : List Nat
  t_text_3d : List String
  tens_val_3d : List Nat
  el_num_3d : List Int
deriving Repr

/-- The 1-D block of the frame (main.rs:277-337). -/
structure Sec1d : Type where
  nb_elts_1d : Nat
  nb_parts_1d : Nat
  nb_efunc_1d : Nat
  nb_tors_1d : Nat
  connect_1d : List Int
  del_elt_1d : List Nat
  def_part_1d : List Int
  p_text_1d : List String
  f_text_1d : List String
  efunc_1d : List Nat
  t_text_1d : List String
  tors_val_1d : List Nat
  el_num_1d : List Int
deriving Repr

/-- SPH block of the frame (main.rs:402-457). -/
structure SecSph : Type where
  nb_elts_sph : Nat
  nb_efunc_sph : Nat
  nb_tens_sph : Nat
  connec_sph : List Int
  del_elt_sph : List Nat
  def_part_sph : List Int
  p_text_sph : List String
  scal_text_sph : List String
  efunc_sph : List Nat
  tens_text_sph : List String
  tens_val_sph : List Nat
  nod_num_sph : List Int
deriving Repr

/-- One decoded Anim frame: every local of `read_radioss_anim` that the
output phase reads (main.rs:126-457). -/
structure Frame : Type where
  a_time : Nat
  flag_a : List Int
  nb_nodes : Nat
  nb_facets : Nat
  nb_parts : Nat
  nb_func : Nat
  nb_efunc : Nat
  nb_vect : Nat
  nb_tens : Nat
  coor_a : List Nat
  connect_a : List Int
  del_elt_a : List Nat
  def_part_a : List Int
  p_text_a : List String
  f_text_a : List String
  func_a : List Nat
  efunc_a : List Nat
  v_text_a : List String
  vect_val_a : List Nat
  t_text_a : List String
  tens_val_a : List Nat
  nod_num_a : List Int
  el_num_a : List Int
  s3 : Sec3d
  s1 : Sec1d
  sph : SecSph
deriving Repr

/-- The full VTK output token stream of `read_radioss_anim`
(main.rs:459-1361) for one decoded frame. -/
def anim_vtk_tokens (b : Bool) (f : Frame) : List Tok :=
  header_tokens b ++
  field_data_tokens b f.a_time ++
  points_tokens b f.coor_a f.nb_nodes ++
  cells_tokens b f.s1.connect_1d f.s1.nb_elts_1d f.connect_a f.nb_facets
    f.s3.connect_3d f.s3.nb_elts_3d f.sph.connec_sph f.sph.nb_elts_sph ++
  cell_types_tokens b f.s1.nb_elts_1d f.connect_a f.nb_facets
    f.s3.connect_3d f.s3.nb_elts_3d f.sph.nb_elts_sph ++
  [Tok.line ("POINT_DATA " ++ toString f.nb_nodes)] ++
  node_id_tokens b f.nod_num_a f.nb_nodes ++
  node_scalars_tokens b f.f_text_a f.func_a f.nb_func f.nb_nodes ++
  node_vectors_tokens b f.v_text_a f.vect_val_a f.nb_vect f.nb_nodes ++
  [Tok.line ("CELL_DATA " ++
    toString (total_cells f.s1.nb_elts_1d f.nb_facets f.s3.nb_elts_3d
      f.sph.nb_elts_sph))] ++
  element_id_tokens b f.s1.el_num_1d f.el_num_a f.s3.el_num_3d
    f.sph.nod_num_sph f.s1.nb_elts_1d f.nb_facets f.s3.nb_elts_3d
    f.sph.nb_elts_sph ++
  part_id_tokens b f.s1.def_part_1d f.s1.p_text_1d f.s1.nb_parts_1d
    f.s1.nb_elts_1d f.def_part_a f.p_text_a f.nb_parts f.nb_facets
    f.s3.def_part_3d f.s3.p_text_3d f.s3.nb_elts_3d f.sph.def_part_sph
    f.sph.p_text_sph f.sph.nb_elts_sph ++
  erosion_tokens b f.s1.del_elt_1d f.del_elt_a f.s3.del_elt_3d
    f.sph.del_elt_sph f.s1.nb_elts_1d f.nb_facets f.s3.nb_elts_3d
    f.sph.nb_elts_sph ++
  scalars_1d_tokens b f.s1.f_text_1d f.s1.efunc_1d f.s1.nb_efunc_1d
    f.s1.nb_elts_1d f.nb_facets f.s3.nb_elts_3d f.sph.nb_elts_sph ++
  torsors_1d_tokens b f.s1.t_text_1d f.s1.tors_val_1d f.s1.nb_tors_1d
    f.s1.nb_elts_1d f.nb_facets f.s3.nb_elts_3d f.sph.nb_elts_sph ++
  scalars_2d_tokens b f.f_text_a f.efunc_a f.nb_efunc f.nb_func
    f.s1.nb_elts_1d f.nb_facets f.s3.nb_elts_3d f.sph.nb_elts_sph ++
  tensors_2d_tokens b f.t_text_a f.tens_val_a f.nb_tens f.s1.nb_elts_1d
    f.nb_facets f.s3.nb_elts_3d f.sph.nb_elts_sph ++
  scalars_3d_tokens b f.s3.f_text_3d f.s3.efunc_3d f.s3.nb_efunc_3d
    f.s1.nb_elts_1d f.nb_facets f.s3.nb_elts_3d f.sph.nb_elts_sph ++
  tensors_3d_tokens b f.s3.t_text_3d f.s3.tens_val_3d f.s3.nb_tens_3d
    f.s1.nb_elts_1d f.nb_facets f.s3.nb_elts_3d f.sph.nb_elts_sph ++
  sph_fields_tokens b (f.flag_a.getD 7 0) f.sph.scal_text_sph
    f.sph.efunc_sph f.sph.tens_text_sph f.sph.tens_val_sph
    f.sph.nb_efunc_sph f.sph.nb_tens_sph f.s1.nb_elts_1d f.nb_facets
    f.s3.nb_elts_3d f.sph.nb_elts_sph

/-! ## Byte-stream reader and frame decoder (main.rs:39-87, 114-457)

The input file is a `List Nat` of bytes.  Every primitive read is
`read_exact`: it either consumes its requested bytes or fails, and a
failed `read_exact` panics in the source (`.expect`), aborting the
conversion; the model turns this abort into `Except.error DErr.shortRead`.
The reader type `SR` carries the invariant that short reads are the *only*
failure a read sequence can produce, so the magic-number check is the sole
source of `DErr.unsupportedVersion`. -/

inductive DErr : Type where
  | shortRead
  | unsupportedVersion
deriving DecidableEq, Repr

def RdM (α : Type) : Type := List Nat → Except DErr (α × List Nat)

def only_short {α : Type} (m : RdM α) : Prop :=
  ∀ s e, m s = Except.error e → e = DErr.shortRead

/-- A read step: state-passing over the remaining bytes, failing only with
`shortRead`. -/
structure SR (α : Type) : Type where
  run : RdM α
  oshort : only_short run

def SR.pureF {α : Type} (a : α) : SR α :=
  ⟨fun s => Except.ok (a, s), fun _ _ h => Except.noConfusion h⟩

def SR.bindF {α β : Type} (x : SR α) (f : α → SR β) : SR β where
  run := fun s =>
    match x.run s with
    | Except.error e => Except.error e
    | Except.ok p => (f p.1).run p.2
  oshort := by
    intro s e h
    cases hx : x.run s with
    | error e2 =>
        simp only [hx] at h
        injection h with h2
        subst h2
        exact x.oshort s e2 hx
    | ok p =>
        simp only [hx] at h
        exact (f p.1).oshort p.2 e h

instance : Monad SR where
  pure := SR.pureF
  bind := SR.bindF

/-- Model of `read_exact`: take `n` bytes or fail (main.rs:41/47/71/79). -/
def read_exact (n : Nat) : SR (List Nat) where
  run := fun s =>
    if n ≤ s.length then Except.ok (s.take n, s.drop n)
    else Except.error DErr.shortRead
  oshort := by
    intro s e h
    by_cases hn : n ≤ s.length
    · simp only [if_pos hn] at h; exact Except.noConfusion h
    · simp only [if_neg hn] at h; injection h with h2; exact h2.symm

/-- Big-endian accumulation of bytes. -/
def be_nat (l : List Nat) : Nat := l.foldl (fun a b => a * 256 + b % 256) 0

/-- Two's-complement value of a big-endian `i32`. -/
def be_i32_val (l : List Nat) : Int :=
  if be_nat l < 2 ^ 31 then (be_nat l : Int) else (be_nat l : Int) - 2 ^ 32

/-- Model of `read_i32` (main.rs:39-43). -/
def read_i32 : SR Int :=
  SR.bindF (read_exact 4) (fun b => SR.pureF (be_i32_val b))

/-- Model of `read_f32` (main.rs:45-49): the value is carried as its 32-bit
pattern. -/
def read_f32 : SR Nat :=
  SR.bindF (read_exact 4) (fun b => SR.pureF (be_nat b))

/-- Run one read `count` times (the `for _ in 0..count` reader loops). -/
def SR.repM {α : Type} (m : SR α) : Nat → SR (List α)
  | 0 => SR.pureF []
  | n + 1 =>
      SR.bindF m (fun a =>
        SR.bindF (SR.repM m n) (fun l => SR.pureF (a :: l)))

/-- Model of `read_i32_vec` (main.rs:51-57). -/
def read_i32_vec (count : Nat) : SR (List Int) := SR.repM read_i32 count

/-- Model of `read_f32_vec` (main.rs:59-65). -/
def read_f32_vec (count : Nat) : SR (List Nat) := SR.repM read_f32 count

/-- Model of `read_u16_vec` (main.rs:67-75). -/
def read_u16_vec (count : Nat) : SR (List Nat) :=
  SR.repM (SR.bindF (read_exact 2) (fun b => SR.pureF (be_nat b))) count

/-- Model of `read_bytes` (main.rs:77-81); entries normalised to byte range. -/
def read_bytes (count : Nat) : SR (List Nat) :=
  SR.bindF (read_exact count) (fun b => SR.pureF (b.map (· % 256)))

/-- UTF-8 validation and decoding (`std::str::from_utf8`): leads
`0xC2-0xDF`, `0xE0-0xEF`, `0xF0-0xF4` with the standard overlong,
surrogate and range checks; anything else is invalid. -/
def utf8_decode : List Nat → Option (List Char)
  | [] => some []
  | b :: rest =>
    if b < 0x80 then (utf8_decode rest).map (fun cs => Char.ofNat b :: cs)
    else if b < 0xc2 then none
    else if b < 0xe0 then
      match rest with
      | b1 :: r =>
          if 0x80 ≤ b1 ∧ b1 < 0xc0 then
            (utf8_decode r).map
              (fun cs => Char.ofNat ((b - 0xc0) * 64 + (b1 - 0x80)) :: cs)
          else none
      | [] => none
    else if b < 0xf0 then
      match rest with
      | b1 :: b2 :: r =>
          if (0x80 ≤ b1 ∧ b1 < 0xc0) ∧ (0x80 ≤ b2 ∧ b2 < 0xc0) then
            let cp := (b - 0xe0) * 4096 + (b1 - 0x80) * 64 + (b2 - 0x80)
            if 0x800 ≤ cp ∧ ¬(0xd800 ≤ cp ∧ cp ≤ 0xdfff) then
              (utf8_decode r).map (fun cs => Char.ofNat cp :: cs)
            else none
          else none
      | _ => none
    else if b < 0xf5 then
      match rest with
      | b1 :: b2 :: b3 :: r =>
          if (0x80 ≤ b1 ∧ b1 < 0xc0) ∧ (0x80 ≤ b2 ∧ b2 < 0xc0) ∧
              (0x80 ≤ b3 ∧ b3 < 0xc0) then
            let cp := (b - 0xf0) * 262144 + (b1 - 0x80) * 4096 +
              (b2 - 0x80) * 64 + (b3 - 0x80)
            if 0x10000 ≤ cp ∧ cp ≤ 0x10ffff then
              (utf8_decode r).map (fun cs => Char.ofNat cp :: cs)
            else none
          else none
      | _ => none
    else none

/-- Model of the `read_text` contents (main.rs:83-87): decode as UTF-8 with `""` on
failure, then strip trailing NUL padding. -/
def text_of_bytes (b : List Nat) : String :=
  match utf8_decode (b.map (· % 256)) with
  | some cs => String.mk ((cs.reverse.dropWhile (fun c => c == '\x00')).reverse)
  | none => ""

/-- Model of `read_text` (main.rs:83-87). -/
def read_text (count : Nat) : SR String :=
  SR.bindF (read_exact count) (fun b => SR.pureF (text_of_bytes b))

/-- The single supported magic number (main.rs:34). -/
def FASTMAGI10 : Int := 0x542c

/-- The 3-D block decode (main.rs:236-275), gated by `flag_a[2] != 0`. -/
def decode_sec_3d (flag_a : List Int) : SR Sec3d :=
  if flag_a.getD 2 0 ≠ 0 then do
    let v1 ← read_i32
    let nb_elts_3d := to_usize v1
    let v2 ← read_i32
    let nb_parts_3d := to_usize v2
    let v3 ← read_i32
    let nb_efunc_3d := to_usize v3
    let v4 ← read_i32
    let nb_tens_3d := to_usize v4
    let connect_3d ← read_i32_vec (nb_elts_3d * 8)
    let del_elt_3d ← read_bytes nb_elts_3d
    let def_part_3d ← read_i32_vec nb_parts_3d
    let p_text_3d ← SR.repM (read_text 50) nb_parts_3d
    let fe ← if nb_efunc_3d > 0 then do
        let f_text_3d ← SR.repM (read_text 81) nb_efunc_3d
        let efunc_3d ← read_f32_vec (nb_efunc_3d * nb_elts_3d)
        pure (f_text_3d, efunc_3d)
      else pure ([], [])
    let te ← if nb_tens_3d > 0 then do
        let t_text_3d ← SR.repM (read_text 81) nb_tens_3d
        let tens_val_3d ← read_f32_vec (nb_elts_3d * 6 * nb_tens_3d)
        pure (t_text_3d, tens_val_3d)
      else pure ([], [])
    let _ ← if flag_a.getD 0 0 = 1 then do
        let _ ← read_f32_vec nb_elts_3d
        pure ()
      else pure ()
    let el_num_3d ←
      if flag_a.getD 1 0 = 1 then read_i32_vec nb_elts_3d else pure []
    let _ ← if flag_a.getD 4 0 ≠ 0 then do
        let _ ← read_i32_vec nb_parts_3d
        let _ ← read_i32_vec nb_parts_3d
        let _ ← read_i32_vec nb_parts_3d
        pure ()
      else pure ()
    pure ⟨nb_elts_3d, nb_efunc_3d, nb_tens_3d, connect_3d, del_elt_3d,
      def_part_3d, p_text_3d, fe.1, fe.2, te.1, te.2, el_num_3d⟩
  else pure ⟨0, 0, 0, [], [], [], [], [], [], [], [], []⟩

/-- The 1-D block decode (main.rs:294-337), gated by `flag_a[3] != 0`. -/
def decode_sec_1d (flag_a : List Int) : SR Sec1d :=
  if flag_a.getD 3 0 ≠ 0 then do
    let v1 ← read_i32
    let nb_elts_1d := to_usize v1
    let v2 ← read_i32
    let nb_parts_1d := to_usize v2
    let v3 ← read_i32
    let nb_efunc_1d := to_usize v3
    let v4 ← read_i32
    let nb_tors_1d := to_usize v4
    let is_skew_1d ← read_i32
    let connect_1d ← read_i32_vec (nb_elts_1d * 2)
    let del_elt_1d ← read_bytes nb_elts_1d
    let def_part_1d ← read_i32_vec nb_parts_1d
    let p_text_1d ← SR.repM (read_text 50) nb_parts_1d
    let fe ← if nb_efunc_1d > 0 then do
        let f_text_1d ← SR.repM (read_text 81) nb_efunc_1d
        let efunc_1d ← read_f32_vec (nb_efunc_1d * nb_elts_1d)
        pure (f_text_1d, efunc_1d)
      else pure ([], [])
    let te ← if nb_tors_1d > 0 then do
        let t_text_1d ← SR.repM (read_text 81) nb_tors_1d
        let tors_val_1d ← read_f32_vec (nb_elts_1d * 9 * nb_tors_1d)
        pure (t_text_1d, tors_val_1d)
      else pure ([], [])
    let _ ← if is_skew_1d ≠ 0 then do
        let _ ← read_i32_vec nb_elts_1d
        pure ()
      else pure ()
    let _ ← if flag_a.getD 0 0 = 1 then do
        let _ ← read_f32_vec nb_elts_1d
        pure ()
      else pure ()
    let el_num_1d ←
      if flag_a.getD 1 0 = 1 then read_i32_vec nb_elts_1d else pure []
    let _ ← if flag_a.getD 4 0 ≠ 0 then do
        let _ ← read_i32_vec nb_parts_1d
        let _ ← read_i32_vec nb_parts_1d
        let _ ← read_i32_vec nb_parts_1d
        pure ()
      else pure ()
    pure ⟨nb_elts_1d, nb_parts_1d, nb_efunc_1d, nb_tors_1d, connect_1d,
      del_elt_1d, def_part_1d, p_text_1d, fe.1, fe.2, te.1, te.2, el_num_1d⟩
  else pure ⟨0, 0, 0, 0, [], [], [], [], [], [], [], [], []⟩

/-- One subset record of the hierarchy block (main.rs:342-361). -/
def decode_subset : SR Unit := do
  let _ ← read_text 50
  let _ ← read_i32
  let v1 ← read_i32
  let nb_subset_son := to_usize v1
  let _ ← if nb_subset_son > 0 then do
      let _ ← read_i32_vec nb_subset_son
      pure ()
    else pure ()
  let v2 ← read_i32
  let nb_sub_part_2d := to_usize v2
  let _ ← if nb_sub_part_2d > 0 then do
      let _ ← read_i32_vec nb_sub_part_2d
      pure ()
    else pure ()
  let v3 ← read_i32
  let nb_sub_part_3d := to_usize v3
  let _ ← if nb_sub_part_3d > 0 then do
      let _ ← read_i32_vec nb_sub_part_3d
      pure ()
    else pure ()
  let v4 ← read_i32
  let nb_sub_part_1d := to_usize v4
  let _ ← if nb_sub_part_1d > 0 then do
      let _ ← read_i32_vec nb_sub_part_1d
      pure ()
    else pure ()
  pure ()

/-- Hierarchy block decode (main.rs:339-373), gated by `flag_a[4] != 0`;
read only for stream-position correctness. -/
def decode_hierarchy (flag_a : List Int) : SR Unit :=
  if flag_a.getD 4 0 ≠ 0 then do
    let v ← read_i32
    let nb_subsets := to_usize v
    let _ ← SR.repM decode_subset nb_subsets
    let vm ← read_i32
    let nb_materials := to_usize vm
    let vp ← read_i32
    let nb_properties := to_usize vp
    let _ ← SR.repM (read_text 50) nb_materials
    let _ ← read_i32_vec nb_materials
    let _ ← SR.repM (read_text 50) nb_properties
    let _ ← read_i32_vec nb_properties
    pure ()
  else pure ()

/-- Time-history block decode (main.rs:378-400), gated by
`flag_a[5] != 0`; read only for stream-position correctness. -/
def decode_time_history (flag_a : List Int) : SR Unit :=
  if flag_a.getD 5 0 ≠ 0 then do
    let v1 ← read_i32
    let nb_nodes_th := to_usize v1
    let v2 ← read_i32
    let nb_elts_2d_th := to_usize v2
    let v3 ← read_i32
    let nb_elts_3d_th := to_usize v3
    let v4 ← read_i32
    let nb_elts_1d_th := to_usize v4
    let _ ← read_i32_vec nb_nodes_th
    let _ ← SR.repM (read_text 50) nb_nodes_th
    let _ ← read_i32_vec nb_elts_2d_th
    let _ ← SR.repM (read_text 50) nb_elts_2d_th
    let _ ← read_i32_vec nb_elts_3d_th
    let _ ← SR.repM (read_text 50) nb_elts_3d_th
    let _ ← read_i32_vec nb_elts_1d_th
    let _ ← SR.repM (read_text 50) nb_elts_1d_th
    pure ()
  else pure ()

/-- SPH block decode (main.rs:418-457), gated by `flag_a[7] != 0`. -/
def decode_sec_sph (flag_a : List Int) : SR SecSph :=
  if flag_a.getD 7 0 ≠ 0 then do
    let v1 ← read_i32
    let nb_elts_sph := to_usize v1
    let v2 ← read_i32
    let nb_parts_sph := to_usize v2
    let v3 ← read_i32
    let nb_efunc_sph := to_usize v3
    let v4 ← read_i32
    let nb_tens_sph := to_usize v4
    let cd ← if nb_elts_sph > 0 then do
        let connec_sph ← read_i32_vec nb_elts_sph
        let del_elt_sph ← read_bytes nb_elts_sph
        pure (connec_sph, del_elt_sph)
      else pure ([], [])
    let pp ← if nb_parts_sph > 0 then do
        let def_part_sph ← read_i32_vec nb_parts_sph
        let p_text_sph ← SR.repM (read_text 50) nb_parts_sph
        pure (def_part_sph, p_text_sph)
      else pure ([], [])
    let fe ← if nb_efunc_sph > 0 then do
        let scal_text_sph ← SR.repM (read_text 81) nb_efunc_sph
        let efunc_sph ← read_f32_vec (nb_efunc_sph * nb_elts_sph)
        pure (scal_text_sph, efunc_sph)
      else pure ([], [])
    let te ← if nb_tens_sph > 0 then do
        let tens_text_sph ← SR.repM (read_text 81) nb_tens_sph
        let tens_val_sph ← read_f32_vec (nb_elts_sph * nb_tens_sph * 6)
        pure (tens_text_sph, tens_val_sph)
      else pure ([], [])
    let _ ← if flag_a.getD 0 0 = 1 then do
        let _ ← read_f32_vec nb_elts_sph
        pure ()
      else pure ()
    let nod_num_sph ←
      if flag_a.getD 1 0 = 1 then read_i32_vec nb_elts_sph else pure []
    let _ ← if flag_a.getD 4 0 ≠ 0 then do
        let _ ← read_i32_vec nb_parts_sph
        let _ ← read_i32_vec nb_parts_sph
        let _ ← read_i32_vec nb_parts_sph
        pure ()
      else pure ()
    pure ⟨nb_elts_sph, nb_efunc_sph, nb_tens_sph, cd.1, cd.2, pp.1, pp.2,
      fe.1, fe.2, te.1, te.2, nod_num_sph⟩
  else pure ⟨0, 0, 0, [], [], [], [], [], [], [], [], []⟩

/-- Everything read after the magic number (main.rs:126-457). -/
def decode_body : SR Frame := do
  let a_time ← read_f32
  let _time_text ← read_text 81
  let _mod_anim_text ← read_text 81
  let _radioss_run_text ← read_text 81
  let flag_a ← read_i32_vec 10
  let v1 ← read_i32
  let nb_nodes := to_usize v1
  let v2 ← read_i32
  let nb_facets := to_usize v2
  let v3 ← read_i32
  let nb_parts := to_usize v3
  let v4 ← read_i32
  let nb_func := to_usize v4
  let v5 ← read_i32
  let nb_efunc := to_usize v5
  let v6 ← read_i32
  let nb_vect := to_usize v6
  let v7 ← read_i32
  let nb_tens := to_usize v7
  let v8 ← read_i32
  let nb_skew := to_usize v8
  let _ ← if nb_skew > 0 then do
      let _ ← read_u16_vec (nb_skew * 6)
      pure ()
    else pure ()
  let coor_a ← read_f32_vec (3 * nb_nodes)
  let cd ← if nb_facets > 0 then do
      let connect_a ← read_i32_vec (nb_facets * 4)
      let del_elt_a ← read_bytes nb_facets
      pure (connect_a, del_elt_a)
    else pure ([], [])
  let pp ← if nb_parts > 0 then do
      let def_part_a ← read_i32_vec nb_parts
      let p_text_a ← SR.repM (read_text 50) nb_parts
      pure (def_part_a, p_text_a)
    else pure ([], [])
  let _norm_short_a ← read_u16_vec (3 * nb_nodes)
  let ffe ← if nb_func + nb_efunc > 0 then do
      let f_text_a ← SR.repM (read_text 81) (nb_func + nb_efunc)
      let func_a ←
        if nb_func > 0 then read_f32_vec (nb_nodes * nb_func) else pure []
      let efunc_a ←
        if nb_efunc > 0 then read_f32_vec (nb_facets * nb_efunc)
        else pure []
      pure (f_text_a, func_a, efunc_a)
    else pure ([], [], [])
  let v_text_a ←
    if nb_vect > 0 then SR.repM (read_text 81) nb_vect else pure []
  let vect_val_a ← read_f32_vec (3 * nb_nodes * nb_vect)
  let te ← if nb_tens > 0 then do
      let t_text_a ← SR.repM (read_text 81) nb_tens
      let tens_val_a ← read_f32_vec (nb_facets * 3 * nb_tens)
      pure (t_text_a, tens_val_a)
    else pure ([], [])
  let _ ← if flag_a.getD 0 0 = 1 then do
      let _ ← read_f32_vec nb_facets
      let _ ← read_f32_vec nb_nodes
      pure ()
    else pure ()
  let nn ← if flag_a.getD 1 0 ≠ 0 then do
      let nod_num_a ← read_i32_vec nb_nodes
      let el_num_a ← read_i32_vec nb_facets
      pure (nod_num_a, el_num_a)
    else pure ([], [])
  let _ ← if flag_a.getD 4 0 ≠ 0 then do
      let _ ← read_i32_vec nb_parts
      let _ ← read_i32_vec nb_parts
      let _ ← read_i32_vec nb_parts
      pure ()
    else pure ()
  let s3 ← decode_sec_3d flag_a
  let s1 ← decode_sec_1d flag_a
  let _ ← decode_hierarchy flag_a
  let _ ← decode_time_history flag_a
  let sph ← decode_sec_sph flag_a
  pure ⟨a_time, flag_a, nb_nodes, nb_facets, nb_parts, nb_func, nb_efunc,
    nb_vect, nb_tens, coor_a, cd.1, cd.2, pp.1, pp.2, ffe.1, ffe.2.1,
    ffe.2.2, v_text_a, vect_val_a, te.1, te.2, nn.1, nn.2, s3, s1, sph⟩

/-- Decode phase of `read_radioss_anim` (main.rs:122-457 and the version
dispatch at main.rs:124/1364): check the magic constant, then run the body;
a mismatched magic is the fatal "unsupported version" abort. -/
def decode_anim (bs : List Nat) : Except DErr Frame :=
  match read_i32.run bs with
  | Except.error e => Except.error e
  | Except.ok p =>
      if p.1 = FASTMAGI10 then
        match decode_body.run p.2 with
        | Except.error e => Except.error e
        | Except.ok q => Except.ok q.1
      else Except.error DErr.unsupportedVersion

/-- The whole conversion of one file: decode, then serialize.  All reads
happen before any output is written (main.rs:126-457 before 459-1361), so
a failed decode produces no output at all. -/
def process_anim (b : Bool) (bs : List Nat) : Except DErr (List Tok) :=
  match decode_anim bs with
  | Except.error e => Except.error e
  | Except.ok f => Except.ok (anim_vtk_tokens b f)

/-- The CELLS entry written for one 3-D cell (main.rs:612-638): `4`
followed by the ascending distinct indices when exactly 4 are distinct,
otherwise `8` followed by the raw 8 indices. -/
def classify_3d_entry (c : List Int) : List Int :=
  if (distinct_nodes c).length = 4 then 4 :: distinct_nodes c else 8 :: c

/-- The CELLS entry written for one 2-D cell (main.rs:599-610): always `4`
followed by the raw 4 indices. -/
def classify_2d_entry (c : List Int) : List Int := 4 :: c

/-- The CELL_TYPES code of one 2-D cell (main.rs:675-680). -/
def type_code_2d (c : List Int) : Int :=
  if (distinct_nodes c).length = 3 then 5 else 9

/-- The CELL_TYPES code of one 3-D cell (main.rs:682-688). -/
def type_code_3d (c : List Int) : Int :=
  if (distinct_nodes c).length = 4 then 10 else 12

/-- Bounds-checked sequential indexing `l[0], …, l[n-1]` in loop order;
`none` models the out-of-bounds panic of Rust indexing. -/
def index_all (l : List Int) : Nat → Option (List Int)
  | 0 => some []
  | n + 1 =>
      match index_all l n with
      | none => none
      | some xs =>
          match l.get? n with
          | none => none
          | some x => some (xs ++ [x])

/-- The NODE_ID loop (main.rs:702-710) with Rust's panicking indexing
made explicit: `nod_num_a[inod]` for `inod in 0..nb_nodes`. -/
def node_id_values_checked (nod_num_a : List Int) (nb_nodes : Nat) :
    Option (List Int) :=
  index_all nod_num_a nb_nodes

/-- The ELEMENT_ID loops (main.rs:758-784) with Rust's panicking indexing
made explicit, in family order 1-D, 2-D, 3-D, SPH. -/
def element_id_values_checked
    (el_num_1d el_num_a el_num_3d nod_num_sph : List Int)
    (nb_elts_1d nb_facets nb_elts_3d nb_elts_sph : Nat) :
    Option (List Int) :=
  match index_all el_num_1d nb_elts_1d with
  | none => none
  | some a =>
      match index_all el_num_a nb_facets with
      | none => none
      | some b =>
          match index_all el_num_3d nb_elts_3d with
          | none => none
          | some c =>
              match index_all nod_num_sph nb_elts_sph with
              | none => none
              | some d => some (a ++ b ++ c ++ d)

/-- The nine logical values of an expanded 6-component compressed tensor
`[xx, yy, zz, xy, xz, yz]`: rows `xx xy xz / xy yy yz / xz yz zz`
(positions `0 3 4 / 3 1 5 / 4 5 2`, main.rs:1186-1194). -/
def expand6 (t : List Nat) : List LTok :=
  [LTok.lF32 (t.getD 0 0), LTok.lF32 (t.getD 3 0), LTok.lF32 (t.getD 4 0),
   LTok.lF32 (t.getD 3 0), LTok.lF32 (t.getD 1 0), LTok.lF32 (t.getD 5 0),
   LTok.lF32 (t.getD 4 0), LTok.lF32 (t.getD 5 0), LTok.lF32 (t.getD 2 0)]

/-- The nine logical values of an expanded 3-component compressed tensor
`[xx, yy, xy]`: rows `xx xy 0 / xy yy 0 / 0 0 0` (positions
`0 2 z / 2 1 z / z z z`, main.rs:1078-1086). -/
def expand3 (t : List Nat) : List LTok :=
  [LTok.lF32 (t.getD 0 0), LTok.lF32 (t.getD 2 0), LTok.lF32 z32,
   LTok.lF32 (t.getD 2 0), LTok.lF32 (t.getD 1 0), LTok.lF32 z32,
   LTok.lF32 z32, LTok.lF32 z32, LTok.lF32 z32]

/-! ## Theorems -/

theorem cat_map_append {α β : Type} (f : α → List β) (l m : List α) :
    cat_map f (l ++ m) = cat_map f l ++ cat_map f m := by
  induction l with
  | nil => rfl
  | cons a l ih => simp [cat_map, ih]

theorem cat_map_congr {α β : Type} {f g : α → List β} {l : List α}
    (h : ∀ a ∈ l, f a = g a) : cat_map f l = cat_map g l := by
  induction l with
  | nil => rfl
  | cons a l ih =>
      simp only [cat_map]
      rw [h a (by simp), ih (fun a ha => h a (by simp [ha]))]

theorem cat_map_map {α β γ : Type} (f : β → List γ) (g : α → β) (l : List α) :
    cat_map f (l.map g) = cat_map (fun a => f (g a)) l := by
  induction l with
  | nil => rfl
  | cons a l ih => simp [cat_map, ih]

theorem cat_map_cat_map {α β γ : Type} (g : β → List γ) (f : α → List β)
    (l : List α) :
    cat_map g (cat_map f l) = cat_map (fun a => cat_map g (f a)) l := by
  induction l with
  | nil => rfl
  | cons a l ih => simp [cat_map, cat_map_append, ih]

/-- Turning a loop over positions of a list into a loop over the list. -/
theorem cat_map_range_getD {α β : Type} (f : List α → List β)
    (ts : List (List α)) :
    cat_map (fun i => f (ts.getD i [])) (List.range ts.length) =
      cat_map f ts := by
  induction ts with
  | nil => rfl
  | cons t ts ih =>
      simp only [List.length_cons, List.range_succ_eq_map, cat_map,
        cat_map_map, List.getD_cons_zero, List.getD_cons_succ]
      rw [ih]

theorem cat_map_length {α β : Type} (f : α → List β) (k : Nat) (l : List α)
    (h : ∀ a ∈ l, (f a).length = k) :
    (cat_map f l).length = k * l.length := by
  induction l with
  | nil => simp [cat_map]
  | cons a l ih =>
      simp only [cat_map, List.length_append, List.length_cons]
      rw [h a (by simp), ih (fun a ha => h a (by simp [ha]))]
      ring

/-- Indexing into the flattening of equal-length chunks. -/
theorem flatten_chunk_getD {α : Type} (m : Nat) (ts : List (List α))
    (h : ∀ t ∈ ts, t.length = m) (i k : Nat) (d : α) (hk : k < m) :
    (cat_map id ts).getD (m * i + k) d = (ts.getD i []).getD k d := by
  induction ts generalizing i with
  | nil => simp [cat_map, List.getD]
  | cons t ts ih =>
      have ht : t.length = m := h t (by simp)
      cases i with
      | zero =>
          simp only [cat_map, id, Nat.mul_zero, Nat.zero_add,
            List.getD_cons_zero]
          rw [List.getD_append _ _ _ _ (by omega)]
      | succ i =>
          simp only [cat_map, id, List.getD_cons_succ]
          rw [List.getD_append_right _ _ _ _ (by nlinarith)]
          have harith : m * (i + 1) + k - t.length = m * i + k := by
            rw [ht]; ring_nf; omega
          rw [harith]
          exact ih (fun t ht => h t (by simp [ht])) i

theorem mem_btree_insert (l : List Int) (x y : Int) :
    y ∈ btree_insert l x ↔ y = x ∨ y ∈ l := by
  induction l with
  | nil => simp [btree_insert]
  | cons a l ih =>
      by_cases h1 : x < a
      · simp [btree_insert, h1]
      · by_cases h2 : x = a
        · subst h2; simp [btree_insert, h1]
        · simp only [btree_insert, if_neg h1, if_neg h2, List.mem_cons, ih]
          tauto

theorem sorted_btree_insert (l : List Int) (x : Int)
    (h : List.Sorted (· < ·) l) :
    List.Sorted (· < ·) (btree_insert l x) := by
  induction l with
  | nil => simp [btree_insert]
  | cons a l ih =>
      rw [List.sorted_cons] at h
      by_cases h1 : x < a
      · rw [btree_insert, if_pos h1, List.sorted_cons]
        constructor
        · intro b hb
          rcases List.mem_cons.mp hb with hb | hb
          · omega
          · exact lt_trans h1 (h.1 b hb)
        · rw [List.sorted_cons]; exact h
      · by_cases h2 : x = a
        · rw [btree_insert, if_neg h1, if_pos h2, List.sorted_cons]
          exact h
        · rw [btree_insert, if_neg h1, if_neg h2, List.sorted_cons]
          refine ⟨?_, ih h.2⟩
          intro b hb
          rcases (mem_btree_insert l x b).mp hb with hb | hb
          · subst hb; omega
          · exact h.1 b hb

theorem sorted_distinct_nodes (c : List Int) :
    List.Sorted (· < ·) (distinct_nodes c) := by
  suffices h : ∀ acc, List.Sorted (· < ·) acc →
      List.Sorted (· < ·) (c.foldl btree_insert acc) by
    exact h [] (by simp)
  induction c with
  | nil => intro acc hacc; exact hacc
  | cons a c ih =>
      intro acc hacc
      exact ih _ (sorted_btree_insert _ _ hacc)

theorem mem_distinct_nodes (c : List Int) (y : Int) :
    y ∈ distinct_nodes c ↔ y ∈ c := by
  suffices h : ∀ acc, y ∈ c.foldl btree_insert acc ↔ y ∈ acc ∨ y ∈ c by
    simpa using h []
  induction c with
  | nil => intro acc; simp
  | cons a c ih =>
      intro acc
      simp only [List.foldl_cons, ih, mem_btree_insert, List.mem_cons]
      tauto

theorem nodup_distinct_nodes (c : List Int) : (distinct_nodes c).Nodup :=
  (sorted_distinct_nodes c).nodup

theorem logical_append (a b : List Tok) :
    logical (a ++ b) = logical a ++ logical b :=
  cat_map_append _ _ _

theorem logical_cat_map {α : Type} (f : α → List Tok) (l : List α) :
    logical (cat_map f l) = cat_map (fun a => logical (f a)) l :=
  cat_map_cat_map _ _ _

theorem data_values_append (a b : List Tok) :
    data_values (a ++ b) = data_values a ++ data_values b :=
  cat_map_append _ _ _

theorem data_values_cat_map {α : Type} (f : α → List Tok) (l : List α) :
    data_values (cat_map f l) = cat_map (fun a => data_values (f a)) l :=
  cat_map_cat_map _ _ _

theorem map_eq_cat_map {α β : Type} (g : α → β) (l : List α) :
    l.map g = cat_map (fun a => [g a]) l := by
  induction l with
  | nil => rfl
  | cons a l ih => simp [cat_map, ih]

theorem cat_map_const_replicate {α β : Type} (k : Nat) (x : β) (l : List α) :
    cat_map (fun _ => List.replicate k x) l = List.replicate (k * l.length) x := by
  induction l with
  | nil => simp [cat_map]
  | cons a l ih =>
      simp only [cat_map, ih, List.length_cons]
      rw [show k * (l.length + 1) = k + k * l.length by ring,
        List.replicate_add]

theorem eq_four_of_length {α : Type} (l : List α) (d : α) (h : l.length = 4) :
    l = [l.getD 0 d, l.getD 1 d, l.getD 2 d, l.getD 3 d] := by
  cases l with
  | nil => simp at h
  | cons a l =>
    cases l with
    | nil => simp at h
    | cons b l =>
      cases l with
      | nil => simp at h
      | cons c l =>
        cases l with
        | nil => simp at h
        | cons e l =>
          cases l with
          | nil => simp [List.getD]
          | cons f l => simp at h

theorem eq_six_of_length {α : Type} (l : List α) (d : α) (h : l.length = 6) :
    l = [l.getD 0 d, l.getD 1 d, l.getD 2 d, l.getD 3 d, l.getD 4 d,
      l.getD 5 d] := by
  cases l with
  | nil => simp at h
  | cons x1 l =>
    cases l with
    | nil => simp at h
    | cons x2 l =>
      cases l with
      | nil => simp at h
      | cons x3 l =>
        cases l with
        | nil => simp at h
        | cons x4 l =>
          cases l with
          | nil => simp at h
          | cons x5 l =>
            cases l with
            | nil => simp at h
            | cons x6 l =>
              cases l with
              | nil => simp [List.getD]
              | cons x7 l => simp at h

theorem eq_eight_of_length {α : Type} (l : List α) (d : α)
    (h : l.length = 8) :
    l = [l.getD 0 d, l.getD 1 d, l.getD 2 d, l.getD 3 d, l.getD 4 d,
      l.getD 5 d, l.getD 6 d, l.getD 7 d] := by
  cases l with
  | nil => simp at h
  | cons x1 l =>
    cases l with
    | nil => simp at h
    | cons x2 l =>
      cases l with
      | nil => simp at h
      | cons x3 l =>
        cases l with
        | nil => simp at h
        | cons x4 l =>
          cases l with
          | nil => simp at h
          | cons x5 l =>
            cases l with
            | nil => simp at h
            | cons x6 l =>
              cases l with
              | nil => simp at h
              | cons x7 l =>
                cases l with
                | nil => simp at h
                | cons x8 l =>
                  cases l with
                  | nil => simp [List.getD]
                  | cons x9 l => simp at h

theorem cell4_flatten (f2 : List (List Int))
    (h : ∀ c ∈ f2, c.length = 4) (i : Nat) :
    cell4 (cat_map id f2) i = [(f2.getD i []).getD 0 0,
      (f2.getD i []).getD 1 0, (f2.getD i []).getD 2 0,
      (f2.getD i []).getD 3 0] := by
  simp only [cell4]
  rw [show i * 4 = 4 * i + 0 by ring, flatten_chunk_getD 4 f2 h i 0 0
    (by norm_num)]
  rw [show 4 * i + 0 + 1 = 4 * i + 1 by ring, flatten_chunk_getD 4 f2 h i 1 0
    (by norm_num)]
  rw [show 4 * i + 0 + 2 = 4 * i + 2 by ring, flatten_chunk_getD 4 f2 h i 2 0
    (by norm_num)]
  rw [show 4 * i + 0 + 3 = 4 * i + 3 by ring, flatten_chunk_getD 4 f2 h i 3 0
    (by norm_num)]

theorem cell8_flatten (f3 : List (List Int))
    (h : ∀ c ∈ f3, c.length = 8) (i : Nat) :
    cell8 (cat_map id f3) i = [(f3.getD i []).getD 0 0,
      (f3.getD i []).getD 1 0, (f3.getD i []).getD 2 0,
      (f3.getD i []).getD 3 0, (f3.getD i []).getD 4 0,
      (f3.getD i []).getD 5 0, (f3.getD i []).getD 6 0,
      (f3.getD i []).getD 7 0] := by
  simp only [cell8]
  rw [show i * 8 = 8 * i + 0 by ring, flatten_chunk_getD 8 f3 h i 0 0
    (by norm_num)]
  rw [show 8 * i + 0 + 1 = 8 * i + 1 by ring, flatten_chunk_getD 8 f3 h i 1 0
    (by norm_num)]
  rw [show 8 * i + 0 + 2 = 8 * i + 2 by ring, flatten_chunk_getD 8 f3 h i 2 0
    (by norm_num)]
  rw [show 8 * i + 0 + 3 = 8 * i + 3 by ring, flatten_chunk_getD 8 f3 h i 3 0
    (by norm_num)]
  rw [show 8 * i + 0 + 4 = 8 * i + 4 by ring, flatten_chunk_getD 8 f3 h i 4 0
    (by norm_num)]
  rw [show 8 * i + 0 + 5 = 8 * i + 5 by ring, flatten_chunk_getD 8 f3 h i 5 0
    (by norm_num)]
  rw [show 8 * i + 0 + 6 = 8 * i + 6 by ring, flatten_chunk_getD 8 f3 h i 6 0
    (by norm_num)]
  rw [show 8 * i + 0 + 7 = 8 * i + 7 by ring, flatten_chunk_getD 8 f3 h i 7 0
    (by norm_num)]

theorem index_all_eq (l : List Int) (n : Nat) :
    index_all l n = if n ≤ l.length then some (l.take n) else none := by
  induction n with
  | zero => simp [index_all]
  | succ n ih =>
      rw [index_all, ih]
      by_cases h1 : n + 1 ≤ l.length
      · rw [if_pos (by omega : n ≤ l.length), if_pos h1]
        have hlt : n < l.length := by omega
        have hg : l.get? n = some l[n] := by
          simp [List.get?_eq_getElem?, List.getElem?_eq_getElem hlt]
        rw [hg, List.take_succ]
        simp [List.getElem?_eq_getElem hlt]
      · by_cases h2 : n ≤ l.length
        · have hn : n = l.length := by omega
          rw [if_pos h2, if_neg h1]
          have hg : l.get? n = none := by
            rw [List.get?_eq_none]; omega
          rw [hg]
        · rw [if_neg h2, if_neg h1]

theorem resolve_go_cursor_after (dp : List Int) (pt : List String)
    (np : Nat) :
    ∀ (k i : Nat), resolve_go dp pt np k i (cursor_after dp np i) =
      (List.range k).map (fun j =>
        part_assign pt np (cursor_after dp np (i + j + 1))) := by
  intro k
  induction k with
  | zero => intro i; rfl
  | succ k ih =>
      intro i
      have hc : part_advance dp np (cursor_after dp np i) i =
          cursor_after dp np (i + 1) := rfl
      show part_assign pt np (part_advance dp np (cursor_after dp np i) i) ::
          resolve_go dp pt np k (i + 1)
            (part_advance dp np (cursor_after dp np i) i) = _
      rw [hc, ih (i + 1), List.range_succ_eq_map]
      simp only [List.map_cons, List.map_map]
      refine congrArg₂ List.cons ?_ ?_
      · norm_num
      · apply List.map_congr_left
        intro j _
        have harith : i + 1 + j + 1 = i + (j + 1) + 1 := by omega
        simp only [Function.comp, harith]

/-- C3 (amended): per element the resolver advances its cursor *at most
once* — element `i` applies the single conditional step `part_advance`
to the running cursor and then assigns from the label at the stepped
cursor (parsed after trimming, unparsable text giving `0`, and an
exhausted cursor giving `0`, both inside `part_assign`); equivalently,
the loop-carried resolver equals the per-element recomputation through
`cursor_after`. -/
theorem anim_c3_theorem (def_part : List Int) (p_text : List String)
    (nb_parts n : Nat) :
    resolve_part_ids def_part p_text nb_parts n =
      (List.range n).map (fun i =>
        part_assign p_text nb_parts (cursor_after def_part nb_parts (i + 1))) := by
  have h := resolve_go_cursor_after def_part p_text nb_parts n 0
  refine Eq.trans h ?_
  apply List.map_congr_left
  intro j _
  norm_num

/-- C3 (counterexample): the claim's *while*-advance differs from the
code.  On the duplicated boundary table `[0, 0]` with labels
`["10", "20"]` and one element, the code advances once and emits `20`,
while the claimed while-loop would advance twice, exhaust the cursor and
emit `0`. -/
theorem anim_c3_counterexample :
    resolve_part_ids [0, 0] ["10", "20"] 2 1 = [20] ∧
    spec_resolve_part_ids [0, 0] ["10", "20"] 2 1 = [0] ∧
    resolve_part_ids [0, 0] ["10", "20"] 2 1 ≠
      spec_resolve_part_ids [0, 0] ["10", "20"] 2 1 := by
  refine ⟨by decide, by decide, by decide⟩

/-- C1 (counterexample): on boundaries `[0, 2, 5]`, labels
`["10", "20", "30"]` and 7 elements the resolver does *not* produce
`10,10,20,20,20,30,30`: a boundary entry equal to the element index
advances the cursor before the label is read, so element 0 already gets
the second label. -/
theorem anim_c1_counterexample :
    resolve_part_ids [0, 2, 5] ["10", "20", "30"] 3 7 ≠
      [10, 10, 20, 20, 20, 30, 30] := by decide

/-- C1 (amended): on boundaries `[0, 2, 5]`, labels `["10", "20", "30"]`
and 7 elements the resolver produces `20,20,30,30,30,0,0` (the claimed
sequence `10,10,20,20,20,30,30` would arise from the boundary table
`[2, 5, 7]`, boundaries being exclusive part ends, not part starts). -/
theorem anim_c1_theorem :
    resolve_part_ids [0, 2, 5] ["10", "20", "30"] 3 7 =
      [20, 20, 30, 30, 30, 0, 0] ∧
    resolve_part_ids [2, 5, 7] ["10", "20", "30"] 3 7 =
      [10, 10, 20, 20, 20, 30, 30] := by
  refine ⟨by decide, by decide⟩

theorem read_exact_run (n : Nat) (s : List Nat) :
    (read_exact n).run s = if n ≤ s.length then
      Except.ok (s.take n, s.drop n)
    else Except.error DErr.shortRead := rfl

theorem bindF_run {α β : Type} (x : SR α) (f : α → SR β) (s : List Nat) :
    (SR.bindF x f).run s = match x.run s with
      | Except.error e => Except.error e
      | Except.ok p => (f p.1).run p.2 := rfl

theorem read_i32_run (s : List Nat) :
    read_i32.run s = if 4 ≤ s.length then
      Except.ok (be_i32_val (s.take 4), s.drop 4)
    else Except.error DErr.shortRead := by
  by_cases h : 4 ≤ s.length
  · have h1 : (read_exact 4).run s = Except.ok (s.take 4, s.drop 4) := by
      rw [read_exact_run, if_pos h]
    rw [if_pos h]
    show (SR.bindF (read_exact 4) (fun b => SR.pureF (be_i32_val b))).run s =
      Except.ok (be_i32_val (s.take 4), s.drop 4)
    rw [bindF_run, h1]
    rfl
  · have h1 : (read_exact 4).run s = Except.error DErr.shortRead := by
      rw [read_exact_run, if_neg h]
    rw [if_neg h]
    show (SR.bindF (read_exact 4) (fun b => SR.pureF (be_i32_val b))).run s =
      Except.error DErr.shortRead
    rw [bindF_run, h1]

theorem decode_anim_cases (bs : List Nat) :
    decode_anim bs = if 4 ≤ bs.length then
      (if be_i32_val (bs.take 4) = FASTMAGI10 then
        match decode_body.run (bs.drop 4) with
        | Except.error e => Except.error e
        | Except.ok q => Except.ok q.1
      else Except.error DErr.unsupportedVersion)
    else Except.error DErr.shortRead := by
  by_cases h : 4 ≤ bs.length
  · rw [if_pos h]
    unfold decode_anim
    rw [read_i32_run, if_pos h]
  · rw [if_neg h]
    unfold decode_anim
    rw [read_i32_run, if_neg h]

/-- C8: decoding fails fatally exactly on a short read (a requested read
not completing before the stream ends) or on a leading magic number other
than `0x542c` (`FASTMAGI10`, the fatal "unsupported version" case); these
are the only failure modes, there is no resynchronisation or retry
(decoding is a single deterministic pass), and a failed decode yields an
error with no output token stream, so no partial frame is ever emitted. -/
theorem anim_c8 (bs : List Nat) (b : Bool) :
    (∀ n : Nat, (read_exact n).run bs = Except.error DErr.shortRead ↔
      bs.length < n) ∧
    (decode_anim bs = Except.error DErr.unsupportedVersion ↔
      (4 ≤ bs.length ∧ be_i32_val (bs.take 4) ≠ FASTMAGI10)) ∧
    (∀ e, decode_anim bs = Except.error e →
      e = DErr.shortRead ∨ e = DErr.unsupportedVersion) ∧
    (∀ e, decode_anim bs = Except.error e →
      process_anim b bs = Except.error e) := by
  refine ⟨?_, ?_, ?_, ?_⟩
  · intro n
    have hrun : (read_exact n).run bs = if n ≤ bs.length then
        Except.ok (bs.take n, bs.drop n)
      else Except.error DErr.shortRead := rfl
    rw [hrun]
    by_cases h : n ≤ bs.length
    · rw [if_pos h]
      constructor
      · intro hh; exact absurd hh (by simp)
      · intro hh; omega
    · rw [if_neg h]
      constructor
      · intro _; omega
      · intro _; rfl
  · rw [decode_anim_cases]
    by_cases h4 : 4 ≤ bs.length
    · rw [if_pos h4]
      by_cases hm : be_i32_val (bs.take 4) = FASTMAGI10
      · rw [if_pos hm]
        constructor
        · intro h
          cases hb : decode_body.run (bs.drop 4) with
          | error e =>
              rw [hb] at h
              injection h with h2
              have := decode_body.oshort (bs.drop 4) e hb
              subst this
              exact absurd h2 (by simp)
          | ok q =>
              rw [hb] at h
              exact absurd h (by simp)
        · intro h; exact absurd hm h.2
      · rw [if_neg hm]
        simp [h4, hm]
    · rw [if_neg h4]
      constructor
      · intro h; injection h with h2; exact absurd h2 (by simp)
      · intro h; omega
  · intro e h
    rw [decode_anim_cases] at h
    by_cases h4 : 4 ≤ bs.length
    · rw [if_pos h4] at h
      by_cases hm : be_i32_val (bs.take 4) = FASTMAGI10
      · rw [if_pos hm] at h
        cases hb : decode_body.run (bs.drop 4) with
        | error e2 =>
            rw [hb] at h
            injection h with h2
            left
            rw [← h2]
            exact decode_body.oshort (bs.drop 4) e2 hb
        | ok q =>
            rw [hb] at h
            exact absurd h (by simp)
      · rw [if_neg hm] at h
        injection h with h2
        right
        exact h2.symm
    · rw [if_neg h4] at h
      injection h with h2
      left
      exact h2.symm
  · intro e h
    unfold process_anim
    rw [h]

/-- C8 (witness): the four-byte input `[0,0,0,0]` has a complete magic
read whose value `0` is not `FASTMAGI10`, so decoding fails with the
unsupported-version error and the conversion produces no output. -/
theorem anim_c8_witness :
    decode_anim [0, 0, 0, 0] = Except.error DErr.unsupportedVersion ∧
    process_anim true [0, 0, 0, 0] = Except.error DErr.unsupportedVersion := by
  have h := anim_c8 [0, 0, 0, 0] true
  have hd : decode_anim [0, 0, 0, 0] = Except.error DErr.unsupportedVersion :=
    h.2.1.mpr ⟨by norm_num, by decide⟩
  exact ⟨hd, h.2.2.2 _ hd⟩

theorem logical_cat_map_congr {α : Type} {f : α → List Tok}
    {g : α → List LTok} {l : List α}
    (h : ∀ a ∈ l, logical (f a) = g a) :
    logical (cat_map f l) = cat_map g l := by
  rw [logical_cat_map]; exact cat_map_congr h

theorem data_values_cat_map_congr {α : Type} {f : α → List Tok}
    {g : α → List LTok} {l : List α}
    (h : ∀ a ∈ l, data_values (f a) = g a) :
    data_values (cat_map f l) = cat_map g l := by
  rw [data_values_cat_map]; exact cat_map_congr h

theorem logical_map_tInt (l : List Int) :
    logical (l.map Tok.tInt) = l.map LTok.lInt := by
  rw [logical, cat_map_map, map_eq_cat_map]
  rfl

theorem cat_map_singleton_replicate {α β : Type} (x : β) (l : List α) :
    cat_map (fun _ => [x]) l = List.replicate l.length x := by
  have h := cat_map_const_replicate 1 x l
  simpa using h

theorem getD_mem_of_lt {α : Type} (l : List α) (i : Nat) (d : α)
    (h : i < l.length) : l.getD i d ∈ l := by
  rw [List.getD_eq_getElem l d h]
  exact List.getElem_mem h

/-- C2: at the failing input — a single 2-D cell with connectivity
`[1, 2, 3, 3]`, which has exactly 3 distinct indices — the CELLS section
emits the full 4-index entry `4 1 2 3 3` in both output modes (the 2-D
emission never reduces a cell to its distinct indices), while CELL_TYPES
simultaneously tags the very same cell as a triangle (code 5); the entry
`3 1 2 3` required by the claim is not emitted. -/
theorem anim_c2_theorem :
    (distinct_nodes [1, 2, 3, 3]).length = 3 ∧
    logical (cells_2d_tokens false [1, 2, 3, 3] 1) =
      [LTok.lInt 4, LTok.lInt 1, LTok.lInt 2, LTok.lInt 3, LTok.lInt 3] ∧
    logical (cells_2d_tokens true [1, 2, 3, 3] 1) =
      [LTok.lInt 4, LTok.lInt 1, LTok.lInt 2, LTok.lInt 3, LTok.lInt 3] ∧
    logical (cell_types_tokens false 0 [1, 2, 3, 3] 1 [] 0 0) =
      [LTok.hline "CELL_TYPES 1", LTok.lInt 5] ∧
    logical (cells_2d_tokens false [1, 2, 3, 3] 1) ≠
      [LTok.lInt 3, LTok.lInt 1, LTok.lInt 2, LTok.lInt 3] := by
  refine ⟨by decide, by decide, by decide, by decide, by decide⟩

/-- C4: for every list of 8-index 3-D cells, the CELLS entries emitted (in
either mode) are exactly `classify_3d_entry` per cell — `4` followed by
the distinct indices in ascending order when exactly 4 are distinct,
otherwise `8` followed by the raw indices; `distinct_nodes` is sorted
ascending, duplicate-free and carries exactly the values of the cell; and
the two concrete cells of the claim classify as stated. -/
theorem anim_c4 (cells : List (List Int))
    (h8 : ∀ c ∈ cells, c.length = 8) :
    (∀ b, logical (cells_3d_tokens b (cat_map id cells) cells.length) =
      cat_map (fun c => (classify_3d_entry c).map LTok.lInt) cells) ∧
    (∀ c : List Int, List.Sorted (· < ·) (distinct_nodes c) ∧
      (distinct_nodes c).Nodup ∧ ∀ x : Int, (x ∈ distinct_nodes c ↔ x ∈ c)) ∧
    classify_3d_entry [1, 2, 3, 4, 4, 4, 4, 4] = [4, 1, 2, 3, 4] ∧
    classify_3d_entry [1, 2, 3, 4, 5, 6, 7, 8] =
      [8, 1, 2, 3, 4, 5, 6, 7, 8] := by
  refine ⟨?_, ?_, by decide, by decide⟩
  · have hcell : ∀ i ∈ List.range cells.length,
        cell8 (cat_map id cells) i = cells.getD i [] := by
      intro i hi
      rw [List.mem_range] at hi
      have hm : cells.getD i [] ∈ cells := getD_mem_of_lt _ _ _ hi
      rw [cell8_flatten cells h8 i]
      exact (eq_eight_of_length _ 0 (h8 _ hm)).symm
    have key : ∀ i ∈ List.range cells.length,
        logical (if (distinct_nodes (cell8 (cat_map id cells) i)).length = 4
          then Tok.tInt 4 ::
            (distinct_nodes (cell8 (cat_map id cells) i)).map Tok.tInt
          else Tok.tInt 8 :: (cell8 (cat_map id cells) i).map Tok.tInt) =
        (classify_3d_entry (cells.getD i [])).map LTok.lInt := by
      intro i hi
      rw [hcell i hi, classify_3d_entry]
      by_cases hd : (distinct_nodes (cells.getD i [])).length = 4
      · rw [if_pos hd, if_pos hd]
        show logical_tok (Tok.tInt 4) ++
          logical ((distinct_nodes (cells.getD i [])).map Tok.tInt) = _
        rw [logical_map_tInt]
        rfl
      · rw [if_neg hd, if_neg hd]
        show logical_tok (Tok.tInt 8) ++
          logical ((cells.getD i []).map Tok.tInt) = _
        rw [logical_map_tInt]
        rfl
    intro b
    cases b with
    | true =>
        show logical (cat_map _ (List.range cells.length)) = _
        rw [← cat_map_range_getD (fun c => (classify_3d_entry c).map LTok.lInt)
          cells]
        exact logical_cat_map_congr key
    | false =>
        show logical (cat_map _ (List.range cells.length)) = _
        rw [← cat_map_range_getD (fun c => (classify_3d_entry c).map LTok.lInt)
          cells]
        refine logical_cat_map_congr ?_
        intro i hi
        rw [logical_append]
        have hnl : logical [Tok.nl] = [] := rfl
        rw [hnl, List.append_nil]
        exact key i hi
  · intro c
    exact ⟨sorted_distinct_nodes c, nodup_distinct_nodes c,
      fun x => mem_distinct_nodes c x⟩

/-- C4 (witness): the two cells of the claim, run through the 3-D CELLS
emission — the degenerate cell `[1,2,3,4,4,4,4,4]` is emitted as the
tetrahedron entry `4 1 2 3 4` and `[1,2,3,4,5,6,7,8]` as the hexahedron
entry `8 1 2 3 4 5 6 7 8`. -/
theorem anim_c4_witness :
    logical (cells_3d_tokens false
      (cat_map id [[1, 2, 3, 4, 4, 4, 4, 4], [1, 2, 3, 4, 5, 6, 7, 8]])
      (List.length [[1, 2, 3, 4, 4, 4, 4, 4], [1, 2, 3, 4, 5, 6, 7, 8]])) =
      cat_map (fun c => (classify_3d_entry c).map LTok.lInt)
        [[1, 2, 3, 4, 4, 4, 4, 4], [1, 2, 3, 4, 5, 6, 7, 8]] :=
  (anim_c4 [[1, 2, 3, 4, 4, 4, 4, 4], [1, 2, 3, 4, 5, 6, 7, 8]]
    (by decide)).1 false

/-- C7: for every frame geometry (2-D cells given as 4-index chunks, 3-D
cells as 8-index chunks) the CELL_TYPES section emits, behind its header
and parallel to the cell list in family order 1-D, 2-D, 3-D, SPH, the
codes edge=3 per 1-D element, `type_code_2d` per 2-D cell (5 exactly when
the cell has 3 distinct indices, else quad=9), `type_code_3d` per 3-D
cell (10 exactly when the cell has 4 distinct indices, else
hexahedron=12) and vertex=1 per SPH particle, in both output modes. -/
theorem anim_c7 (b : Bool) (nb_elts_1d nb_elts_sph : Nat)
    (f2 f3 : List (List Int)) (h4 : ∀ c ∈ f2, c.length = 4)
    (h8 : ∀ c ∈ f3, c.length = 8) :
    logical (cell_types_tokens b nb_elts_1d (cat_map id f2) f2.length
      (cat_map id f3) f3.length nb_elts_sph) =
      (if 0 < total_cells nb_elts_1d f2.length f3.length nb_elts_sph then
        LTok.hline ("CELL_TYPES " ++
          toString (total_cells nb_elts_1d f2.length f3.length
            nb_elts_sph)) ::
        (List.replicate nb_elts_1d (LTok.lInt 3) ++
         f2.map (fun c => LTok.lInt (type_code_2d c)) ++
         f3.map (fun c => LTok.lInt (type_code_3d c)) ++
         List.replicate nb_elts_sph (LTok.lInt 1))
      else []) ∧
    (∀ c : List Int,
      ((distinct_nodes c).length = 3 → type_code_2d c = 5) ∧
      ((distinct_nodes c).length ≠ 3 → type_code_2d c = 9) ∧
      ((distinct_nodes c).length = 4 → type_code_3d c = 10) ∧
      ((distinct_nodes c).length ≠ 4 → type_code_3d c = 12)) := by
  constructor
  · have h2cell : ∀ i ∈ List.range f2.length,
        cell4 (cat_map id f2) i = f2.getD i [] := by
      intro i hi
      rw [List.mem_range] at hi
      rw [cell4_flatten f2 h4 i]
      exact (eq_four_of_length _ 0 (h4 _ (getD_mem_of_lt _ _ _ hi))).symm
    have h3cell : ∀ i ∈ List.range f3.length,
        cell8 (cat_map id f3) i = f3.getD i [] := by
      intro i hi
      rw [List.mem_range] at hi
      rw [cell8_flatten f3 h8 i]
      exact (eq_eight_of_length _ 0 (h8 _ (getD_mem_of_lt _ _ _ hi))).symm
    rw [cell_types_tokens, logical_append]
    have hnl : logical [Tok.nl] = [] := rfl
    rw [hnl, List.append_nil]
    by_cases ht : total_cells nb_elts_1d f2.length f3.length nb_elts_sph > 0
    · rw [if_pos ht, if_pos ht, logical_append]
      have hhd : logical [Tok.line ("CELL_TYPES " ++
          toString (total_cells nb_elts_1d f2.length f3.length
            nb_elts_sph))] =
          [LTok.hline ("CELL_TYPES " ++
            toString (total_cells nb_elts_1d f2.length f3.length
              nb_elts_sph))] := rfl
      rw [hhd, List.singleton_append]
      refine congrArg₂ List.cons rfl ?_
      cases b with
      | true =>
          rw [if_pos rfl, logical_append, logical_append, logical_append]
          have l1 := logical_cat_map_congr (l := List.range nb_elts_1d)
            (f := fun _ => [Tok.tInt 3]) (g := fun _ => [LTok.lInt 3])
            (fun _ _ => rfl)
          have l4 := logical_cat_map_congr (l := List.range nb_elts_sph)
            (f := fun _ => [Tok.tInt 1]) (g := fun _ => [LTok.lInt 1])
            (fun _ _ => rfl)
          rw [l1, l4, cat_map_singleton_replicate, List.length_range,
            cat_map_singleton_replicate, List.length_range]
          refine congrArg₂ _ (congrArg₂ _ (congrArg₂ _ rfl ?_) ?_) rfl
          · rw [map_eq_cat_map,
              ← cat_map_range_getD (fun c => [LTok.lInt (type_code_2d c)]) f2]
            apply logical_cat_map_congr
            intro i hi
            rw [h2cell i hi]
            rfl
          · rw [map_eq_cat_map,
              ← cat_map_range_getD (fun c => [LTok.lInt (type_code_3d c)]) f3]
            apply logical_cat_map_congr
            intro i hi
            rw [h3cell i hi]
            rfl
      | false =>
          rw [if_neg (by simp), logical_append, logical_append,
            logical_append]
          have l1 := logical_cat_map_congr (l := List.range nb_elts_1d)
            (f := fun _ => [Tok.tInt 3, Tok.nl]) (g := fun _ => [LTok.lInt 3])
            (fun _ _ => rfl)
          have l4 := logical_cat_map_congr (l := List.range nb_elts_sph)
            (f := fun _ => [Tok.tInt 1, Tok.nl]) (g := fun _ => [LTok.lInt 1])
            (fun _ _ => rfl)
          rw [l1, l4, cat_map_singleton_replicate, List.length_range,
            cat_map_singleton_replicate, List.length_range]
          refine congrArg₂ _ (congrArg₂ _ (congrArg₂ _ rfl ?_) ?_) rfl
          · rw [map_eq_cat_map,
              ← cat_map_range_getD (fun c => [LTok.lInt (type_code_2d c)]) f2]
            apply logical_cat_map_congr
            intro i hi
            rw [h2cell i hi]
            rfl
          · rw [map_eq_cat_map,
              ← cat_map_range_getD (fun c => [LTok.lInt (type_code_3d c)]) f3]
            apply logical_cat_map_congr
            intro i hi
            rw [h3cell i hi]
            rfl
    · rw [if_neg ht, if_neg ht]
      rfl
  · intro c
    refine ⟨fun h => ?_, fun h => ?_, fun h => ?_, fun h => ?_⟩
    · rw [type_code_2d, if_pos h]
    · rw [type_code_2d, if_neg h]
    · rw [type_code_3d, if_pos h]
    · rw [type_code_3d, if_neg h]

/-- C7 (witness): a mixed concrete mesh — one 1-D edge, the degenerate 2-D
cell `[1,2,3,3]` and the quad `[1,2,3,4]`, the degenerate 3-D cell
`[1,2,3,4,4,4,4,4]` and the hexahedron `[1,2,3,4,5,6,7,8]`, and one SPH
particle — receives the CELL_TYPES codes `3, 5, 9, 10, 12, 1`. -/
theorem anim_c7_witness :
    logical (cell_types_tokens false 1
      (cat_map id [[1, 2, 3, 3], [1, 2, 3, 4]])
      (List.length [[1, 2, 3, 3], [1, 2, 3, 4]])
      (cat_map id [[1, 2, 3, 4, 4, 4, 4, 4], [1, 2, 3, 4, 5, 6, 7, 8]])
      (List.length [[1, 2, 3, 4, 4, 4, 4, 4], [1, 2, 3, 4, 5, 6, 7, 8]]) 1) =
      (if 0 < total_cells 1 (List.length [[1, 2, 3, 3], [1, 2, 3, 4]])
          (List.length [[1, 2, 3, 4, 4, 4, 4, 4], [1, 2, 3, 4, 5, 6, 7, 8]])
          1 then
        LTok.hline ("CELL_TYPES " ++
          toString (total_cells 1
            (List.length [[1, 2, 3, 3], [1, 2, 3, 4]])
            (List.length [[1, 2, 3, 4, 4, 4, 4, 4],
              [1, 2, 3, 4, 5, 6, 7, 8]]) 1)) ::
        (List.replicate 1 (LTok.lInt 3) ++
         [[1, 2, 3, 3], [1, 2, 3, 4]].map
           (fun c => LTok.lInt (type_code_2d c)) ++
         [[1, 2, 3, 4, 4, 4, 4, 4], [1, 2, 3, 4, 5, 6, 7, 8]].map
           (fun c => LTok.lInt (type_code_3d c)) ++
         List.replicate 1 (LTok.lInt 1))
      else []) :=
  (anim_c7 false 1 1 [[1, 2, 3, 3], [1, 2, 3, 4]]
    [[1, 2, 3, 4, 4, 4, 4, 4], [1, 2, 3, 4, 5, 6, 7, 8]]
    (by decide) (by decide)).1

theorem dv_line (s : String) : data_values [Tok.line s] = [] := rfl

theorem dv_nl : data_values [Tok.nl] = [] := rfl

theorem dv_zero_tensor (b : Bool) :
    data_values (zero_tensor_tokens b) = List.replicate 9 (LTok.lF32 z32) := by
  cases b <;> rfl

theorem six_tensor_dv (ts : List (List Nat))
    (h6 : ∀ t ∈ ts, t.length = 6) (i : Nat) (w : Bool) :
    data_values (six_tensor_tokens (cat_map id ts) (6 * i) w) =
      expand6 (ts.getD i []) := by
  have e0 : (cat_map id ts).getD (6 * i) 0 = (ts.getD i []).getD 0 0 := by
    have h := flatten_chunk_getD 6 ts h6 i 0 0 (by norm_num)
    simpa using h
  have e1 : (cat_map id ts).getD (6 * i + 1) 0 = (ts.getD i []).getD 1 0 :=
    flatten_chunk_getD 6 ts h6 i 1 0 (by norm_num)
  have e2 : (cat_map id ts).getD (6 * i + 2) 0 = (ts.getD i []).getD 2 0 :=
    flatten_chunk_getD 6 ts h6 i 2 0 (by norm_num)
  have e3 : (cat_map id ts).getD (6 * i + 3) 0 = (ts.getD i []).getD 3 0 :=
    flatten_chunk_getD 6 ts h6 i 3 0 (by norm_num)
  have e4 : (cat_map id ts).getD (6 * i + 4) 0 = (ts.getD i []).getD 4 0 :=
    flatten_chunk_getD 6 ts h6 i 4 0 (by norm_num)
  have e5 : (cat_map id ts).getD (6 * i + 5) 0 = (ts.getD i []).getD 5 0 :=
    flatten_chunk_getD 6 ts h6 i 5 0 (by norm_num)
  cases w with
  | true =>
      show [LTok.lF32 ((cat_map id ts).getD (6 * i) 0),
        LTok.lF32 ((cat_map id ts).getD (6 * i + 3) 0),
        LTok.lF32 ((cat_map id ts).getD (6 * i + 4) 0),
        LTok.lF32 ((cat_map id ts).getD (6 * i + 3) 0),
        LTok.lF32 ((cat_map id ts).getD (6 * i + 1) 0),
        LTok.lF32 ((cat_map id ts).getD (6 * i + 5) 0),
        LTok.lF32 ((cat_map id ts).getD (6 * i + 4) 0),
        LTok.lF32 ((cat_map id ts).getD (6 * i + 5) 0),
        LTok.lF32 ((cat_map id ts).getD (6 * i + 2) 0)] = _
      rw [e0, e1, e2, e3, e4, e5]
      rfl
  | false =>
      show [LTok.lF32 ((cat_map id ts).getD (6 * i) 0),
        LTok.lF32 ((cat_map id ts).getD (6 * i + 3) 0),
        LTok.lF32 ((cat_map id ts).getD (6 * i + 4) 0),
        LTok.lF32 ((cat_map id ts).getD (6 * i + 3) 0),
        LTok.lF32 ((cat_map id ts).getD (6 * i + 1) 0),
        LTok.lF32 ((cat_map id ts).getD (6 * i + 5) 0),
        LTok.lF32 ((cat_map id ts).getD (6 * i + 4) 0),
        LTok.lF32 ((cat_map id ts).getD (6 * i + 5) 0),
        LTok.lF32 ((cat_map id ts).getD (6 * i + 2) 0)] = _
      rw [e0, e1, e2, e3, e4, e5]
      rfl

theorem tensors_3d_field_dv (b : Bool) (name : String)
    (ts : List (List Nat)) (h6 : ∀ t ∈ ts, t.length = 6)
    (ietens nb_elts_1d nb_facets nb_elts_3d nb_elts_sph : Nat) :
    data_values (tensors_3d_field_tokens b name (cat_map id ts) ietens
      nb_elts_1d nb_facets nb_elts_3d nb_elts_sph) =
      List.replicate (9 * nb_elts_1d) (LTok.lF32 z32) ++
      List.replicate (9 * nb_facets) (LTok.lF32 z32) ++
      cat_map (fun iel => expand6 (ts.getD (ietens * nb_elts_3d + iel) []))
        (List.range nb_elts_3d) ++
      List.replicate (9 * nb_elts_sph) (LTok.lF32 z32) := by
  have hz : ∀ (b' : Bool) (n : Nat),
      data_values (cat_map (fun _ => zero_tensor_tokens b') (List.range n)) =
        List.replicate (9 * n) (LTok.lF32 z32) := by
    intro b' n
    rw [data_values_cat_map_congr (g := fun _ => List.replicate 9
      (LTok.lF32 z32)) (fun _ _ => dv_zero_tensor b'),
      cat_map_const_replicate, List.length_range]
  have hsix : ∀ w : Bool, data_values (cat_map (fun iel =>
      six_tensor_tokens (cat_map id ts)
        (iel * 6 + ietens * 6 * nb_elts_3d) w) (List.range nb_elts_3d)) =
      cat_map (fun iel => expand6 (ts.getD (ietens * nb_elts_3d + iel) []))
        (List.range nb_elts_3d) := by
    intro w
    apply data_values_cat_map_congr
    intro iel _
    have hidx : iel * 6 + ietens * 6 * nb_elts_3d =
        6 * (ietens * nb_elts_3d + iel) := by ring
    rw [hidx]
    exact six_tensor_dv ts h6 (ietens * nb_elts_3d + iel) w
  cases b with
  | true =>
      show data_values ([Tok.line ("TENSORS 3DELEM_" ++ name ++ " float")] ++
        (cat_map (fun _ => zero_tensor_tokens true)
            (List.range nb_elts_1d) ++
         cat_map (fun _ => zero_tensor_tokens true) (List.range nb_facets) ++
         cat_map (fun iel => six_tensor_tokens (cat_map id ts)
           (iel * 6 + ietens * 6 * nb_elts_3d) false)
           (List.range nb_elts_3d) ++
         cat_map (fun _ => zero_tensor_tokens true)
           (List.range nb_elts_sph)) ++ [Tok.nl]) = _
      rw [data_values_append, data_values_append, data_values_append,
        data_values_append, data_values_append]
      rw [hz, hz, hz, hsix]
      simp only [dv_line, dv_nl, List.nil_append, List.append_nil]
  | false =>
      show data_values ([Tok.line ("TENSORS 3DELEM_" ++ name ++ " float")] ++
        (cat_map (fun _ => zero_tensor_tokens false)
            (List.range nb_elts_1d) ++
         cat_map (fun _ => zero_tensor_tokens false)
           (List.range nb_facets) ++
         cat_map (fun iel => six_tensor_tokens (cat_map id ts)
           (iel * 6 + ietens * 6 * nb_elts_3d) true)
           (List.range nb_elts_3d) ++
         cat_map (fun _ => zero_tensor_tokens false)
           (List.range nb_elts_sph)) ++ [Tok.nl]) = _
      rw [data_values_append, data_values_append, data_values_append,
        data_values_append, data_values_append]
      rw [hz, hz, hz, hsix]
      simp only [dv_line, dv_nl, List.nil_append, List.append_nil]

theorem tensors_sph_field_dv (b : Bool) (name : String)
    (ts : List (List Nat)) (h6 : ∀ t ∈ ts, t.length = 6)
    (ietens nb_elts_1d nb_facets nb_elts_3d nb_elts_sph : Nat) :
    data_values (tensors_sph_field_tokens b name (cat_map id ts) ietens
      nb_elts_1d nb_facets nb_elts_3d nb_elts_sph) =
      List.replicate (9 * nb_elts_1d) (LTok.lF32 z32) ++
      List.replicate (9 * nb_facets) (LTok.lF32 z32) ++
      List.replicate (9 * nb_elts_3d) (LTok.lF32 z32) ++
      cat_map (fun iel => expand6 (ts.getD (ietens * nb_elts_sph + iel) []))
        (List.range nb_elts_sph) := by
  have hz : ∀ (b' : Bool) (n : Nat),
      data_values (cat_map (fun _ => zero_tensor_tokens b') (List.range n)) =
        List.replicate (9 * n) (LTok.lF32 z32) := by
    intro b' n
    rw [data_values_cat_map_congr (g := fun _ => List.replicate 9
      (LTok.lF32 z32)) (fun _ _ => dv_zero_tensor b'),
      cat_map_const_replicate, List.length_range]
  have hsix : ∀ w : Bool, data_values (cat_map (fun iel =>
      six_tensor_tokens (cat_map id ts)
        (iel * 6 + ietens * 6 * nb_elts_sph) w) (List.range nb_elts_sph)) =
      cat_map (fun iel => expand6 (ts.getD (ietens * nb_elts_sph + iel) []))
        (List.range nb_elts_sph) := by
    intro w
    apply data_values_cat_map_congr
    intro iel _
    have hidx : iel * 6 + ietens * 6 * nb_elts_sph =
        6 * (ietens * nb_elts_sph + iel) := by ring
    rw [hidx]
    exact six_tensor_dv ts h6 (ietens * nb_elts_sph + iel) w
  cases b with
  | true =>
      show data_values
        ([Tok.line ("TENSORS SPHELEM_" ++ name ++ " float")] ++
        (cat_map (fun _ => zero_tensor_tokens true)
            (List.range nb_elts_1d) ++
         cat_map (fun _ => zero_tensor_tokens true) (List.range nb_facets) ++
         cat_map (fun _ => zero_tensor_tokens true)
           (List.range nb_elts_3d) ++
         cat_map (fun iel => six_tensor_tokens (cat_map id ts)
           (iel * 6 + ietens * 6 * nb_elts_sph) false)
           (List.range nb_elts_sph)) ++ [Tok.nl]) = _
      rw [data_values_append, data_values_append, data_values_append,
        data_values_append, data_values_append]
      rw [hz, hz, hz, hsix]
      simp only [dv_line, dv_nl, List.nil_append, List.append_nil]
  | false =>
      show data_values
        ([Tok.line ("TENSORS SPHELEM_" ++ name ++ " float")] ++
        (cat_map (fun _ => zero_tensor_tokens false)
            (List.range nb_elts_1d) ++
         cat_map (fun _ => zero_tensor_tokens false)
           (List.range nb_facets) ++
         cat_map (fun _ => zero_tensor_tokens false)
           (List.range nb_elts_3d) ++
         cat_map (fun iel => six_tensor_tokens (cat_map id ts)
           (iel * 6 + ietens * 6 * nb_elts_sph) true)
           (List.range nb_elts_sph)) ++ [Tok.nl]) = _
      rw [data_values_append, data_values_append, data_values_append,
        data_values_append, data_values_append]
      rw [hz, hz, hz, hsix]
      simp only [dv_line, dv_nl, List.nil_append, List.append_nil]

theorem tensors_2d_field_dv (b : Bool) (name : String)
    (ts : List (List Nat)) (h3 : ∀ t ∈ ts, t.length = 3)
    (ietens nb_elts_1d nb_facets nb_elts_3d nb_elts_sph : Nat) :
    data_values (tensors_2d_field_tokens b name (cat_map id ts) ietens
      nb_elts_1d nb_facets nb_elts_3d nb_elts_sph) =
      List.replicate (9 * nb_elts_1d) (LTok.lF32 z32) ++
      cat_map (fun iel => expand3 (ts.getD (ietens * nb_facets + iel) []))
        (List.range nb_facets) ++
      List.replicate (9 * nb_elts_3d) (LTok.lF32 z32) ++
      List.replicate (9 * nb_elts_sph) (LTok.lF32 z32) := by
  have hz : ∀ (b' : Bool) (n : Nat),
      data_values (cat_map (fun _ => zero_tensor_tokens b') (List.range n)) =
        List.replicate (9 * n) (LTok.lF32 z32) := by
    intro b' n
    rw [data_values_cat_map_congr (g := fun _ => List.replicate 9
      (LTok.lF32 z32)) (fun _ _ => dv_zero_tensor b'),
      cat_map_const_replicate, List.length_range]
  have key : ∀ (iel k : Nat), k < 3 → (cat_map id ts).getD
      (iel * 3 + ietens * 3 * nb_facets + k) 0 =
      (ts.getD (ietens * nb_facets + iel) []).getD k 0 := by
    intro iel k hk
    have hidx : iel * 3 + ietens * 3 * nb_facets + k =
        3 * (ietens * nb_facets + iel) + k := by ring
    rw [hidx]
    exact flatten_chunk_getD 3 ts h3 (ietens * nb_facets + iel) k 0 hk
  have key0 : ∀ iel : Nat, (cat_map id ts).getD
      (iel * 3 + ietens * 3 * nb_facets) 0 =
      (ts.getD (ietens * nb_facets + iel) []).getD 0 0 := by
    intro iel
    have h := key iel 0 (by norm_num)
    simpa using h
  cases b with
  | true =>
      have hfac : data_values (cat_map (fun iel =>
          [Tok.tF32 ((cat_map id ts).getD
             (iel * 3 + ietens * 3 * nb_facets) 0),
           Tok.tF32 ((cat_map id ts).getD
             (iel * 3 + ietens * 3 * nb_facets + 2) 0),
           Tok.tF32 z32,
           Tok.tF32 ((cat_map id ts).getD
             (iel * 3 + ietens * 3 * nb_facets + 2) 0),
           Tok.tF32 ((cat_map id ts).getD
             (iel * 3 + ietens * 3 * nb_facets + 1) 0),
           Tok.tF32 z32, Tok.tF32 z32, Tok.tF32 z32, Tok.tF32 z32])
          (List.range nb_facets)) =
          cat_map (fun iel =>
            expand3 (ts.getD (ietens * nb_facets + iel) []))
            (List.range nb_facets) := by
        apply data_values_cat_map_congr
        intro iel _
        show [LTok.lF32 ((cat_map id ts).getD
            (iel * 3 + ietens * 3 * nb_facets) 0),
          LTok.lF32 ((cat_map id ts).getD
            (iel * 3 + ietens * 3 * nb_facets + 2) 0),
          LTok.lF32 z32,
          LTok.lF32 ((cat_map id ts).getD
            (iel * 3 + ietens * 3 * nb_facets + 2) 0),
          LTok.lF32 ((cat_map id ts).getD
            (iel * 3 + ietens * 3 * nb_facets + 1) 0),
          LTok.lF32 z32, LTok.lF32 z32, LTok.lF32 z32, LTok.lF32 z32] = _
        rw [key0 iel, key iel 1 (by norm_num), key iel 2 (by norm_num)]
        rfl
      show data_values
        ([Tok.line ("TENSORS 2DELEM_" ++ name ++ " float")] ++
        (cat_map (fun _ => zero_tensor_tokens true)
            (List.range nb_elts_1d) ++
         _ ++
         cat_map (fun _ => zero_tensor_tokens true)
           (List.range nb_elts_3d) ++
         cat_map (fun _ => zero_tensor_tokens true)
           (List.range nb_elts_sph)) ++ [Tok.nl]) = _
      rw [data_values_append, data_values_append, data_values_append,
        data_values_append, data_values_append]
      rw [hz, hz, hz, hfac]
      simp only [dv_line, dv_nl, List.nil_append, List.append_nil]
  | false =>
      have hfac : data_values (cat_map (fun iel =>
          [Tok.tF32 ((cat_map id ts).getD
             (iel * 3 + ietens * 3 * nb_facets) 0),
           Tok.tF32 ((cat_map id ts).getD
             (iel * 3 + ietens * 3 * nb_facets + 2) 0),
           Tok.tF32 z32, Tok.nl,
           Tok.tF32 ((cat_map id ts).getD
             (iel * 3 + ietens * 3 * nb_facets + 2) 0),
           Tok.tF32 ((cat_map id ts).getD
             (iel * 3 + ietens * 3 * nb_facets + 1) 0),
           Tok.tF32 z32, Tok.nl,
           Tok.tF32 z32, Tok.tF32 z32, Tok.tF32 z32, Tok.nl])
          (List.range nb_facets)) =
          cat_map (fun iel =>
            expand3 (ts.getD (ietens * nb_facets + iel) []))
            (List.range nb_facets) := by
        apply data_values_cat_map_congr
        intro iel _
        show [LTok.lF32 ((cat_map id ts).getD
            (iel * 3 + ietens * 3 * nb_facets) 0),
          LTok.lF32 ((cat_map id ts).getD
            (iel * 3 + ietens * 3 * nb_facets + 2) 0),
          LTok.lF32 z32,
          LTok.lF32 ((cat_map id ts).getD
            (iel * 3 + ietens * 3 * nb_facets + 2) 0),
          LTok.lF32 ((cat_map id ts).getD
            (iel * 3 + ietens * 3 * nb_facets + 1) 0),
          LTok.lF32 z32, LTok.lF32 z32, LTok.lF32 z32, LTok.lF32 z32] = _
        rw [key0 iel, key iel 1 (by norm_num), key iel 2 (by norm_num)]
        rfl
      show data_values
        ([Tok.line ("TENSORS 2DELEM_" ++ name ++ " float")] ++
        (cat_map (fun _ => zero_tensor_tokens false)
            (List.range nb_elts_1d) ++
         _ ++
         cat_map (fun _ => zero_tensor_tokens false)
           (List.range nb_elts_3d) ++
         cat_map (fun _ => zero_tensor_tokens false)
           (List.range nb_elts_sph)) ++ [Tok.nl]) = _
      rw [data_values_append, data_values_append, data_values_append,
        data_values_append, data_values_append]
      rw [hz, hz, hz, hfac]
      simp only [dv_line, dv_nl, List.nil_append, List.append_nil]

/-- C5: tensor expansion is exact in both output modes.  For 3-D and SPH
fields, the 6-component compressed tensor stored for element `iel` of
field `ietens` (chunk `ietens*count + iel` of the value array) is emitted
as the nine values `expand6`, i.e. rows `xx xy xz / xy yy yz / xz yz zz`
of `[xx,yy,zz,xy,xz,yz]`; for 2-D fields the 3-component tensor is
emitted as `expand3`, i.e. rows `xx xy 0 / xy yy 0 / 0 0 0` of
`[xx,yy,xy]`; and concretely `[1,2,3,4,5,6]` expands to rows
`1 4 5 / 4 2 6 / 5 6 3`. -/
theorem anim_c5 (b : Bool) (name : String)
    (ietens nb_elts_1d nb_facets nb_elts_3d nb_elts_sph : Nat) :
    (∀ ts : List (List Nat), (∀ t ∈ ts, t.length = 6) →
      data_values (tensors_3d_field_tokens b name (cat_map id ts) ietens
        nb_elts_1d nb_facets nb_elts_3d nb_elts_sph) =
        List.replicate (9 * nb_elts_1d) (LTok.lF32 z32) ++
        List.replicate (9 * nb_facets) (LTok.lF32 z32) ++
        cat_map (fun iel => expand6 (ts.getD (ietens * nb_elts_3d + iel) []))
          (List.range nb_elts_3d) ++
        List.replicate (9 * nb_elts_sph) (LTok.lF32 z32)) ∧
    (∀ ts : List (List Nat), (∀ t ∈ ts, t.length = 6) →
      data_values (tensors_sph_field_tokens b name (cat_map id ts) ietens
        nb_elts_1d nb_facets nb_elts_3d nb_elts_sph) =
        List.replicate (9 * nb_elts_1d) (LTok.lF32 z32) ++
        List.replicate (9 * nb_facets) (LTok.lF32 z32) ++
        List.replicate (9 * nb_elts_3d) (LTok.lF32 z32) ++
        cat_map (fun iel =>
          expand6 (ts.getD (ietens * nb_elts_sph + iel) []))
          (List.range nb_elts_sph)) ∧
    (∀ ts : List (List Nat), (∀ t ∈ ts, t.length = 3) →
      data_values (tensors_2d_field_tokens b name (cat_map id ts) ietens
        nb_elts_1d nb_facets nb_elts_3d nb_elts_sph) =
        List.replicate (9 * nb_elts_1d) (LTok.lF32 z32) ++
        cat_map (fun iel => expand3 (ts.getD (ietens * nb_facets + iel) []))
          (List.range nb_facets) ++
        List.replicate (9 * nb_elts_3d) (LTok.lF32 z32) ++
        List.replicate (9 * nb_elts_sph) (LTok.lF32 z32)) ∧
    expand6 [1, 2, 3, 4, 5, 6] =
      [LTok.lF32 1, LTok.lF32 4, LTok.lF32 5,
       LTok.lF32 4, LTok.lF32 2, LTok.lF32 6,
       LTok.lF32 5, LTok.lF32 6, LTok.lF32 3] ∧
    expand3 [7, 8, 9] =
      [LTok.lF32 7, LTok.lF32 9, LTok.lF32 z32,
       LTok.lF32 9, LTok.lF32 8, LTok.lF32 z32,
       LTok.lF32 z32, LTok.lF32 z32, LTok.lF32 z32] := by
  refine ⟨fun ts h6 => tensors_3d_field_dv b name ts h6 ietens nb_elts_1d
      nb_facets nb_elts_3d nb_elts_sph,
    fun ts h6 => tensors_sph_field_dv b name ts h6 ietens nb_elts_1d
      nb_facets nb_elts_3d nb_elts_sph,
    fun ts h3 => tensors_2d_field_dv b name ts h3 ietens nb_elts_1d
      nb_facets nb_elts_3d nb_elts_sph,
    by decide, by decide⟩

/-- C5 (witness): one 3-D element, one tensor field with values
`[1,2,3,4,5,6]`, no other families — the emitted data values are exactly
the rows `1 4 5 / 4 2 6 / 5 6 3`. -/
theorem anim_c5_witness :
    data_values (tensors_3d_field_tokens false "S"
      (cat_map id [[1, 2, 3, 4, 5, 6]]) 0 0 0 1 0) =
      List.replicate (9 * 0) (LTok.lF32 z32) ++
      List.replicate (9 * 0) (LTok.lF32 z32) ++
      cat_map (fun iel =>
        expand6 ([[1, 2, 3, 4, 5, 6]].getD (0 * 1 + iel) []))
        (List.range 1) ++
      List.replicate (9 * 0) (LTok.lF32 z32) :=
  (anim_c5 false "S" 0 0 0 1 0).1 [[1, 2, 3, 4, 5, 6]] (by decide)

theorem dv_loop_int (f : Nat → Int) (n : Nat) :
    data_values (cat_map (fun i => [Tok.tInt (f i)]) (List.range n)) =
      (List.range n).map (fun i => LTok.lInt (f i)) := by
  rw [map_eq_cat_map]
  exact data_values_cat_map_congr (fun _ _ => rfl)

theorem dv_loop_int_nl (f : Nat → Int) (n : Nat) :
    data_values (cat_map (fun i => [Tok.tInt (f i), Tok.nl])
      (List.range n)) = (List.range n).map (fun i => LTok.lInt (f i)) := by
  rw [map_eq_cat_map]
  exact data_values_cat_map_congr (fun _ _ => rfl)

theorem dv_loop_f32 (f : Nat → Nat) (n : Nat) :
    data_values (cat_map (fun i => [Tok.tF32 (f i)]) (List.range n)) =
      (List.range n).map (fun i => LTok.lF32 (f i)) := by
  rw [map_eq_cat_map]
  exact data_values_cat_map_congr (fun _ _ => rfl)

theorem dv_loop_f32_nl (f : Nat → Nat) (n : Nat) :
    data_values (cat_map (fun i => [Tok.tF32 (f i), Tok.nl])
      (List.range n)) = (List.range n).map (fun i => LTok.lF32 (f i)) := by
  rw [map_eq_cat_map]
  exact data_values_cat_map_congr (fun _ _ => rfl)

theorem dv_zero_loop (n : Nat) :
    data_values (cat_map (fun _ => [Tok.tF32 z32]) (List.range n)) =
      List.replicate n (LTok.lF32 z32) := by
  rw [data_values_cat_map_congr (f := fun _ => [Tok.tF32 z32])
    (g := fun _ => [LTok.lF32 z32]) (fun _ _ => rfl),
    cat_map_singleton_replicate, List.length_range]

theorem dv_zero_loop_nl (n : Nat) :
    data_values (cat_map (fun _ => [Tok.tF32 z32, Tok.nl])
      (List.range n)) = List.replicate n (LTok.lF32 z32) := by
  rw [data_values_cat_map_congr (f := fun _ => [Tok.tF32 z32, Tok.nl])
    (g := fun _ => [LTok.lF32 z32]) (fun _ _ => rfl),
    cat_map_singleton_replicate, List.length_range]

theorem element_id_dv (b : Bool) (e1 e2 e3 e4 : List Int)
    (n1 n2 n3 n4 : Nat) :
    data_values (element_id_tokens b e1 e2 e3 e4 n1 n2 n3 n4) =
      (List.range n1).map (fun i => LTok.lInt (e1.getD i 0)) ++
      (List.range n2).map (fun i => LTok.lInt (e2.getD i 0)) ++
      (List.range n3).map (fun i => LTok.lInt (e3.getD i 0)) ++
      (List.range n4).map (fun i => LTok.lInt (e4.getD i 0)) := by
  cases b with
  | true =>
      show data_values ([Tok.line "SCALARS ELEMENT_ID int 1",
        Tok.line "LOOKUP_TABLE default"] ++
        (cat_map (fun i => [Tok.tInt (e1.getD i 0)]) (List.range n1) ++
         cat_map (fun i => [Tok.tInt (e2.getD i 0)]) (List.range n2) ++
         cat_map (fun i => [Tok.tInt (e3.getD i 0)]) (List.range n3) ++
         cat_map (fun i => [Tok.tInt (e4.getD i 0)]) (List.range n4)) ++
        [Tok.nl]) = _
      rw [data_values_append, data_values_append, data_values_append,
        data_values_append, data_values_append]
      rw [dv_loop_int (fun i => e1.getD i 0) n1,
        dv_loop_int (fun i => e2.getD i 0) n2,
        dv_loop_int (fun i => e3.getD i 0) n3,
        dv_loop_int (fun i => e4.getD i 0) n4]
      show [] ++ _ ++ [] = _
      rw [List.nil_append, List.append_nil]
  | false =>
      show data_values ([Tok.line "SCALARS ELEMENT_ID int 1",
        Tok.line "LOOKUP_TABLE default"] ++
        (cat_map (fun i => [Tok.tInt (e1.getD i 0), Tok.nl])
          (List.range n1) ++
         cat_map (fun i => [Tok.tInt (e2.getD i 0), Tok.nl])
          (List.range n2) ++
         cat_map (fun i => [Tok.tInt (e3.getD i 0), Tok.nl])
          (List.range n3) ++
         cat_map (fun i => [Tok.tInt (e4.getD i 0), Tok.nl])
          (List.range n4)) ++ [Tok.nl]) = _
      rw [data_values_append, data_values_append, data_values_append,
        data_values_append, data_values_append]
      rw [dv_loop_int_nl (fun i => e1.getD i 0) n1,
        dv_loop_int_nl (fun i => e2.getD i 0) n2,
        dv_loop_int_nl (fun i => e3.getD i 0) n3,
        dv_loop_int_nl (fun i => e4.getD i 0) n4]
      show [] ++ _ ++ [] = _
      rw [List.nil_append, List.append_nil]

theorem dv_map_tInt (l : List Int) :
    data_values (l.map Tok.tInt) = l.map LTok.lInt := by
  rw [data_values, cat_map_map, map_eq_cat_map]
  rfl

theorem dv_int_list_nl (l : List Int) :
    data_values (cat_map (fun v => [Tok.tInt v, Tok.nl]) l) =
      l.map LTok.lInt := by
  rw [map_eq_cat_map]
  exact data_values_cat_map_congr (fun _ _ => rfl)

theorem part_id_dv (b : Bool) (dp1 : List Int) (pt1 : List String)
    (np1 n1 : Nat) (dpa : List Int) (pta : List String) (npa n2 : Nat)
    (dp3 : List Int) (pt3 : List String) (n3 : Nat)
    (dps : List Int) (pts : List String) (n4 : Nat) :
    data_values (part_id_tokens b dp1 pt1 np1 n1 dpa pta npa n2
      dp3 pt3 n3 dps pts n4) =
      (resolve_part_ids dp1 pt1 np1 n1).map LTok.lInt ++
      (resolve_part_ids dpa pta npa n2).map LTok.lInt ++
      (resolve_part_ids dp3 pt3 pt3.length n3).map LTok.lInt ++
      (resolve_part_ids dps pts pts.length n4).map LTok.lInt := by
  cases b with
  | true =>
      show data_values ([Tok.line "SCALARS PART_ID int 1",
        Tok.line "LOOKUP_TABLE default"] ++
        ((resolve_part_ids dp1 pt1 np1 n1).map Tok.tInt ++
         (resolve_part_ids dpa pta npa n2).map Tok.tInt ++
         (resolve_part_ids dp3 pt3 pt3.length n3).map Tok.tInt ++
         (resolve_part_ids dps pts pts.length n4).map Tok.tInt) ++
        [Tok.nl]) = _
      rw [data_values_append, data_values_append, data_values_append,
        data_values_append, data_values_append]
      rw [dv_map_tInt, dv_map_tInt, dv_map_tInt, dv_map_tInt]
      show [] ++ _ ++ [] = _
      rw [List.nil_append, List.append_nil]
  | false =>
      show data_values ([Tok.line "SCALARS PART_ID int 1",
        Tok.line "LOOKUP_TABLE default"] ++
        (cat_map (fun v => [Tok.tInt v, Tok.nl])
          (resolve_part_ids dp1 pt1 np1 n1) ++
         cat_map (fun v => [Tok.tInt v, Tok.nl])
          (resolve_part_ids dpa pta npa n2) ++
         cat_map (fun v => [Tok.tInt v, Tok.nl])
          (resolve_part_ids dp3 pt3 pt3.length n3) ++
         cat_map (fun v => [Tok.tInt v, Tok.nl])
          (resolve_part_ids dps pts pts.length n4)) ++ [Tok.nl]) = _
      rw [data_values_append, data_values_append, data_values_append,
        data_values_append, data_values_append]
      rw [dv_int_list_nl, dv_int_list_nl, dv_int_list_nl, dv_int_list_nl]
      show [] ++ _ ++ [] = _
      rw [List.nil_append, List.append_nil]

theorem erosion_dv (b : Bool) (d1 d2 d3 d4 : List Nat)
    (n1 n2 n3 n4 : Nat) :
    data_values (erosion_tokens b d1 d2 d3 d4 n1 n2 n3 n4) =
      (List.range n1).map (fun i =>
        LTok.lInt (if d1.getD i 0 ≠ 0 then 1 else 0)) ++
      (List.range n2).map (fun i =>
        LTok.lInt (if d2.getD i 0 ≠ 0 then 1 else 0)) ++
      (List.range n3).map (fun i =>
        LTok.lInt (if d3.getD i 0 ≠ 0 then 1 else 0)) ++
      (List.range n4).map (fun i =>
        LTok.lInt (if d4.getD i 0 ≠ 0 then 1 else 0)) := by
  cases b with
  | true =>
      show data_values ([Tok.line "SCALARS EROSION_STATUS int 1",
        Tok.line "LOOKUP_TABLE default"] ++
        (cat_map (fun i => [Tok.tInt (if d1.getD i 0 ≠ 0 then 1 else 0)])
          (List.range n1) ++
         cat_map (fun i => [Tok.tInt (if d2.getD i 0 ≠ 0 then 1 else 0)])
          (List.range n2) ++
         cat_map (fun i => [Tok.tInt (if d3.getD i 0 ≠ 0 then 1 else 0)])
          (List.range n3) ++
         cat_map (fun i => [Tok.tInt (if d4.getD i 0 ≠ 0 then 1 else 0)])
          (List.range n4)) ++ [Tok.nl]) = _
      rw [data_values_append, data_values_append, data_values_append,
        data_values_append, data_values_append]
      rw [dv_loop_int (fun i => if d1.getD i 0 ≠ 0 then 1 else 0) n1,
        dv_loop_int (fun i => if d2.getD i 0 ≠ 0 then 1 else 0) n2,
        dv_loop_int (fun i => if d3.getD i 0 ≠ 0 then 1 else 0) n3,
        dv_loop_int (fun i => if d4.getD i 0 ≠ 0 then 1 else 0) n4]
      show [] ++ _ ++ [] = _
      rw [List.nil_append, List.append_nil]
  | false =>
      show data_values ([Tok.line "SCALARS EROSION_STATUS int 1",
        Tok.line "LOOKUP_TABLE default"] ++
        (cat_map (fun i =>
          [Tok.tInt (if d1.getD i 0 ≠ 0 then 1 else 0), Tok.nl])
          (List.range n1) ++
         cat_map (fun i =>
          [Tok.tInt (if d2.getD i 0 ≠ 0 then 1 else 0), Tok.nl])
          (List.range n2) ++
         cat_map (fun i =>
          [Tok.tInt (if d3.getD i 0 ≠ 0 then 1 else 0), Tok.nl])
          (List.range n3) ++
         cat_map (fun i =>
          [Tok.tInt (if d4.getD i 0 ≠ 0 then 1 else 0), Tok.nl])
          (List.range n4)) ++ [Tok.nl]) = _
      rw [data_values_append, data_values_append, data_values_append,
        data_values_append, data_values_append]
      rw [dv_loop_int_nl (fun i => if d1.getD i 0 ≠ 0 then 1 else 0) n1,
        dv_loop_int_nl (fun i => if d2.getD i 0 ≠ 0 then 1 else 0) n2,
        dv_loop_int_nl (fun i => if d3.getD i 0 ≠ 0 then 1 else 0) n3,
        dv_loop_int_nl (fun i => if d4.getD i 0 ≠ 0 then 1 else 0) n4]
      show [] ++ _ ++ [] = _
      rw [List.nil_append, List.append_nil]

theorem scalars_1d_field_dv (b : Bool) (name : String) (ef : List Nat)
    (iefun n1 n2 n3 n4 : Nat) :
    data_values (scalars_1d_field_tokens b name ef iefun n1 n2 n3 n4) =
      (List.range n1).map (fun iel =>
        LTok.lF32 (ef.getD (iefun * n1 + iel) 0)) ++
      List.replicate n2 (LTok.lF32 z32) ++
      List.replicate n3 (LTok.lF32 z32) ++
      List.replicate n4 (LTok.lF32 z32) := by
  cases b with
  | true =>
      show data_values
        ([Tok.line ("SCALARS 1DELEM_" ++ name ++ " float 1"),
          Tok.line "LOOKUP_TABLE default"] ++
        (cat_map (fun iel => [Tok.tF32 (ef.getD (iefun * n1 + iel) 0)])
          (List.range n1) ++
         cat_map (fun _ => [Tok.tF32 z32]) (List.range n2) ++
         cat_map (fun _ => [Tok.tF32 z32]) (List.range n3) ++
         cat_map (fun _ => [Tok.tF32 z32]) (List.range n4)) ++
        [Tok.nl]) = _
      rw [data_values_append, data_values_append, data_values_append,
        data_values_append, data_values_append]
      rw [dv_loop_f32 (fun iel => ef.getD (iefun * n1 + iel) 0) n1,
        dv_zero_loop n2, dv_zero_loop n3, dv_zero_loop n4]
      show [] ++ _ ++ [] = _
      rw [List.nil_append, List.append_nil]
  | false =>
      show data_values
        ([Tok.line ("SCALARS 1DELEM_" ++ name ++ " float 1"),
          Tok.line "LOOKUP_TABLE default"] ++
        (cat_map (fun iel =>
          [Tok.tF32 (ef.getD (iefun * n1 + iel) 0), Tok.nl])
          (List.range n1) ++
         cat_map (fun _ => [Tok.tF32 z32, Tok.nl]) (List.range n2) ++
         cat_map (fun _ => [Tok.tF32 z32, Tok.nl]) (List.range n3) ++
         cat_map (fun _ => [Tok.tF32 z32, Tok.nl]) (List.range n4)) ++
        [Tok.nl]) = _
      rw [data_values_append, data_values_append, data_values_append,
        data_values_append, data_values_append]
      rw [dv_loop_f32_nl (fun iel => ef.getD (iefun * n1 + iel) 0) n1,
        dv_zero_loop_nl n2, dv_zero_loop_nl n3, dv_zero_loop_nl n4]
      show [] ++ _ ++ [] = _
      rw [List.nil_append, List.append_nil]

theorem torsor_field_dv (b : Bool) (name : String) (tv : List Nat)
    (iefun j n1 n2 n3 n4 : Nat) :
    data_values (torsor_field_tokens b name tv iefun j n1 n2 n3 n4) =
      (List.range n1).map (fun iel =>
        LTok.lF32 (tv.getD (9 * iefun * n1 + iel * 9 + j) 0)) ++
      List.replicate n2 (LTok.lF32 z32) ++
      List.replicate n3 (LTok.lF32 z32) ++
      List.replicate n4 (LTok.lF32 z32) := by
  cases b with
  | true =>
      show data_values
        ([Tok.line ("SCALARS 1DELEM_" ++ name ++ tors_names.getD j "" ++
            " float 1"),
          Tok.line "LOOKUP_TABLE default"] ++
        (cat_map (fun iel =>
          [Tok.tF32 (tv.getD (9 * iefun * n1 + iel * 9 + j) 0)])
          (List.range n1) ++
         cat_map (fun _ => [Tok.tF32 z32]) (List.range n2) ++
         cat_map (fun _ => [Tok.tF32 z32]) (List.range n3) ++
         cat_map (fun _ => [Tok.tF32 z32]) (List.range n4)) ++
        [Tok.nl]) = _
      rw [data_values_append, data_values_append, data_values_append,
        data_values_append, data_values_append]
      rw [dv_loop_f32 (fun iel => tv.getD (9 * iefun * n1 + iel * 9 + j) 0)
        n1, dv_zero_loop n2, dv_zero_loop n3, dv_zero_loop n4]
      show [] ++ _ ++ [] = _
      rw [List.nil_append, List.append_nil]
  | false =>
      show data_values
        ([Tok.line ("SCALARS 1DELEM_" ++ name ++ tors_names.getD j "" ++
            " float 1"),
          Tok.line "LOOKUP_TABLE default"] ++
        (cat_map (fun iel =>
          [Tok.tF32 (tv.getD (9 * iefun * n1 + iel * 9 + j) 0), Tok.nl])
          (List.range n1) ++
         cat_map (fun _ => [Tok.tF32 z32, Tok.nl]) (List.range n2) ++
         cat_map (fun _ => [Tok.tF32 z32, Tok.nl]) (List.range n3) ++
         cat_map (fun _ => [Tok.tF32 z32, Tok.nl]) (List.range n4)) ++
        [Tok.nl]) = _
      rw [data_values_append, data_values_append, data_values_append,
        data_values_append, data_values_append]
      rw [dv_loop_f32_nl
        (fun iel => tv.getD (9 * iefun * n1 + iel * 9 + j) 0) n1,
        dv_zero_loop_nl n2, dv_zero_loop_nl n3, dv_zero_loop_nl n4]
      show [] ++ _ ++ [] = _
      rw [List.nil_append, List.append_nil]

theorem scalars_2d_field_dv (b : Bool) (name : String) (ef : List Nat)
    (iefun n1 n2 n3 n4 : Nat) :
    data_values (scalars_2d_field_tokens b name ef iefun n1 n2 n3 n4) =
      List.replicate n1 (LTok.lF32 z32) ++
      (List.range n2).map (fun iel =>
        LTok.lF32 (ef.getD (iefun * n2 + iel) 0)) ++
      List.replicate n3 (LTok.lF32 z32) ++
      List.replicate n4 (LTok.lF32 z32) := by
  cases b with
  | true =>
      show data_values
        ([Tok.line ("SCALARS 2DELEM_" ++ name ++ " float 1"),
          Tok.line "LOOKUP_TABLE default"] ++
        (cat_map (fun _ => [Tok.tF32 z32]) (List.range n1) ++
         cat_map (fun iel => [Tok.tF32 (ef.getD (iefun * n2 + iel) 0)])
          (List.range n2) ++
         cat_map (fun _ => [Tok.tF32 z32]) (List.range n3) ++
         cat_map (fun _ => [Tok.tF32 z32]) (List.range n4)) ++
        [Tok.nl]) = _
      rw [data_values_append, data_values_append, data_values_append,
        data_values_append, data_values_append]
      rw [dv_loop_f32 (fun iel => ef.getD (iefun * n2 + iel) 0) n2,
        dv_zero_loop n1, dv_zero_loop n3, dv_zero_loop n4]
      show [] ++ _ ++ [] = _
      rw [List.nil_append, List.append_nil]
  | false =>
      show data_values
        ([Tok.line ("SCALARS 2DELEM_" ++ name ++ " float 1"),
          Tok.line "LOOKUP_TABLE default"] ++
        (cat_map (fun _ => [Tok.tF32 z32, Tok.nl]) (List.range n1) ++
         cat_map (fun iel =>
          [Tok.tF32 (ef.getD (iefun * n2 + iel) 0), Tok.nl])
          (List.range n2) ++
         cat_map (fun _ => [Tok.tF32 z32, Tok.nl]) (List.range n3) ++
         cat_map (fun _ => [Tok.tF32 z32, Tok.nl]) (List.range n4)) ++
        [Tok.nl]) = _
      rw [data_values_append, data_values_append, data_values_append,
        data_values_append, data_values_append]
      rw [dv_loop_f32_nl (fun iel => ef.getD (iefun * n2 + iel) 0) n2,
        dv_zero_loop_nl n1, dv_zero_loop_nl n3, dv_zero_loop_nl n4]
      show [] ++ _ ++ [] = _
      rw [List.nil_append, List.append_nil]

theorem scalars_3d_field_dv (b : Bool) (name : String) (ef : List Nat)
    (iefun n1 n2 n3 n4 : Nat) :
    data_values (scalars_3d_field_tokens b name ef iefun n1 n2 n3 n4) =
      List.replicate n1 (LTok.lF32 z32) ++
      List.replicate n2 (LTok.lF32 z32) ++
      (List.range n3).map (fun iel =>
        LTok.lF32 (ef.getD (iefun * n3 + iel) 0)) ++
      List.replicate n4 (LTok.lF32 z32) := by
  cases b with
  | true =>
      show data_values
        ([Tok.line ("SCALARS 3DELEM_" ++ name ++ " float 1"),
          Tok.line "LOOKUP_TABLE default"] ++
        (cat_map (fun _ => [Tok.tF32 z32]) (List.range n1) ++
         cat_map (fun _ => [Tok.tF32 z32]) (List.range n2) ++
         cat_map (fun iel => [Tok.tF32 (ef.getD (iefun * n3 + iel) 0)])
          (List.range n3) ++
         cat_map (fun _ => [Tok.tF32 z32]) (List.range n4)) ++
        [Tok.nl]) = _
      rw [data_values_append, data_values_append, data_values_append,
        data_values_append, data_values_append]
      rw [dv_loop_f32 (fun iel => ef.getD (iefun * n3 + iel) 0) n3,
        dv_zero_loop n1, dv_zero_loop n2, dv_zero_loop n4]
      show [] ++ _ ++ [] = _
      rw [List.nil_append, List.append_nil]
  | false =>
      show data_values
        ([Tok.line ("SCALARS 3DELEM_" ++ name ++ " float 1"),
          Tok.line "LOOKUP_TABLE default"] ++
        (cat_map (fun _ => [Tok.tF32 z32, Tok.nl]) (List.range n1) ++
         cat_map (fun _ => [Tok.tF32 z32, Tok.nl]) (List.range n2) ++
         cat_map (fun iel =>
          [Tok.tF32 (ef.getD (iefun * n3 + iel) 0), Tok.nl])
          (List.range n3) ++
         cat_map (fun _ => [Tok.tF32 z32, Tok.nl]) (List.range n4)) ++
        [Tok.nl]) = _
      rw [data_values_append, data_values_append, data_values_append,
        data_values_append, data_values_append]
      rw [dv_loop_f32_nl (fun iel => ef.getD (iefun * n3 + iel) 0) n3,
        dv_zero_loop_nl n1, dv_zero_loop_nl n2, dv_zero_loop_nl n4]
      show [] ++ _ ++ [] = _
      rw [List.nil_append, List.append_nil]

theorem scalars_sph_field_dv (b : Bool) (name : String) (ef : List Nat)
    (iefun n1 n2 n3 n4 : Nat) :
    data_values (scalars_sph_field_tokens b name ef iefun n1 n2 n3 n4) =
      List.replicate n1 (LTok.lF32 z32) ++
      List.replicate n2 (LTok.lF32 z32) ++
      List.replicate n3 (LTok.lF32 z32) ++
      (List.range n4).map (fun iel =>
        LTok.lF32 (ef.getD (iefun * n4 + iel) 0)) := by
  cases b with
  | true =>
      show data_values
        ([Tok.line ("SCALARS SPHELEM_" ++ name ++ " float 1"),
          Tok.line "LOOKUP_TABLE default"] ++
        (cat_map (fun _ => [Tok.tF32 z32]) (List.range n1) ++
         cat_map (fun _ => [Tok.tF32 z32]) (List.range n2) ++
         cat_map (fun _ => [Tok.tF32 z32]) (List.range n3) ++
         cat_map (fun iel => [Tok.tF32 (ef.getD (iefun * n4 + iel) 0)])
          (List.range n4)) ++ [Tok.nl]) = _
      rw [data_values_append, data_values_append, data_values_append,
        data_values_append, data_values_append]
      rw [dv_loop_f32 (fun iel => ef.getD (iefun * n4 + iel) 0) n4,
        dv_zero_loop n1, dv_zero_loop n2, dv_zero_loop n3]
      show [] ++ _ ++ [] = _
      rw [List.nil_append, List.append_nil]
  | false =>
      show data_values
        ([Tok.line ("SCALARS SPHELEM_" ++ name ++ " float 1"),
          Tok.line "LOOKUP_TABLE default"] ++
        (cat_map (fun _ => [Tok.tF32 z32, Tok.nl]) (List.range n1) ++
         cat_map (fun _ => [Tok.tF32 z32, Tok.nl]) (List.range n2) ++
         cat_map (fun _ => [Tok.tF32 z32, Tok.nl]) (List.range n3) ++
         cat_map (fun iel =>
          [Tok.tF32 (ef.getD (iefun * n4 + iel) 0), Tok.nl])
          (List.range n4)) ++ [Tok.nl]) = _
      rw [data_values_append, data_values_append, data_values_append,
        data_values_append, data_values_append]
      rw [dv_loop_f32_nl (fun iel => ef.getD (iefun * n4 + iel) 0) n4,
        dv_zero_loop_nl n1, dv_zero_loop_nl n2, dv_zero_loop_nl n3]
      show [] ++ _ ++ [] = _
      rw [List.nil_append, List.append_nil]

theorem resolve_part_ids_length (dp : List Int) (pt : List String)
    (np n : Nat) : (resolve_part_ids dp pt np n).length = n := by
  suffices h : ∀ k i c, (resolve_go dp pt np k i c).length = k from h n 0 0
  intro k
  induction k with
  | zero => intro i c; rfl
  | succ k ih =>
      intro i c
      show (resolve_go dp pt np k (i + 1) _).length + 1 = k + 1
      rw [ih]

theorem dv_zero_tensor_loop (b : Bool) (n : Nat) :
    data_values (cat_map (fun _ => zero_tensor_tokens b) (List.range n)) =
      List.replicate (9 * n) (LTok.lF32 z32) := by
  rw [data_values_cat_map_congr (f := fun _ => zero_tensor_tokens b)
    (g := fun _ => List.replicate 9 (LTok.lF32 z32))
    (fun _ _ => dv_zero_tensor b),
    cat_map_const_replicate, List.length_range]

theorem tensors_2d_field_len (b : Bool) (name : String) (tv : List Nat)
    (ietens n1 n2 n3 n4 : Nat) :
    (data_values
      (tensors_2d_field_tokens b name tv ietens n1 n2 n3 n4)).length =
      9 * total_cells n1 n2 n3 n4 := by
  have htot : total_cells n1 n2 n3 n4 = n1 + n2 + n3 + n4 := rfl
  cases b with
  | true =>
      have hf : (data_values (cat_map (fun iel =>
          [Tok.tF32 (tv.getD (iel * 3 + ietens * 3 * n2) 0),
           Tok.tF32 (tv.getD (iel * 3 + ietens * 3 * n2 + 2) 0),
           Tok.tF32 z32,
           Tok.tF32 (tv.getD (iel * 3 + ietens * 3 * n2 + 2) 0),
           Tok.tF32 (tv.getD (iel * 3 + ietens * 3 * n2 + 1) 0),
           Tok.tF32 z32, Tok.tF32 z32, Tok.tF32 z32, Tok.tF32 z32])
          (List.range n2))).length = 9 * n2 := by
        rw [data_values_cat_map]
        refine Eq.trans (cat_map_length _ 9 _ ?_) (by rw [List.length_range])
        intro a _
        rfl
      show (data_values
        ([Tok.line ("TENSORS 2DELEM_" ++ name ++ " float")] ++
        (cat_map (fun _ => zero_tensor_tokens true) (List.range n1) ++
         _ ++
         cat_map (fun _ => zero_tensor_tokens true) (List.range n3) ++
         cat_map (fun _ => zero_tensor_tokens true) (List.range n4)) ++
        [Tok.nl])).length = _
      rw [data_values_append, data_values_append, data_values_append,
        data_values_append, data_values_append, dv_zero_tensor_loop,
        dv_zero_tensor_loop, dv_zero_tensor_loop, dv_line, dv_nl]
      simp only [List.length_append, List.length_replicate,
        List.length_nil, hf, htot]
      ring
  | false =>
      have hf : (data_values (cat_map (fun iel =>
          [Tok.tF32 (tv.getD (iel * 3 + ietens * 3 * n2) 0),
           Tok.tF32 (tv.getD (iel * 3 + ietens * 3 * n2 + 2) 0),
           Tok.tF32 z32, Tok.nl,
           Tok.tF32 (tv.getD (iel * 3 + ietens * 3 * n2 + 2) 0),
           Tok.tF32 (tv.getD (iel * 3 + ietens * 3 * n2 + 1) 0),
           Tok.tF32 z32, Tok.nl,
           Tok.tF32 z32, Tok.tF32 z32, Tok.tF32 z32, Tok.nl])
          (List.range n2))).length = 9 * n2 := by
        rw [data_values_cat_map]
        refine Eq.trans (cat_map_length _ 9 _ ?_) (by rw [List.length_range])
        intro a _
        rfl
      show (data_values
        ([Tok.line ("TENSORS 2DELEM_" ++ name ++ " float")] ++
        (cat_map (fun _ => zero_tensor_tokens false) (List.range n1) ++
         _ ++
         cat_map (fun _ => zero_tensor_tokens false) (List.range n3) ++
         cat_map (fun _ => zero_tensor_tokens false) (List.range n4)) ++
        [Tok.nl])).length = _
      rw [data_values_append, data_values_append, data_values_append,
        data_values_append, data_values_append, dv_zero_tensor_loop,
        dv_zero_tensor_loop, dv_zero_tensor_loop, dv_line, dv_nl]
      simp only [List.length_append, List.length_replicate,
        List.length_nil, hf, htot]
      ring

theorem dv_six_tensor_length (tv : List Nat) (base : Nat) (w : Bool) :
    (data_values (six_tensor_tokens tv base w)).length = 9 := by
  cases w <;> rfl

theorem tensors_3d_field_len (b : Bool) (name : String) (tv : List Nat)
    (ietens n1 n2 n3 n4 : Nat) :
    (data_values
      (tensors_3d_field_tokens b name tv ietens n1 n2 n3 n4)).length =
      9 * total_cells n1 n2 n3 n4 := by
  have htot : total_cells n1 n2 n3 n4 = n1 + n2 + n3 + n4 := rfl
  cases b with
  | true =>
      have hf : (data_values (cat_map (fun iel =>
          six_tensor_tokens tv (iel * 6 + ietens * 6 * n3) false)
          (List.range n3))).length = 9 * n3 := by
        rw [data_values_cat_map, cat_map_length _ 9 _
          (fun a _ => dv_six_tensor_length tv _ false), List.length_range]
      show (data_values
        ([Tok.line ("TENSORS 3DELEM_" ++ name ++ " float")] ++
        (cat_map (fun _ => zero_tensor_tokens true) (List.range n1) ++
         cat_map (fun _ => zero_tensor_tokens true) (List.range n2) ++
         _ ++
         cat_map (fun _ => zero_tensor_tokens true) (List.range n4)) ++
        [Tok.nl])).length = _
      rw [data_values_append, data_values_append, data_values_append,
        data_values_append, data_values_append, dv_zero_tensor_loop,
        dv_zero_tensor_loop, dv_zero_tensor_loop, dv_line, dv_nl]
      simp only [List.length_append, List.length_replicate,
        List.length_nil, hf, htot]
      ring
  | false =>
      have hf : (data_values (cat_map (fun iel =>
          six_tensor_tokens tv (iel * 6 + ietens * 6 * n3) true)
          (List.range n3))).length = 9 * n3 := by
        rw [data_values_cat_map, cat_map_length _ 9 _
          (fun a _ => dv_six_tensor_length tv _ true), List.length_range]
      show (data_values
        ([Tok.line ("TENSORS 3DELEM_" ++ name ++ " float")] ++
        (cat_map (fun _ => zero_tensor_tokens false) (List.range n1) ++
         cat_map (fun _ => zero_tensor_tokens false) (List.range n2) ++
         _ ++
         cat_map (fun _ => zero_tensor_tokens false) (List.range n4)) ++
        [Tok.nl])).length = _
      rw [data_values_append, data_values_append, data_values_append,
        data_values_append, data_values_append, dv_zero_tensor_loop,
        dv_zero_tensor_loop, dv_zero_tensor_loop, dv_line, dv_nl]
      simp only [List.length_append, List.length_replicate,
        List.length_nil, hf, htot]
      ring

theorem tensors_sph_field_len (b : Bool) (name : String) (tv : List Nat)
    (ietens n1 n2 n3 n4 : Nat) :
    (data_values
      (tensors_sph_field_tokens b name tv ietens n1 n2 n3 n4)).length =
      9 * total_cells n1 n2 n3 n4 := by
  have htot : total_cells n1 n2 n3 n4 = n1 + n2 + n3 + n4 := rfl
  cases b with
  | true =>
      have hf : (data_values (cat_map (fun iel =>
          six_tensor_tokens tv (iel * 6 + ietens * 6 * n4) false)
          (List.range n4))).length = 9 * n4 := by
        rw [data_values_cat_map, cat_map_length _ 9 _
          (fun a _ => dv_six_tensor_length tv _ false), List.length_range]
      show (data_values
        ([Tok.line ("TENSORS SPHELEM_" ++ name ++ " float")] ++
        (cat_map (fun _ => zero_tensor_tokens true) (List.range n1) ++
         cat_map (fun _ => zero_tensor_tokens true) (List.range n2) ++
         cat_map (fun _ => zero_tensor_tokens true) (List.range n3) ++
         _) ++ [Tok.nl])).length = _
      rw [data_values_append, data_values_append, data_values_append,
        data_values_append, data_values_append, dv_zero_tensor_loop,
        dv_zero_tensor_loop, dv_zero_tensor_loop, dv_line, dv_nl]
      simp only [List.length_append, List.length_replicate,
        List.length_nil, hf, htot]
      ring
  | false =>
      have hf : (data_values (cat_map (fun iel =>
          six_tensor_tokens tv (iel * 6 + ietens * 6 * n4) true)
          (List.range n4))).length = 9 * n4 := by
        rw [data_values_cat_map, cat_map_length _ 9 _
          (fun a _ => dv_six_tensor_length tv _ true), List.length_range]
      show (data_values
        ([Tok.line ("TENSORS SPHELEM_" ++ name ++ " float")] ++
        (cat_map (fun _ => zero_tensor_tokens false) (List.range n1) ++
         cat_map (fun _ => zero_tensor_tokens false) (List.range n2) ++
         cat_map (fun _ => zero_tensor_tokens false) (List.range n3) ++
         _) ++ [Tok.nl])).length = _
      rw [data_values_append, data_values_append, data_values_append,
        data_values_append, data_values_append, dv_zero_tensor_loop,
        dv_zero_tensor_loop, dv_zero_tensor_loop, dv_line, dv_nl]
      simp only [List.length_append, List.length_replicate,
        List.length_nil, hf, htot]
      ring

/-- C6: the combined cell count is `nb_elts_1d + nb_facets + nb_elts_3d +
nb_elts_sph` (`total_cells`, the number written into the CELLS, CELL_TYPES
and CELL_DATA headers), and every emitted cell-data field — ELEMENT_ID,
PART_ID, EROSION_STATUS, each elemental scalar field, each torsor
component field, and each tensor field (counting its nine components per
cell) — carries exactly `total_cells` entries per cell slot, with the
family that defines the field placed at its fixed position in the order
1-D, 2-D, 3-D, SPH and every other family zero-filled, in both output
modes. -/
theorem anim_c6 (b : Bool) (e1 e2 e3 e4 : List Int)
    (d1 d2 d3 d4 : List Nat)
    (dp1 dpa dp3 dps : List Int) (pt1 pta pt3 pts : List String)
    (np1 npa : Nat) (name : String) (ef tv : List Nat)
    (iefun j ietens n1 n2 n3 n4 : Nat) :
    total_cells n1 n2 n3 n4 = n1 + n2 + n3 + n4 ∧
    (data_values (element_id_tokens b e1 e2 e3 e4 n1 n2 n3 n4)).length =
      total_cells n1 n2 n3 n4 ∧
    (data_values (part_id_tokens b dp1 pt1 np1 n1 dpa pta npa n2 dp3 pt3
      n3 dps pts n4)).length = total_cells n1 n2 n3 n4 ∧
    (data_values (erosion_tokens b d1 d2 d3 d4 n1 n2 n3 n4)).length =
      total_cells n1 n2 n3 n4 ∧
    data_values (scalars_1d_field_tokens b name ef iefun n1 n2 n3 n4) =
      (List.range n1).map (fun iel =>
        LTok.lF32 (ef.getD (iefun * n1 + iel) 0)) ++
      List.replicate n2 (LTok.lF32 z32) ++
      List.replicate n3 (LTok.lF32 z32) ++
      List.replicate n4 (LTok.lF32 z32) ∧
    (data_values
      (scalars_1d_field_tokens b name ef iefun n1 n2 n3 n4)).length =
      total_cells n1 n2 n3 n4 ∧
    data_values (torsor_field_tokens b name tv iefun j n1 n2 n3 n4) =
      (List.range n1).map (fun iel =>
        LTok.lF32 (tv.getD (9 * iefun * n1 + iel * 9 + j) 0)) ++
      List.replicate n2 (LTok.lF32 z32) ++
      List.replicate n3 (LTok.lF32 z32) ++
      List.replicate n4 (LTok.lF32 z32) ∧
    (data_values
      (torsor_field_tokens b name tv iefun j n1 n2 n3 n4)).length =
      total_cells n1 n2 n3 n4 ∧
    data_values (scalars_2d_field_tokens b name ef iefun n1 n2 n3 n4) =
      List.replicate n1 (LTok.lF32 z32) ++
      (List.range n2).map (fun iel =>
        LTok.lF32 (ef.getD (iefun * n2 + iel) 0)) ++
      List.replicate n3 (LTok.lF32 z32) ++
      List.replicate n4 (LTok.lF32 z32) ∧
    (data_values
      (scalars_2d_field_tokens b name ef iefun n1 n2 n3 n4)).length =
      total_cells n1 n2 n3 n4 ∧
    data_values (scalars_3d_field_tokens b name ef iefun n1 n2 n3 n4) =
      List.replicate n1 (LTok.lF32 z32) ++
      List.replicate n2 (LTok.lF32 z32) ++
      (List.range n3).map (fun iel =>
        LTok.lF32 (ef.getD (iefun * n3 + iel) 0)) ++
      List.replicate n4 (LTok.lF32 z32) ∧
    (data_values
      (scalars_3d_field_tokens b name ef iefun n1 n2 n3 n4)).length =
      total_cells n1 n2 n3 n4 ∧
    data_values (scalars_sph_field_tokens b name ef iefun n1 n2 n3 n4) =
      List.replicate n1 (LTok.lF32 z32) ++
      List.replicate n2 (LTok.lF32 z32) ++
      List.replicate n3 (LTok.lF32 z32) ++
      (List.range n4).map (fun iel =>
        LTok.lF32 (ef.getD (iefun * n4 + iel) 0)) ∧
    (data_values
      (scalars_sph_field_tokens b name ef iefun n1 n2 n3 n4)).length =
      total_cells n1 n2 n3 n4 ∧
    (data_values
      (tensors_2d_field_tokens b name tv ietens n1 n2 n3 n4)).length =
      9 * total_cells n1 n2 n3 n4 ∧
    (data_values
      (tensors_3d_field_tokens b name tv ietens n1 n2 n3 n4)).length =
      9 * total_cells n1 n2 n3 n4 ∧
    (data_values
      (tensors_sph_field_tokens b name tv ietens n1 n2 n3 n4)).length =
      9 * total_cells n1 n2 n3 n4 := by
  have htot : total_cells n1 n2 n3 n4 = n1 + n2 + n3 + n4 := rfl
  refine ⟨rfl, ?_, ?_, ?_, scalars_1d_field_dv b name ef iefun n1 n2 n3 n4,
    ?_, torsor_field_dv b name tv iefun j n1 n2 n3 n4, ?_,
    scalars_2d_field_dv b name ef iefun n1 n2 n3 n4, ?_,
    scalars_3d_field_dv b name ef iefun n1 n2 n3 n4, ?_,
    scalars_sph_field_dv b name ef iefun n1 n2 n3 n4, ?_,
    tensors_2d_field_len b name tv ietens n1 n2 n3 n4,
    tensors_3d_field_len b name tv ietens n1 n2 n3 n4,
    tensors_sph_field_len b name tv ietens n1 n2 n3 n4⟩
  · rw [element_id_dv]
    simp only [List.length_append, List.length_map, List.length_range, htot]
  · rw [part_id_dv]
    simp only [List.length_append, List.length_map,
      resolve_part_ids_length, htot]
  · rw [erosion_dv]
    simp only [List.length_append, List.length_map, List.length_range, htot]
  · rw [scalars_1d_field_dv]
    simp only [List.length_append, List.length_map, List.length_range,
      List.length_replicate, htot]
  · rw [torsor_field_dv]
    simp only [List.length_append, List.length_map, List.length_range,
      List.length_replicate, htot]
  · rw [scalars_2d_field_dv]
    simp only [List.length_append, List.length_map, List.length_range,
      List.length_replicate, htot]
  · rw [scalars_3d_field_dv]
    simp only [List.length_append, List.length_map, List.length_range,
      List.length_replicate, htot]
  · rw [scalars_sph_field_dv]
    simp only [List.length_append, List.length_map, List.length_range,
      List.length_replicate, htot]

/-- C10: the NODE_ID and ELEMENT_ID sections are always emitted and index
the external numbering arrays for every node and element.  Under the
decoder's gating invariant — `flag_a[1] = 0` leaves all numbering arrays
empty (main.rs:207-212, 267-269, 329-331, 449-451) — the indexing loops
stay in bounds only when the numbering flag is set or the corresponding
counts are zero; in particular with `flag_a[1] = 0` and a nonzero node
count the NODE_ID loop hits an out-of-bounds index (modelled as `none`)
instead of producing output, while populated arrays of matching length
always serialize successfully. -/
theorem anim_c10 (flag1 : Int)
    (nod_num_a el_num_1d el_num_a el_num_3d nod_num_sph : List Int)
    (nb_nodes n1 n2 n3 n4 : Nat)
    (hgate : flag1 = 0 → nod_num_a = [] ∧ el_num_1d = [] ∧ el_num_a = [] ∧
      el_num_3d = [] ∧ nod_num_sph = []) :
    (((node_id_values_checked nod_num_a nb_nodes).isSome ∧
      (element_id_values_checked el_num_1d el_num_a el_num_3d nod_num_sph
        n1 n2 n3 n4).isSome) →
      (flag1 ≠ 0 ∨ (nb_nodes = 0 ∧ n1 = 0 ∧ n2 = 0 ∧ n3 = 0 ∧ n4 = 0))) ∧
    (flag1 = 0 → 0 < nb_nodes →
      node_id_values_checked nod_num_a nb_nodes = none) ∧
    (nod_num_a.length = nb_nodes → el_num_1d.length = n1 →
      el_num_a.length = n2 → el_num_3d.length = n3 →
      nod_num_sph.length = n4 →
      (node_id_values_checked nod_num_a nb_nodes).isSome ∧
      (element_id_values_checked el_num_1d el_num_a el_num_3d nod_num_sph
        n1 n2 n3 n4).isSome) := by
  have hnode : ∀ (l : List Int) (n : Nat),
      (node_id_values_checked l n).isSome ↔ n ≤ l.length := by
    intro l n
    rw [node_id_values_checked, index_all_eq]
    by_cases h : n ≤ l.length
    · simp [h]
    · simp [h]
  have helem : (element_id_values_checked el_num_1d el_num_a el_num_3d
      nod_num_sph n1 n2 n3 n4).isSome ↔
      (n1 ≤ el_num_1d.length ∧ n2 ≤ el_num_a.length ∧
       n3 ≤ el_num_3d.length ∧ n4 ≤ nod_num_sph.length) := by
    rw [element_id_values_checked, index_all_eq, index_all_eq, index_all_eq,
      index_all_eq]
    by_cases h1 : n1 ≤ el_num_1d.length
    · by_cases h2 : n2 ≤ el_num_a.length
      · by_cases h3 : n3 ≤ el_num_3d.length
        · by_cases h4 : n4 ≤ nod_num_sph.length
          · simp [h1, h2, h3, h4]
          · simp [h1, h2, h3, h4]
        · simp [h1, h2, h3]
      · simp [h1, h2]
    · simp [h1]
  refine ⟨?_, ?_, ?_⟩
  · rintro ⟨hs1, hs2⟩
    by_cases hf : flag1 = 0
    · obtain ⟨ha, hb, hc, hd, he⟩ := hgate hf
      subst ha; subst hb; subst hc; subst hd; subst he
      rw [hnode] at hs1
      rw [helem] at hs2
      simp only [List.length_nil, Nat.le_zero] at hs1 hs2
      exact Or.inr ⟨hs1, hs2.1, hs2.2.1, hs2.2.2.1, hs2.2.2.2⟩
    · exact Or.inl hf
  · intro hf hn
    obtain ⟨ha, _, _, _, _⟩ := hgate hf
    subst ha
    rw [node_id_values_checked, index_all_eq]
    rw [if_neg (by simp; omega)]
  · intro h0 h1 h2 h3 h4
    refine ⟨(hnode _ _).mpr (by omega), helem.mpr ?_⟩
    exact ⟨by omega, by omega, by omega, by omega⟩

/-- C10 (witness): with the numbering flag clear (all numbering arrays
empty) and one node, the NODE_ID serialization aborts on an out-of-bounds
index. -/
theorem anim_c10_witness : node_id_values_checked [] 1 = none :=
  (anim_c10 0 [] [] [] [] [] 1 0 0 0 0
    (fun _ => ⟨rfl, rfl, rfl, rfl, rfl⟩)).2.1 rfl (by norm_num)

theorem logical_loops_eq {α : Type} (fT fA : α → List Tok) (l : List α)
    (h : ∀ a ∈ l, logical (fT a) = logical (fA a)) :
    logical (cat_map fT l) = logical (cat_map fA l) := by
  rw [logical_cat_map, logical_cat_map]
  exact cat_map_congr h

theorem field_data_logical_eq (a_time : Nat) :
    logical (field_data_tokens true a_time) =
      logical (field_data_tokens false a_time) := rfl

theorem points_logical_eq (coor_a : List Nat) (n : Nat) :
    logical (points_tokens true coor_a n) =
      logical (points_tokens false coor_a n) := by
  show logical ([Tok.line ("POINTS " ++ toString n ++ " float")] ++
      cat_map (fun i =>
        [Tok.tF32 (coor_a.getD (3 * i) 0),
         Tok.tF32 (coor_a.getD (3 * i + 1) 0),
         Tok.tF32 (coor_a.getD (3 * i + 2) 0)]) (List.range n) ++
      [Tok.nl]) =
    logical ([Tok.line ("POINTS " ++ toString n ++ " float")] ++
      cat_map (fun i =>
        [Tok.tF32 (coor_a.getD (3 * i) 0),
         Tok.tF32 (coor_a.getD (3 * i + 1) 0),
         Tok.tF32 (coor_a.getD (3 * i + 2) 0), Tok.nl]) (List.range n) ++
      [Tok.nl])
  simp only [logical_append]
  refine congrArg₂ _ (congrArg₂ _ rfl ?_) rfl
  exact logical_loops_eq _ _ _ (fun i _ => rfl)

theorem cells_1d_logical_eq (c : List Int) (n : Nat) :
    logical (cells_1d_tokens true c n) =
      logical (cells_1d_tokens false c n) := by
  show logical (cat_map (fun i =>
      [Tok.tInt 2, Tok.tInt (c.getD (i * 2) 0),
       Tok.tInt (c.getD (i * 2 + 1) 0)]) (List.range n)) =
    logical (cat_map (fun i =>
      [Tok.tInt 2, Tok.tInt (c.getD (i * 2) 0),
       Tok.tInt (c.getD (i * 2 + 1) 0), Tok.nl]) (List.range n))
  exact logical_loops_eq _ _ _ (fun i _ => rfl)

theorem cells_2d_logical_eq (c : List Int) (n : Nat) :
    logical (cells_2d_tokens true c n) =
      logical (cells_2d_tokens false c n) := by
  show logical (cat_map (fun i =>
      [Tok.tInt 4, Tok.tInt (c.getD (i * 4) 0),
       Tok.tInt (c.getD (i * 4 + 1) 0), Tok.tInt (c.getD (i * 4 + 2) 0),
       Tok.tInt (c.getD (i * 4 + 3) 0)]) (List.range n)) =
    logical (cat_map (fun i =>
      [Tok.tInt 4, Tok.tInt (c.getD (i * 4) 0),
       Tok.tInt (c.getD (i * 4 + 1) 0), Tok.tInt (c.getD (i * 4 + 2) 0),
       Tok.tInt (c.getD (i * 4 + 3) 0), Tok.nl]) (List.range n))
  exact logical_loops_eq _ _ _ (fun i _ => rfl)

theorem cells_3d_logical_eq (c : List Int) (n : Nat) :
    logical (cells_3d_tokens true c n) =
      logical (cells_3d_tokens false c n) := by
  show logical (cat_map (fun i =>
      if (distinct_nodes (cell8 c i)).length = 4 then
        Tok.tInt 4 :: (distinct_nodes (cell8 c i)).map Tok.tInt
      else Tok.tInt 8 :: (cell8 c i).map Tok.tInt) (List.range n)) =
    logical (cat_map (fun i =>
      (if (distinct_nodes (cell8 c i)).length = 4 then
        Tok.tInt 4 :: (distinct_nodes (cell8 c i)).map Tok.tInt
      else Tok.tInt 8 :: (cell8 c i).map Tok.tInt) ++ [Tok.nl])
      (List.range n))
  refine logical_loops_eq _ _ _ (fun i _ => ?_)
  rw [logical_append]
  have hnl : logical [Tok.nl] = [] := rfl
  rw [hnl, List.append_nil]

theorem cells_sph_logical_eq (c : List Int) (n : Nat) :
    logical (cells_sph_tokens true c n) =
      logical (cells_sph_tokens false c n) := by
  show logical (cat_map (fun i => [Tok.tInt 1, Tok.tInt (c.getD i 0)])
      (List.range n)) =
    logical (cat_map (fun i =>
      [Tok.tInt 1, Tok.tInt (c.getD i 0), Tok.nl]) (List.range n))
  exact logical_loops_eq _ _ _ (fun i _ => rfl)

theorem cells_tokens_logical_eq (c1 : List Int) (n1 : Nat) (ca : List Int)
    (n2 : Nat) (c3 : List Int) (n3 : Nat) (cs : List Int) (n4 : Nat) :
    logical (cells_tokens true c1 n1 ca n2 c3 n3 cs n4) =
      logical (cells_tokens false c1 n1 ca n2 c3 n3 cs n4) := by
  unfold cells_tokens
  simp only [logical_append]
  refine congrArg₂ _ ?_ rfl
  by_cases ht : total_cells n1 n2 n3 n4 > 0
  · rw [if_pos ht, if_pos ht]
    simp only [logical_append]
    refine congrArg₂ _ (congrArg₂ _ (congrArg₂ _ (congrArg₂ _ rfl
      (cells_1d_logical_eq c1 n1)) (cells_2d_logical_eq ca n2))
      (cells_3d_logical_eq c3 n3)) (cells_sph_logical_eq cs n4)
  · rw [if_neg ht, if_neg ht]

theorem cell_types_logical_eq (n1 : Nat) (ca : List Int) (n2 : Nat)
    (c3 : List Int) (n3 : Nat) (n4 : Nat) :
    logical (cell_types_tokens true n1 ca n2 c3 n3 n4) =
      logical (cell_types_tokens false n1 ca n2 c3 n3 n4) := by
  show logical ((if total_cells n1 n2 n3 n4 > 0 then
      [Tok.line ("CELL_TYPES " ++ toString (total_cells n1 n2 n3 n4))] ++
      (cat_map (fun _ => [Tok.tInt 3]) (List.range n1) ++
       cat_map (fun i =>
        [Tok.tInt (if (distinct_nodes (cell4 ca i)).length = 3
          then 5 else 9)]) (List.range n2) ++
       cat_map (fun i =>
        [Tok.tInt (if (distinct_nodes (cell8 c3 i)).length = 4
          then 10 else 12)]) (List.range n3) ++
       cat_map (fun _ => [Tok.tInt 1]) (List.range n4))
    else []) ++ [Tok.nl]) =
    logical ((if total_cells n1 n2 n3 n4 > 0 then
      [Tok.line ("CELL_TYPES " ++ toString (total_cells n1 n2 n3 n4))] ++
      (cat_map (fun _ => [Tok.tInt 3, Tok.nl]) (List.range n1) ++
       cat_map (fun i =>
        [Tok.tInt (if (distinct_nodes (cell4 ca i)).length = 3
          then 5 else 9), Tok.nl]) (List.range n2) ++
       cat_map (fun i =>
        [Tok.tInt (if (distinct_nodes (cell8 c3 i)).length = 4
          then 10 else 12), Tok.nl]) (List.range n3) ++
       cat_map (fun _ => [Tok.tInt 1, Tok.nl]) (List.range n4))
    else []) ++ [Tok.nl])
  simp only [logical_append]
  refine congrArg₂ _ ?_ rfl
  by_cases ht : total_cells n1 n2 n3 n4 > 0
  · rw [if_pos ht, if_pos ht]
    simp only [logical_append]
    refine congrArg₂ _ rfl (congrArg₂ _ (congrArg₂ _ (congrArg₂ _
      (logical_loops_eq _ _ _ (fun i _ => rfl))
      (logical_loops_eq _ _ _ (fun i _ => rfl)))
      (logical_loops_eq _ _ _ (fun i _ => rfl)))
      (logical_loops_eq _ _ _ (fun i _ => rfl)))
  · rw [if_neg ht, if_neg ht]

theorem node_id_logical_eq (nod_num_a : List Int) (n : Nat) :
    logical (node_id_tokens true nod_num_a n) =
      logical (node_id_tokens false nod_num_a n) := by
  show logical ([Tok.line "SCALARS NODE_ID int 1",
      Tok.line "LOOKUP_TABLE default"] ++
      cat_map (fun i => [Tok.tInt (nod_num_a.getD i 0)]) (List.range n) ++
      [Tok.nl]) =
    logical ([Tok.line "SCALARS NODE_ID int 1",
      Tok.line "LOOKUP_TABLE default"] ++
      cat_map (fun i => [Tok.tInt (nod_num_a.getD i 0), Tok.nl])
        (List.range n) ++ [Tok.nl])
  simp only [logical_append]
  exact congrArg₂ _ (congrArg₂ _ rfl
    (logical_loops_eq _ _ _ (fun i _ => rfl))) rfl

theorem node_scalars_logical_eq (f_text_a : List String)
    (func_a : List Nat) (nb_func n : Nat) :
    logical (node_scalars_tokens true f_text_a func_a nb_func n) =
      logical (node_scalars_tokens false f_text_a func_a nb_func n) := by
  show logical (cat_map (fun ifun =>
      [Tok.line ("SCALARS " ++ replace_underscore (f_text_a.getD ifun "") ++
        " float 1"), Tok.line "LOOKUP_TABLE default"] ++
      cat_map (fun i => [Tok.tF32 (func_a.getD (ifun * n + i) 0)])
        (List.range n) ++ [Tok.nl]) (List.range nb_func)) =
    logical (cat_map (fun ifun =>
      [Tok.line ("SCALARS " ++ replace_underscore (f_text_a.getD ifun "") ++
        " float 1"), Tok.line "LOOKUP_TABLE default"] ++
      cat_map (fun i => [Tok.tF32 (func_a.getD (ifun * n + i) 0), Tok.nl])
        (List.range n) ++ [Tok.nl]) (List.range nb_func))
  refine logical_loops_eq _ _ _ (fun ifun _ => ?_)
  simp only [logical_append]
  exact congrArg₂ _ (congrArg₂ _ rfl
    (logical_loops_eq _ _ _ (fun i _ => rfl))) rfl

theorem node_vectors_logical_eq (v_text_a : List String)
    (vect_val_a : List Nat) (nb_vect n : Nat) :
    logical (node_vectors_tokens true v_text_a vect_val_a nb_vect n) =
      logical (node_vectors_tokens false v_text_a vect_val_a nb_vect n) := by
  show logical (cat_map (fun iv =>
      [Tok.line ("VECTORS " ++ replace_underscore (v_text_a.getD iv "") ++
        " float")] ++
      cat_map (fun i =>
        [Tok.tF32 (vect_val_a.getD (3 * i + iv * 3 * n) 0),
         Tok.tF32 (vect_val_a.getD (3 * i + 1 + iv * 3 * n) 0),
         Tok.tF32 (vect_val_a.getD (3 * i + 2 + iv * 3 * n) 0)])
        (List.range n) ++ [Tok.nl]) (List.range nb_vect)) =
    logical (cat_map (fun iv =>
      [Tok.line ("VECTORS " ++ replace_underscore (v_text_a.getD iv "") ++
        " float")] ++
      cat_map (fun i =>
        [Tok.tF32 (vect_val_a.getD (3 * i + iv * 3 * n) 0),
         Tok.tF32 (vect_val_a.getD (3 * i + 1 + iv * 3 * n) 0),
         Tok.tF32 (vect_val_a.getD (3 * i + 2 + iv * 3 * n) 0), Tok.nl])
        (List.range n) ++ [Tok.nl]) (List.range nb_vect))
  refine logical_loops_eq _ _ _ (fun iv _ => ?_)
  simp only [logical_append]
  exact congrArg₂ _ (congrArg₂ _ rfl
    (logical_loops_eq _ _ _ (fun i _ => rfl))) rfl

theorem element_id_logical_eq (e1 e2 e3 e4 : List Int)
    (n1 n2 n3 n4 : Nat) :
    logical (element_id_tokens true e1 e2 e3 e4 n1 n2 n3 n4) =
      logical (element_id_tokens false e1 e2 e3 e4 n1 n2 n3 n4) := by
  show logical ([Tok.line "SCALARS ELEMENT_ID int 1",
      Tok.line "LOOKUP_TABLE default"] ++
      (cat_map (fun i => [Tok.tInt (e1.getD i 0)]) (List.range n1) ++
       cat_map (fun i => [Tok.tInt (e2.getD i 0)]) (List.range n2) ++
       cat_map (fun i => [Tok.tInt (e3.getD i 0)]) (List.range n3) ++
       cat_map (fun i => [Tok.tInt (e4.getD i 0)]) (List.range n4)) ++
      [Tok.nl]) =
    logical ([Tok.line "SCALARS ELEMENT_ID int 1",
      Tok.line "LOOKUP_TABLE default"] ++
      (cat_map (fun i => [Tok.tInt (e1.getD i 0), Tok.nl])
        (List.range n1) ++
       cat_map (fun i => [Tok.tInt (e2.getD i 0), Tok.nl])
        (List.range n2) ++
       cat_map (fun i => [Tok.tInt (e3.getD i 0), Tok.nl])
        (List.range n3) ++
       cat_map (fun i => [Tok.tInt (e4.getD i 0), Tok.nl])
        (List.range n4)) ++ [Tok.nl])
  simp only [logical_append]
  exact congrArg₂ _ (congrArg₂ _ rfl (congrArg₂ _ (congrArg₂ _
    (congrArg₂ _ (logical_loops_eq _ _ _ (fun i _ => rfl))
      (logical_loops_eq _ _ _ (fun i _ => rfl)))
    (logical_loops_eq _ _ _ (fun i _ => rfl)))
    (logical_loops_eq _ _ _ (fun i _ => rfl)))) rfl

theorem logical_int_list_nl (l : List Int) :
    logical (cat_map (fun v => [Tok.tInt v, Tok.nl]) l) =
      l.map LTok.lInt := by
  rw [map_eq_cat_map]
  exact logical_cat_map_congr (fun _ _ => rfl)

theorem part_id_logical_eq (dp1 : List Int) (pt1 : List String)
    (np1 n1 : Nat) (dpa : List Int) (pta : List String) (npa n2 : Nat)
    (dp3 : List Int) (pt3 : List String) (n3 : Nat)
    (dps : List Int) (pts : List String) (n4 : Nat) :
    logical (part_id_tokens true dp1 pt1 np1 n1 dpa pta npa n2
      dp3 pt3 n3 dps pts n4) =
      logical (part_id_tokens false dp1 pt1 np1 n1 dpa pta npa n2
        dp3 pt3 n3 dps pts n4) := by
  show logical ([Tok.line "SCALARS PART_ID int 1",
      Tok.line "LOOKUP_TABLE default"] ++
      ((resolve_part_ids dp1 pt1 np1 n1).map Tok.tInt ++
       (resolve_part_ids dpa pta npa n2).map Tok.tInt ++
       (resolve_part_ids dp3 pt3 pt3.length n3).map Tok.tInt ++
       (resolve_part_ids dps pts pts.length n4).map Tok.tInt) ++
      [Tok.nl]) =
    logical ([Tok.line "SCALARS PART_ID int 1",
      Tok.line "LOOKUP_TABLE default"] ++
      (cat_map (fun v => [Tok.tInt v, Tok.nl])
        (resolve_part_ids dp1 pt1 np1 n1) ++
       cat_map (fun v => [Tok.tInt v, Tok.nl])
        (resolve_part_ids dpa pta npa n2) ++
       cat_map (fun v => [Tok.tInt v, Tok.nl])
        (resolve_part_ids dp3 pt3 pt3.length n3) ++
       cat_map (fun v => [Tok.tInt v, Tok.nl])
        (resolve_part_ids dps pts pts.length n4)) ++ [Tok.nl])
  simp only [logical_append]
  refine congrArg₂ _ (congrArg₂ _ rfl (congrArg₂ _ (congrArg₂ _
    (congrArg₂ _ ?_ ?_) ?_) ?_)) rfl
  · rw [logical_map_tInt, logical_int_list_nl]
  · rw [logical_map_tInt, logical_int_list_nl]
  · rw [logical_map_tInt, logical_int_list_nl]
  · rw [logical_map_tInt, logical_int_list_nl]

theorem erosion_logical_eq (d1 d2 d3 d4 : List Nat) (n1 n2 n3 n4 : Nat) :
    logical (erosion_tokens true d1 d2 d3 d4 n1 n2 n3 n4) =
      logical (erosion_tokens false d1 d2 d3 d4 n1 n2 n3 n4) := by
  show logical ([Tok.line "SCALARS EROSION_STATUS int 1",
      Tok.line "LOOKUP_TABLE default"] ++
      (cat_map (fun i => [Tok.tInt (if d1.getD i 0 ≠ 0 then 1 else 0)])
        (List.range n1) ++
       cat_map (fun i => [Tok.tInt (if d2.getD i 0 ≠ 0 then 1 else 0)])
        (List.range n2) ++
       cat_map (fun i => [Tok.tInt (if d3.getD i 0 ≠ 0 then 1 else 0)])
        (List.range n3) ++
       cat_map (fun i => [Tok.tInt (if d4.getD i 0 ≠ 0 then 1 else 0)])
        (List.range n4)) ++ [Tok.nl]) =
    logical ([Tok.line "SCALARS EROSION_STATUS int 1",
      Tok.line "LOOKUP_TABLE default"] ++
      (cat_map (fun i =>
        [Tok.tInt (if d1.getD i 0 ≠ 0 then 1 else 0), Tok.nl])
        (List.range n1) ++
       cat_map (fun i =>
        [Tok.tInt (if d2.getD i 0 ≠ 0 then 1 else 0), Tok.nl])
        (List.range n2) ++
       cat_map (fun i =>
        [Tok.tInt (if d3.getD i 0 ≠ 0 then 1 else 0), Tok.nl])
        (List.range n3) ++
       cat_map (fun i =>
        [Tok.tInt (if d4.getD i 0 ≠ 0 then 1 else 0), Tok.nl])
        (List.range n4)) ++ [Tok.nl])
  simp only [logical_append]
  exact congrArg₂ _ (congrArg₂ _ rfl (congrArg₂ _ (congrArg₂ _
    (congrArg₂ _ (logical_loops_eq _ _ _ (fun i _ => rfl))
      (logical_loops_eq _ _ _ (fun i _ => rfl)))
    (logical_loops_eq _ _ _ (fun i _ => rfl)))
    (logical_loops_eq _ _ _ (fun i _ => rfl)))) rfl

theorem scalars_1d_field_logical_eq (name : String) (ef : List Nat)
    (iefun n1 n2 n3 n4 : Nat) :
    logical (scalars_1d_field_tokens true name ef iefun n1 n2 n3 n4) =
      logical (scalars_1d_field_tokens false name ef iefun n1 n2 n3 n4) := by
  show logical ([Tok.line ("SCALARS 1DELEM_" ++ name ++ " float 1"),
      Tok.line "LOOKUP_TABLE default"] ++
      (cat_map (fun iel => [Tok.tF32 (ef.getD (iefun * n1 + iel) 0)])
        (List.range n1) ++
       cat_map (fun _ => [Tok.tF32 z32]) (List.range n2) ++
       cat_map (fun _ => [Tok.tF32 z32]) (List.range n3) ++
       cat_map (fun _ => [Tok.tF32 z32]) (List.range n4)) ++ [Tok.nl]) =
    logical ([Tok.line ("SCALARS 1DELEM_" ++ name ++ " float 1"),
      Tok.line "LOOKUP_TABLE default"] ++
      (cat_map (fun iel =>
        [Tok.tF32 (ef.getD (iefun * n1 + iel) 0), Tok.nl])
        (List.range n1) ++
       cat_map (fun _ => [Tok.tF32 z32, Tok.nl]) (List.range n2) ++
       cat_map (fun _ => [Tok.tF32 z32, Tok.nl]) (List.range n3) ++
       cat_map (fun _ => [Tok.tF32 z32, Tok.nl]) (List.range n4)) ++
      [Tok.nl])
  simp only [logical_append]
  exact congrArg₂ _ (congrArg₂ _ rfl (congrArg₂ _ (congrArg₂ _
    (congrArg₂ _ (logical_loops_eq _ _ _ (fun i _ => rfl))
      (logical_loops_eq _ _ _ (fun i _ => rfl)))
    (logical_loops_eq _ _ _ (fun i _ => rfl)))
    (logical_loops_eq _ _ _ (fun i _ => rfl)))) rfl

theorem scalars_1d_logical_eq (f_text_1d : List String) (ef : List Nat)
    (nf n1 n2 n3 n4 : Nat) :
    logical (scalars_1d_tokens true f_text_1d ef nf n1 n2 n3 n4) =
      logical (scalars_1d_tokens false f_text_1d ef nf n1 n2 n3 n4) := by
  unfold scalars_1d_tokens
  exact logical_loops_eq _ _ _
    (fun iefun _ => scalars_1d_field_logical_eq _ ef iefun n1 n2 n3 n4)

theorem torsor_field_logical_eq (name : String) (tv : List Nat)
    (iefun j n1 n2 n3 n4 : Nat) :
    logical (torsor_field_tokens true name tv iefun j n1 n2 n3 n4) =
      logical (torsor_field_tokens false name tv iefun j n1 n2 n3 n4) := by
  show logical ([Tok.line ("SCALARS 1DELEM_" ++ name ++
      tors_names.getD j "" ++ " float 1"),
      Tok.line "LOOKUP_TABLE default"] ++
      (cat_map (fun iel =>
        [Tok.tF32 (tv.getD (9 * iefun * n1 + iel * 9 + j) 0)])
        (List.range n1) ++
       cat_map (fun _ => [Tok.tF32 z32]) (List.range n2) ++
       cat_map (fun _ => [Tok.tF32 z32]) (List.range n3) ++
       cat_map (fun _ => [Tok.tF32 z32]) (List.range n4)) ++ [Tok.nl]) =
    logical ([Tok.line ("SCALARS 1DELEM_" ++ name ++
      tors_names.getD j "" ++ " float 1"),
      Tok.line "LOOKUP_TABLE default"] ++
      (cat_map (fun iel =>
        [Tok.tF32 (tv.getD (9 * iefun * n1 + iel * 9 + j) 0), Tok.nl])
        (List.range n1) ++
       cat_map (fun _ => [Tok.tF32 z32, Tok.nl]) (List.range n2) ++
       cat_map (fun _ => [Tok.tF32 z32, Tok.nl]) (List.range n3) ++
       cat_map (fun _ => [Tok.tF32 z32, Tok.nl]) (List.range n4)) ++
      [Tok.nl])
  simp only [logical_append]
  exact congrArg₂ _ (congrArg₂ _ rfl (congrArg₂ _ (congrArg₂ _
    (congrArg₂ _ (logical_loops_eq _ _ _ (fun i _ => rfl))
      (logical_loops_eq _ _ _ (fun i _ => rfl)))
    (logical_loops_eq _ _ _ (fun i _ => rfl)))
    (logical_loops_eq _ _ _ (fun i _ => rfl)))) rfl

theorem torsors_1d_logical_eq (t_text_1d : List String) (tv : List Nat)
    (nt n1 n2 n3 n4 : Nat) :
    logical (torsors_1d_tokens true t_text_1d tv nt n1 n2 n3 n4) =
      logical (torsors_1d_tokens false t_text_1d tv nt n1 n2 n3 n4) := by
  unfold torsors_1d_tokens
  refine logical_loops_eq _ _ _ (fun iefun _ => ?_)
  exact logical_loops_eq _ _ _
    (fun j _ => torsor_field_logical_eq _ tv iefun j n1 n2 n3 n4)

theorem scalars_2d_field_logical_eq (name : String) (ef : List Nat)
    (iefun n1 n2 n3 n4 : Nat) :
    logical (scalars_2d_field_tokens true name ef iefun n1 n2 n3 n4) =
      logical (scalars_2d_field_tokens false name ef iefun n1 n2 n3 n4) := by
  show logical ([Tok.line ("SCALARS 2DELEM_" ++ name ++ " float 1"),
      Tok.line "LOOKUP_TABLE default"] ++
      (cat_map (fun _ => [Tok.tF32 z32]) (List.range n1) ++
       cat_map (fun iel => [Tok.tF32 (ef.getD (iefun * n2 + iel) 0)])
        (List.range n2) ++
       cat_map (fun _ => [Tok.tF32 z32]) (List.range n3) ++
       cat_map (fun _ => [Tok.tF32 z32]) (List.range n4)) ++ [Tok.nl]) =
    logical ([Tok.line ("SCALARS 2DELEM_" ++ name ++ " float 1"),
      Tok.line "LOOKUP_TABLE default"] ++
      (cat_map (fun _ => [Tok.tF32 z32, Tok.nl]) (List.range n1) ++
       cat_map (fun iel =>
        [Tok.tF32 (ef.getD (iefun * n2 + iel) 0), Tok.nl])
        (List.range n2) ++
       cat_map (fun _ => [Tok.tF32 z32, Tok.nl]) (List.range n3) ++
       cat_map (fun _ => [Tok.tF32 z32, Tok.nl]) (List.range n4)) ++
      [Tok.nl])
  simp only [logical_append]
  exact congrArg₂ _ (congrArg₂ _ rfl (congrArg₂ _ (congrArg₂ _
    (congrArg₂ _ (logical_loops_eq _ _ _ (fun i _ => rfl))
      (logical_loops_eq _ _ _ (fun i _ => rfl)))
    (logical_loops_eq _ _ _ (fun i _ => rfl)))
    (logical_loops_eq _ _ _ (fun i _ => rfl)))) rfl

theorem scalars_2d_logical_eq (f_text_a : List String) (ef : List Nat)
    (ne nf n1 n2 n3 n4 : Nat) :
    logical (scalars_2d_tokens true f_text_a ef ne nf n1 n2 n3 n4) =
      logical (scalars_2d_tokens false f_text_a ef ne nf n1 n2 n3 n4) := by
  unfold scalars_2d_tokens
  exact logical_loops_eq _ _ _
    (fun iefun _ => scalars_2d_field_logical_eq _ ef iefun n1 n2 n3 n4)

theorem zero_tensor_logical_eq :
    logical (zero_tensor_tokens true) = logical (zero_tensor_tokens false) :=
  rfl

theorem six_tensor_logical_eq (tv : List Nat) (base : Nat) :
    logical (six_tensor_tokens tv base false) =
      logical (six_tensor_tokens tv base true) := rfl

theorem tensors_2d_field_logical_eq (name : String) (tv : List Nat)
    (ietens n1 n2 n3 n4 : Nat) :
    logical (tensors_2d_field_tokens true name tv ietens n1 n2 n3 n4) =
      logical (tensors_2d_field_tokens false name tv ietens n1 n2 n3 n4) := by
  show logical ([Tok.line ("TENSORS 2DELEM_" ++ name ++ " float")] ++
      (cat_map (fun _ => zero_tensor_tokens true) (List.range n1) ++
       cat_map (fun iel =>
        [Tok.tF32 (tv.getD (iel * 3 + ietens * 3 * n2) 0),
         Tok.tF32 (tv.getD (iel * 3 + ietens * 3 * n2 + 2) 0),
         Tok.tF32 z32,
         Tok.tF32 (tv.getD (iel * 3 + ietens * 3 * n2 + 2) 0),
         Tok.tF32 (tv.getD (iel * 3 + ietens * 3 * n2 + 1) 0),
         Tok.tF32 z32, Tok.tF32 z32, Tok.tF32 z32, Tok.tF32 z32])
        (List.range n2) ++
       cat_map (fun _ => zero_tensor_tokens true) (List.range n3) ++
       cat_map (fun _ => zero_tensor_tokens true) (List.range n4)) ++
      [Tok.nl]) =
    logical ([Tok.line ("TENSORS 2DELEM_" ++ name ++ " float")] ++
      (cat_map (fun _ => zero_tensor_tokens false) (List.range n1) ++
       cat_map (fun iel =>
        [Tok.tF32 (tv.getD (iel * 3 + ietens * 3 * n2) 0),
         Tok.tF32 (tv.getD (iel * 3 + ietens * 3 * n2 + 2) 0),
         Tok.tF32 z32, Tok.nl,
         Tok.tF32 (tv.getD (iel * 3 + ietens * 3 * n2 + 2) 0),
         Tok.tF32 (tv.getD (iel * 3 + ietens * 3 * n2 + 1) 0),
         Tok.tF32 z32, Tok.nl,
         Tok.tF32 z32, Tok.tF32 z32, Tok.tF32 z32, Tok.nl])
        (List.range n2) ++
       cat_map (fun _ => zero_tensor_tokens false) (List.range n3) ++
       cat_map (fun _ => zero_tensor_tokens false) (List.range n4)) ++
      [Tok.nl])
  simp only [logical_append]
  exact congrArg₂ _ (congrArg₂ _ rfl (congrArg₂ _ (congrArg₂ _
    (congrArg₂ _ (logical_loops_eq _ _ _ (fun i _ => rfl))
      (logical_loops_eq _ _ _ (fun i _ => rfl)))
    (logical_loops_eq _ _ _ (fun i _ => rfl)))
    (logical_loops_eq _ _ _ (fun i _ => rfl)))) rfl

theorem tensors_2d_logical_eq (t_text_a : List String) (tv : List Nat)
    (nt n1 n2 n3 n4 : Nat) :
    logical (tensors_2d_tokens true t_text_a tv nt n1 n2 n3 n4) =
      logical (tensors_2d_tokens false t_text_a tv nt n1 n2 n3 n4) := by
  unfold tensors_2d_tokens
  exact logical_loops_eq _ _ _
    (fun ietens _ => tensors_2d_field_logical_eq _ tv ietens n1 n2 n3 n4)

theorem scalars_3d_field_logical_eq (name : String) (ef : List Nat)
    (iefun n1 n2 n3 n4 : Nat) :
    logical (scalars_3d_field_tokens true name ef iefun n1 n2 n3 n4) =
      logical (scalars_3d_field_tokens false name ef iefun n1 n2 n3 n4) := by
  show logical ([Tok.line ("SCALARS 3DELEM_" ++ name ++ " float 1"),
      Tok.line "LOOKUP_TABLE default"] ++
      (cat_map (fun _ => [Tok.tF32 z32]) (List.range n1) ++
       cat_map (fun _ => [Tok.tF32 z32]) (List.range n2) ++
       cat_map (fun iel => [Tok.tF32 (ef.getD (iefun * n3 + iel) 0)])
        (List.range n3) ++
       cat_map (fun _ => [Tok.tF32 z32]) (List.range n4)) ++ [Tok.nl]) =
    logical ([Tok.line ("SCALARS 3DELEM_" ++ name ++ " float 1"),
      Tok.line "LOOKUP_TABLE default"] ++
      (cat_map (fun _ => [Tok.tF32 z32, Tok.nl]) (List.range n1) ++
       cat_map (fun _ => [Tok.tF32 z32, Tok.nl]) (List.range n2) ++
       cat_map (fun iel =>
        [Tok.tF32 (ef.getD (iefun * n3 + iel) 0), Tok.nl])
        (List.range n3) ++
       cat_map (fun _ => [Tok.tF32 z32, Tok.nl]) (List.range n4)) ++
      [Tok.nl])
  simp only [logical_append]
  exact congrArg₂ _ (congrArg₂ _ rfl (congrArg₂ _ (congrArg₂ _
    (congrArg₂ _ (logical_loops_eq _ _ _ (fun i _ => rfl))
      (logical_loops_eq _ _ _ (fun i _ => rfl)))
    (logical_loops_eq _ _ _ (fun i _ => rfl)))
    (logical_loops_eq _ _ _ (fun i _ => rfl)))) rfl

theorem scalars_3d_logical_eq (f_text_3d : List String) (ef : List Nat)
    (ne n1 n2 n3 n4 : Nat) :
    logical (scalars_3d_tokens true f_text_3d ef ne n1 n2 n3 n4) =
      logical (scalars_3d_tokens false f_text_3d ef ne n1 n2 n3 n4) := by
  unfold scalars_3d_tokens
  exact logical_loops_eq _ _ _
    (fun iefun _ => scalars_3d_field_logical_eq _ ef iefun n1 n2 n3 n4)

theorem tensors_3d_field_logical_eq (name : String) (tv : List Nat)
    (ietens n1 n2 n3 n4 : Nat) :
    logical (tensors_3d_field_tokens true name tv ietens n1 n2 n3 n4) =
      logical (tensors_3d_field_tokens false name tv ietens n1 n2 n3 n4) := by
  show logical ([Tok.line ("TENSORS 3DELEM_" ++ name ++ " float")] ++
      (cat_map (fun _ => zero_tensor_tokens true) (List.range n1) ++
       cat_map (fun _ => zero_tensor_tokens true) (List.range n2) ++
       cat_map (fun iel =>
        six_tensor_tokens tv (iel * 6 + ietens * 6 * n3) false)
        (List.range n3) ++
       cat_map (fun _ => zero_tensor_tokens true) (List.range n4)) ++
      [Tok.nl]) =
    logical ([Tok.line ("TENSORS 3DELEM_" ++ name ++ " float")] ++
      (cat_map (fun _ => zero_tensor_tokens false) (List.range n1) ++
       cat_map (fun _ => zero_tensor_tokens false) (List.range n2) ++
       cat_map (fun iel =>
        six_tensor_tokens tv (iel * 6 + ietens * 6 * n3) true)
        (List.range n3) ++
       cat_map (fun _ => zero_tensor_tokens false) (List.range n4)) ++
      [Tok.nl])
  simp only [logical_append]
  exact congrArg₂ _ (congrArg₂ _ rfl (congrArg₂ _ (congrArg₂ _
    (congrArg₂ _ (logical_loops_eq _ _ _ (fun i _ => rfl))
      (logical_loops_eq _ _ _ (fun i _ => rfl)))
    (logical_loops_eq _ _ _ (fun i _ => rfl)))
    (logical_loops_eq _ _ _ (fun i _ => rfl)))) rfl

theorem tensors_3d_logical_eq (t_text_3d : List String) (tv : List Nat)
    (nt n1 n2 n3 n4 : Nat) :
    logical (tensors_3d_tokens true t_text_3d tv nt n1 n2 n3 n4) =
      logical (tensors_3d_tokens false t_text_3d tv nt n1 n2 n3 n4) := by
  unfold tensors_3d_tokens
  exact logical_loops_eq _ _ _
    (fun ietens _ => tensors_3d_field_logical_eq _ tv ietens n1 n2 n3 n4)

theorem scalars_sph_field_logical_eq (name : String) (ef : List Nat)
    (iefun n1 n2 n3 n4 : Nat) :
    logical (scalars_sph_field_tokens true name ef iefun n1 n2 n3 n4) =
      logical (scalars_sph_field_tokens false name ef iefun n1 n2 n3 n4) := by
  show logical ([Tok.line ("SCALARS SPHELEM_" ++ name ++ " float 1"),
      Tok.line "LOOKUP_TABLE default"] ++
      (cat_map (fun _ => [Tok.tF32 z32]) (List.range n1) ++
       cat_map (fun _ => [Tok.tF32 z32]) (List.range n2) ++
       cat_map (fun _ => [Tok.tF32 z32]) (List.range n3) ++
       cat_map (fun iel => [Tok.tF32 (ef.getD (iefun * n4 + iel) 0)])
        (List.range n4)) ++ [Tok.nl]) =
    logical ([Tok.line ("SCALARS SPHELEM_" ++ name ++ " float 1"),
      Tok.line "LOOKUP_TABLE default"] ++
      (cat_map (fun _ => [Tok.tF32 z32, Tok.nl]) (List.range n1) ++
       cat_map (fun _ => [Tok.tF32 z32, Tok.nl]) (List.range n2) ++
       cat_map (fun _ => [Tok.tF32 z32, Tok.nl]) (List.range n3) ++
       cat_map (fun iel =>
        [Tok.tF32 (ef.getD (iefun * n4 + iel) 0), Tok.nl])
        (List.range n4)) ++ [Tok.nl])
  simp only [logical_append]
  exact congrArg₂ _ (congrArg₂ _ rfl (congrArg₂ _ (congrArg₂ _
    (congrArg₂ _ (logical_loops_eq _ _ _ (fun i _ => rfl))
      (logical_loops_eq _ _ _ (fun i _ => rfl)))
    (logical_loops_eq _ _ _ (fun i _ => rfl)))
    (logical_loops_eq _ _ _ (fun i _ => rfl)))) rfl

theorem tensors_sph_field_logical_eq (name : String) (tv : List Nat)
    (ietens n1 n2 n3 n4 : Nat) :
    logical (tensors_sph_field_tokens true name tv ietens n1 n2 n3 n4) =
      logical (tensors_sph_field_tokens false name tv ietens n1 n2 n3 n4) := by
  show logical ([Tok.line ("TENSORS SPHELEM_" ++ name ++ " float")] ++
      (cat_map (fun _ => zero_tensor_tokens true) (List.range n1) ++
       cat_map (fun _ => zero_tensor_tokens true) (List.range n2) ++
       cat_map (fun _ => zero_tensor_tokens true) (List.range n3) ++
       cat_map (fun iel =>
        six_tensor_tokens tv (iel * 6 + ietens * 6 * n4) false)
        (List.range n4)) ++ [Tok.nl]) =
    logical ([Tok.line ("TENSORS SPHELEM_" ++ name ++ " float")] ++
      (cat_map (fun _ => zero_tensor_tokens false) (List.range n1) ++
       cat_map (fun _ => zero_tensor_tokens false) (List.range n2) ++
       cat_map (fun _ => zero_tensor_tokens false) (List.range n3) ++
       cat_map (fun iel =>
        six_tensor_tokens tv (iel * 6 + ietens * 6 * n4) true)
        (List.range n4)) ++ [Tok.nl])
  simp only [logical_append]
  exact congrArg₂ _ (congrArg₂ _ rfl (congrArg₂ _ (congrArg₂ _
    (congrArg₂ _ (logical_loops_eq _ _ _ (fun i _ => rfl))
      (logical_loops_eq _ _ _ (fun i _ => rfl)))
    (logical_loops_eq _ _ _ (fun i _ => rfl)))
    (logical_loops_eq _ _ _ (fun i _ => rfl)))) rfl

theorem sph_fields_logical_eq (flag7 : Int) (st : List String)
    (ef : List Nat) (tt : List String) (tv : List Nat)
    (ne nt n1 n2 n3 n4 : Nat) :
    logical (sph_fields_tokens true flag7 st ef tt tv ne nt n1 n2 n3 n4) =
      logical (sph_fields_tokens false flag7 st ef tt tv ne nt n1 n2 n3
        n4) := by
  unfold sph_fields_tokens
  by_cases hf : flag7 ≠ 0
  · rw [if_pos hf, if_pos hf, logical_append, logical_append]
    refine congrArg₂ _ ?_ ?_
    · exact logical_loops_eq _ _ _ (fun iefun _ =>
        scalars_sph_field_logical_eq _ ef iefun n1 n2 n3 n4)
    · exact logical_loops_eq _ _ _ (fun ietens _ =>
        tensors_sph_field_logical_eq _ tv ietens n1 n2 n3 n4)
  · rw [if_neg hf, if_neg hf]

/-- C9: for every decoded frame, the binary-mode and ASCII-mode outputs
coincide logically.  Their token streams agree on the first two header
lines, differ at exactly the encoding declaration (`BINARY` versus
`ASCII`, the third line), and from the fourth line on — every section
header, every count, every padding slot and every field value in order —
their logical content (formatting erased, the widened f64 time identified
with its exact f32 origin) is identical. -/
theorem anim_c9 (f : Frame) :
    List.take 2 (logical (anim_vtk_tokens true f)) =
      List.take 2 (logical (anim_vtk_tokens false f)) ∧
    (logical (anim_vtk_tokens true f)).get? 2 =
      some (LTok.hline "BINARY") ∧
    (logical (anim_vtk_tokens false f)).get? 2 =
      some (LTok.hline "ASCII") ∧
    List.drop 3 (logical (anim_vtk_tokens true f)) =
      List.drop 3 (logical (anim_vtk_tokens false f)) := by
  unfold anim_vtk_tokens
  simp only [logical_append, List.append_assoc]
  rw [field_data_logical_eq, points_logical_eq, cells_tokens_logical_eq,
    cell_types_logical_eq, node_id_logical_eq, node_scalars_logical_eq,
    node_vectors_logical_eq, element_id_logical_eq, part_id_logical_eq,
    erosion_logical_eq, scalars_1d_logical_eq, torsors_1d_logical_eq,
    scalars_2d_logical_eq, tensors_2d_logical_eq, scalars_3d_logical_eq,
    tensors_3d_logical_eq, sph_fields_logical_eq]
  exact ⟨rfl, rfl, rfl, rfl⟩
